import Mathlib

/-! State tracker and scene coordinator of `moveit_ros/planning/planning_scene_monitor`.

A shallow embedding of `CurrentStateMonitor` (current_state_monitor.cpp) and of
`PlanningSceneMonitor` (planning_scene_monitor.cpp: the classification of scene messages,
the diff chain, the notification and republication of updates, the throttled state
refresh, and the maps of shape handles kept for the occupancy map), followed by theorems
about them.

Conventions of the embedding.

* `double` values are rationals (every finite `double` is one); comparisons are exact. The
  sums, differences and quotients that `CurrentStateMonitor` computes in `double`
  (`min - error_`, `max + error_`, `wait_time / 10.0`, `slept_time += sleep_step_s`) and
  its decimal literal `0.05` are rounded by `roundDouble`. NaN, the infinities, overflow
  and the sign of zero are not represented. The differences of wall-clock readings of
  `PlanningSceneMonitor` are exact.
* `rclcpp::Time` and `rclcpp::Duration` are integers (nanoseconds); the clock reading
  `ros_clock.now()` is an explicit argument `now`.
* A `const JointModel*` is the `JointModel` value it points to (a model never holds two
  joints of the same name), so `std::map<const JointModel*, rclcpp::Time>` is a function
  `JointModel → Option Time`.
* Observer callbacks are opaque `std::function` objects: a callback is an identifier and
  a call is recorded as an event, in the order the calls are made.
* Locks and condition variables have no effect in a sequential run; `notify_all` is
  recorded as an event.
-/

namespace planning_scene_monitor

/-- Nanoseconds of an `rclcpp::Time` or `rclcpp::Duration`. -/
abbrev Time := Int

/-- The joint kinds of `moveit::core::JointModel::JointType`. -/
inductive JointType where
  | UNKNOWN
  | REVOLUTE
  | PRISMATIC
  | PLANAR
  | FLOATING
  | FIXED
  deriving DecidableEq, Repr

/-- The two fields of `robot_model::VariableBounds` that the monitor reads. -/
structure VariableBounds where
  min_position_ : ℚ
  max_position_ : ℚ
  deriving DecidableEq, Repr

/-- What the monitor asks of a `moveit::core::JointModel`: `getName()`, `getType()`,
`getVariableCount()`, `RevoluteJointModel::isContinuous()`, `isPassive()`,
`getMimic() != nullptr` and `getVariableBounds()[0]`. -/
structure JointModel where
  name : String
  type : JointType
  variableCount : Nat
  continuous : Bool
  passive : Bool
  mimic : Bool
  bounds0 : VariableBounds
  deriving DecidableEq, Repr

/-- What the monitor asks of a `moveit::core::JointModelGroup`: `getName()` and the vector
returned by `getJointModelNames()`. -/
structure JointModelGroup where
  name : String
  joint_model_names : List String
  deriving DecidableEq, Repr

/-- What the monitor asks of a `robot_model::RobotModel`: the joints found by name, the
vector returned by `getActiveJointModels()` and the joint groups found by name. -/
structure RobotModel where
  joint_models : List JointModel
  active_joint_models : List JointModel
  joint_model_groups : List JointModelGroup := []

/-- The lookup `robot_model_->getJointModel(name)`, `none` for the null pointer. -/
def RobotModel.getJointModel (m : RobotModel) (name : String) : Option JointModel :=
  m.joint_models.find? (fun j => j.name == name)

/-- The fields of `sensor_msgs::msg::JointState` (`stamp` is `header.stamp`). -/
structure JointState where
  stamp : Time
  name : List String
  position : List ℚ
  velocity : List ℚ
  effort : List ℚ
  deriving DecidableEq, Repr

/-- Modelled from the spec: `robot_state::RobotState` (moveit_core) is not among the
sources; following the data model (JointSnapshot: a mapping from joint to position,
velocity and effort) it is a record of mappings, with a flag for each optional quantity
(`hasVelocities()`, `hasAccelerations()`, `hasEffort()`). Only single-variable joints are
read and written by the embedded code, so a joint maps to one number. A write to one joint
leaves every other joint as it is (the propagation of a position to joints that mimic the
written joint is not represented). -/
structure RobotState where
  position : JointModel → ℚ
  velocity : JointModel → ℚ
  effort : JointModel → ℚ
  acceleration : JointModel → ℚ := fun _ => 0
  has_velocity_ : Bool := false
  has_acceleration_ : Bool := false
  has_effort_ : Bool := false

/-- Modelled from the spec: `RobotState::getJointPositions(jm)[0]`, the stored position
of a single-variable joint. -/
def RobotState.getJointPositions (rs : RobotState) (jm : JointModel) : ℚ :=
  rs.position jm

/-- Modelled from the spec: `RobotState::setJointPositions(jm, &p)` records `p` as the
position of `jm`. -/
def RobotState.setJointPositions (rs : RobotState) (jm : JointModel) (p : ℚ) : RobotState :=
  { rs with position := Function.update rs.position jm p }

/-- Modelled from the spec: `RobotState::setJointVelocities(jm, &v)` records `v` as the
velocity of `jm`; the state has velocities from then on. -/
def RobotState.setJointVelocities (rs : RobotState) (jm : JointModel) (v : ℚ) : RobotState :=
  { rs with velocity := Function.update rs.velocity jm v, has_velocity_ := true }

/-- Modelled from the spec: `RobotState::setJointEfforts(jm, &e)` records `e` as the
effort of `jm`; the state has efforts from then on. -/
def RobotState.setJointEfforts (rs : RobotState) (jm : JointModel) (e : ℚ) : RobotState :=
  { rs with effort := Function.update rs.effort jm e, has_effort_ := true }

/-- The members of `CurrentStateMonitor` that the embedded functions read or write.
`update_callbacks_` holds the identifiers of the registered callbacks, in registration
order; `joint_state_subscriber_` holds the topic of the subscription, if there is one. The
robot model is present (the monitor was constructed with one). -/
structure CurrentStateMonitor where
  robot_model_ : RobotModel
  robot_state_ : RobotState
  joint_time_ : JointModel → Option Time
  current_state_time_ : Time
  copy_dynamics_ : Bool
  error_ : ℚ
  update_callbacks_ : List Nat
  state_monitor_started_ : Bool := false
  joint_state_subscriber_ : Option String := none
  monitor_start_time_ : Time := 0

/-- What a run of `jointStateCallback` does to the outside: a call of a registered
callback with the received message, or `state_update_condition_.notify_all()`. -/
inductive Event where
  | update_callback (cb : Nat) (joint_state : JointState)
  | notify_all
  deriving DecidableEq, Repr

/-- The multiple of `quantum` nearest to `q`; of two nearest multiples, the even one (round
to nearest, ties to even). -/
def roundToMultiple (quantum q : ℚ) : ℚ :=
  let t := q / quantum
  let f : Int := ⌊t⌋
  if t - f < 1 / 2 then f * quantum
  else if 1 / 2 < t - f then (f + 1) * quantum
  else if f % 2 = 0 then f * quantum
  else (f + 1) * quantum

/-- The rounding of the `double` arithmetic of the source (IEEE 754 binary64, round to
nearest, ties to even): the `double` result of `a + b`, `a - b`, `a / b` and the value of a
decimal literal are `roundDouble` of the exact number. A number of magnitude in
`[2^e, 2^(e+1))` is rounded to a multiple of `2^(e-52)` (53 significant bits), a number of
magnitude below `2^-1022` to a multiple of `2^-1074`. Overflow to an infinity is not
represented. -/
def roundDouble (q : ℚ) : ℚ :=
  if q = 0 then 0
  else roundToMultiple ((2 : ℚ) ^ (max (Int.log 2 |q|) (-1022) - 52)) q

/-- The test `joint_state->position[i] < b.min_position_ &&
joint_state->position[i] >= b.min_position_ - error_` of `jointStateCallback`; the
difference is computed in `double`. -/
def belowWithinError (error_ : ℚ) (b : VariableBounds) (p : ℚ) : Bool :=
  decide (p < b.min_position_) && decide (p ≥ roundDouble (b.min_position_ - error_))

/-- The test `joint_state->position[i] > b.max_position_ &&
joint_state->position[i] <= b.max_position_ + error_` of `jointStateCallback`; the sum is
computed in `double`. -/
def aboveWithinError (error_ : ℚ) (b : VariableBounds) (p : ℚ) : Bool :=
  decide (p > b.max_position_) && decide (p ≤ roundDouble (b.max_position_ + error_))

/-- The test `jm->getType() == REVOLUTE` followed by `isContinuous()`. -/
def JointModel.isContinuousRevolute (jm : JointModel) : Bool :=
  decide (jm.type = JointType.REVOLUTE) && jm.continuous

/-- The body of the `for` loop of `jointStateCallback` at index `i`, on the monitor and
the local flag `update`. -/
def jointStateStep (joint_state : JointState) (i : Nat)
    (st : CurrentStateMonitor × Bool) : CurrentStateMonitor × Bool :=
  match st.1.robot_model_.getJointModel (joint_state.name.getD i "") with
  | none => st
  | some jm =>
    if jm.variableCount ≠ 1 then st
    else
      let mon : CurrentStateMonitor :=
        { st.1 with joint_time_ := Function.update st.1.joint_time_ jm (some joint_state.stamp) }
      let p := joint_state.position.getD i 0
      if mon.robot_state_.getJointPositions jm ≠ p then
        let rs1 := mon.robot_state_.setJointPositions jm p
        let rs2 :=
          if mon.copy_dynamics_ then
            if joint_state.name.length = joint_state.velocity.length then
              let rsv := rs1.setJointVelocities jm (joint_state.velocity.getD i 0)
              if joint_state.name.length = joint_state.effort.length then
                rsv.setJointEfforts jm (joint_state.effort.getD i 0)
              else rsv
            else rs1
          else rs1
        if jm.isContinuousRevolute then
          ({ mon with robot_state_ := rs2 }, true)
        else
          let b := jm.bounds0
          let rs3 :=
            if belowWithinError mon.error_ b p then rs2.setJointPositions jm b.min_position_
            else if aboveWithinError mon.error_ b p then rs2.setJointPositions jm b.max_position_
            else rs2
          ({ mon with robot_state_ := rs3 }, true)
      else (mon, st.2)

/-- The loop `for (std::size_t i = 0; i < n; ++i)` of `jointStateCallback`, entered at
index `i` with `todo` iterations left. -/
def jointStateLoop (joint_state : JointState) :
    Nat → Nat → CurrentStateMonitor × Bool → CurrentStateMonitor × Bool
  | _, 0, st => st
  | i, todo + 1, st => jointStateLoop joint_state (i + 1) todo (jointStateStep joint_state i st)

/-- The method `CurrentStateMonitor::jointStateCallback`: the monitor after the call and
the events of the call, in order. -/
def jointStateCallback (mon : CurrentStateMonitor) (joint_state : JointState) :
    CurrentStateMonitor × List Event :=
  if joint_state.name.length ≠ joint_state.position.length then (mon, [])
  else
    let n := joint_state.name.length
    let mon1 : CurrentStateMonitor := { mon with current_state_time_ := joint_state.stamp }
    let st := jointStateLoop joint_state 0 n (mon1, false)
    (st.1,
      (if st.2 then mon.update_callbacks_.map (fun cb => Event.update_callback cb joint_state)
        else []) ++ [Event.notify_all])

/-- The method `CurrentStateMonitor::getCurrentStateAndTime() const`: a copy of the stored
robot state and the snapshot time. -/
def getCurrentStateAndTime (mon : CurrentStateMonitor) : RobotState × Time :=
  (mon.robot_state_, mon.current_state_time_)

/-- The method `CurrentStateMonitor::haveCompleteState() const`. -/
def haveCompleteState (mon : CurrentStateMonitor) : Bool :=
  mon.robot_model_.active_joint_models.foldl
    (fun result joint =>
      if mon.joint_time_ joint = none then
        if !joint.passive && !joint.mimic then false else result
      else result)
    true

/-- The method `CurrentStateMonitor::haveCompleteState(std::vector<std::string>&) const`:
the returned flag and the vector `missing_states` after the call. -/
def haveCompleteStateMissing (mon : CurrentStateMonitor) (missing_states : List String) :
    Bool × List String :=
  mon.robot_model_.active_joint_models.foldl
    (fun acc joint =>
      if mon.joint_time_ joint = none then
        if !joint.passive && !joint.mimic then (false, acc.2 ++ [joint.name]) else acc
      else acc)
    (true, missing_states)

/-- The method `CurrentStateMonitor::haveCompleteState(const rclcpp::Duration&) const`,
with the clock reading `now`. -/
def haveCompleteStateAge (mon : CurrentStateMonitor) (now : Time) (age : Time) : Bool :=
  let old := now - age
  mon.robot_model_.active_joint_models.foldl
    (fun result joint =>
      if joint.passive || joint.mimic then result
      else
        match mon.joint_time_ joint with
        | none => false
        | some t => if t < old then false else result)
    true

/-- The method `CurrentStateMonitor::haveCompleteState(const rclcpp::Duration&,
std::vector<std::string>&) const`, with the clock reading `now`: the returned flag and the
vector `missing_states` after the call. -/
def haveCompleteStateAgeMissing (mon : CurrentStateMonitor) (now : Time) (age : Time)
    (missing_states : List String) : Bool × List String :=
  let old := now - age
  mon.robot_model_.active_joint_models.foldl
    (fun acc joint =>
      if joint.passive || joint.mimic then acc
      else
        match mon.joint_time_ joint with
        | none => (false, acc.2 ++ [joint.name])
        | some t => if t < old then (false, acc.2 ++ [joint.name]) else acc)
    (true, missing_states)

set_option linter.unusedVariables false in
/-- The method `CurrentStateMonitor::waitForCurrentState(rclcpp::Time t, double wait_time)
const`, with the clock reading `now`. The source overwrites the argument `t` by the clock
reading, computes the timeout and takes the lock; its waiting loop
`while (current_state_time_ < t)` is commented out under a TODO, so the one statement left
after the lock is `return true`. -/
def waitForCurrentState (mon : CurrentStateMonitor) (now : Time) (t : Time)
    (wait_time : ℚ) : Bool :=
  let t : Time := now
  let durTimeout : ℚ := wait_time
  true

/-- The call `current_state_monitor_->waitForCurrentState(node_->get_clock()->now(),
wait_seconds)` of `MoveGroupInterfaceImpl::getCurrentState` with a monitor present:
`true` when the state is handed out. -/
def getCurrentState_succeeds (mon : CurrentStateMonitor) (now : Time) (wait_seconds : ℚ) : Bool :=
  if !waitForCurrentState mon now now wait_seconds then false else true

/-- Modelled from the spec: the enum `SceneUpdateType` is declared in
planning_scene_monitor.h, which is not among the sources; it is the bitmask over STATE,
TRANSFORMS, GEOMETRY and the full scene, the last one holding every other bit too. -/
abbrev SceneUpdateType := Nat

/-- Modelled from the spec: the empty category. -/
def UPDATE_NONE : SceneUpdateType := 0

/-- Modelled from the spec: the robot state changed. -/
def UPDATE_STATE : SceneUpdateType := 1

/-- Modelled from the spec: the fixed-frame transforms changed. -/
def UPDATE_TRANSFORMS : SceneUpdateType := 2

/-- Modelled from the spec: the geometry (world or attached objects) changed. -/
def UPDATE_GEOMETRY : SceneUpdateType := 4

/-- Modelled from the spec: the whole scene changed (the full-scene bit together with all
other category bits). -/
def UPDATE_SCENE : SceneUpdateType := 8 + UPDATE_STATE + UPDATE_TRANSFORMS + UPDATE_GEOMETRY

/-- The fields of `moveit_msgs::msg::RobotState` read by `newPlanningSceneMessage`, with
the content that only `moveit::core::isEmpty` looks at kept as `joint_state`. -/
structure RobotStateMsg where
  joint_state : JointState
  attached_collision_objects : List String
  is_diff : Bool

/-- The fields of `moveit_msgs::msg::PlanningSceneWorld`: the ids of the collision objects
and the octomap data. -/
structure PlanningSceneWorldMsg where
  collision_objects : List String
  octomap_data : List Int

/-- The fields of `moveit_msgs::msg::PlanningScene` read by `newPlanningSceneMessage`;
transforms, padding and scale entries are kept by the name they carry. -/
structure PlanningSceneMsg where
  name : String
  robot_state : RobotStateMsg
  fixed_frame_transforms : List String
  allowed_collision_matrix_entry_names : List String
  link_padding : List String
  link_scale : List String
  world : PlanningSceneWorldMsg
  is_diff : Bool

/-- The value of the local `upd` that `PlanningSceneMonitor::newPlanningSceneMessage`
passes to `triggerSceneUpdateEvent` when a scene exists. The two overloads of
`moveit::core::isEmpty` (moveit_core, not among the sources) are the parameters
`isEmptyWorld` and `isEmptyRobotState`; `old_scene_name` is `scene_->getName()` read
before the message is applied. -/
def newPlanningSceneMessage_upd (isEmptyWorld : PlanningSceneWorldMsg → Bool)
    (isEmptyRobotState : RobotStateMsg → Bool) (old_scene_name : String)
    (scene : PlanningSceneMsg) : SceneUpdateType :=
  let upd := UPDATE_SCENE
  if scene.is_diff then
    let no_other_scene_upd :=
      (scene.name.isEmpty || scene.name == old_scene_name) &&
        scene.allowed_collision_matrix_entry_names.isEmpty && scene.link_padding.isEmpty &&
        scene.link_scale.isEmpty
    if no_other_scene_upd then
      let upd := UPDATE_NONE
      let upd := if !isEmptyWorld scene.world then upd ||| UPDATE_GEOMETRY else upd
      let upd := if !scene.fixed_frame_transforms.isEmpty then upd ||| UPDATE_TRANSFORMS else upd
      if !isEmptyRobotState scene.robot_state then
        let upd := upd ||| UPDATE_STATE
        if !scene.robot_state.attached_collision_objects.isEmpty ||
            scene.robot_state.is_diff == false then
          upd ||| UPDATE_GEOMETRY
        else upd
      else upd
    else upd
  else upd

/-- The classification as the specification words it: the full scene when the message is
not a diff, or carries a non-empty name different from the previous one, or any
collision-matrix entry name, link padding or link scale; otherwise the union of GEOMETRY
(world not empty), TRANSFORMS (fixed-frame transforms not empty), STATE (robot state not
empty) and GEOMETRY (robot state not empty, with attached objects or not a diff). -/
def referenceClassification (isEmptyWorld : PlanningSceneWorldMsg → Bool)
    (isEmptyRobotState : RobotStateMsg → Bool) (old_scene_name : String)
    (scene : PlanningSceneMsg) : SceneUpdateType :=
  if scene.is_diff = false ∨ (scene.name ≠ "" ∧ scene.name ≠ old_scene_name) ∨
      scene.allowed_collision_matrix_entry_names ≠ [] ∨ scene.link_padding ≠ [] ∨
      scene.link_scale ≠ [] then
    UPDATE_SCENE
  else
    (if isEmptyWorld scene.world = false then UPDATE_GEOMETRY else UPDATE_NONE) |||
    (if scene.fixed_frame_transforms ≠ [] then UPDATE_TRANSFORMS else UPDATE_NONE) |||
    (if isEmptyRobotState scene.robot_state = false then UPDATE_STATE else UPDATE_NONE) |||
    (if isEmptyRobotState scene.robot_state = false ∧
        (scene.robot_state.attached_collision_objects ≠ [] ∨ scene.robot_state.is_diff = false)
      then UPDATE_GEOMETRY else UPDATE_NONE)

/-- A position outside the bounds `b` that the tests of `jointStateCallback` take for
"almost within bounds": in `[min - error_, min)` or in `(max, max + error_]`, where the
difference and the sum are the `double` ones. -/
def inErrorMargin (error_ : ℚ) (b : VariableBounds) (p : ℚ) : Prop :=
  (roundDouble (b.min_position_ - error_) ≤ p ∧ p < b.min_position_) ∨
    (b.max_position_ < p ∧ p ≤ roundDouble (b.max_position_ + error_))

instance (error_ : ℚ) (b : VariableBounds) (p : ℚ) : Decidable (inErrorMargin error_ b p) := by
  unfold inErrorMargin
  infer_instance

/-- The position one iteration of the loop of `jointStateCallback` leaves for the joint
it names, when the stored position is `old` and the update gives `p` (a summary of
`jointStateStep`, proved equal to it in `jointStateStep_at`). -/
def storedAfter (error_ : ℚ) (jm : JointModel) (old p : ℚ) : ℚ :=
  if old = p then old
  else if jm.isContinuousRevolute then p
  else if belowWithinError error_ jm.bounds0 p then jm.bounds0.min_position_
  else if aboveWithinError error_ jm.bounds0 p then jm.bounds0.max_position_
  else p

/-- Example joint: revolute, limits `[0, 1]`. -/
def exampleJointA : JointModel :=
  { name := "A", type := JointType.REVOLUTE, variableCount := 1, continuous := false,
    passive := false, mimic := false, bounds0 := { min_position_ := 0, max_position_ := 1 } }

/-- Example joint: prismatic, limits `[0, 3]`. -/
def exampleJointB : JointModel :=
  { name := "B", type := JointType.PRISMATIC, variableCount := 1, continuous := false,
    passive := false, mimic := false, bounds0 := { min_position_ := 0, max_position_ := 3 } }

/-- Example joint: continuous revolute, variable bounds `[-3, 3]`. -/
def exampleJointW : JointModel :=
  { name := "W", type := JointType.REVOLUTE, variableCount := 1, continuous := true,
    passive := false, mimic := false, bounds0 := { min_position_ := -3, max_position_ := 3 } }

/-- Example joint: a planar joint of three variables (a mobile base). -/
def exampleJointBase : JointModel :=
  { name := "base", type := JointType.PLANAR, variableCount := 3, continuous := false,
    passive := false, mimic := false, bounds0 := { min_position_ := -5, max_position_ := 5 } }

/-- Example model: an arm of the joints `A`, `B` and `W`. -/
def exampleArm : RobotModel :=
  { joint_models := [exampleJointA, exampleJointB, exampleJointW],
    active_joint_models := [exampleJointA, exampleJointB, exampleJointW] }

/-- Example model: the joint `A` on a planar mobile base. -/
def exampleMobile : RobotModel :=
  { joint_models := [exampleJointBase, exampleJointA],
    active_joint_models := [exampleJointBase, exampleJointA] }

/-- A monitor as constructed over `model`: every position at its default `0`, no joint
timestamp, two registered callbacks, and the bound error `error_`. -/
def freshMonitor (model : RobotModel) (error_ : ℚ) : CurrentStateMonitor :=
  { robot_model_ := model,
    robot_state_ := { position := fun _ => 0, velocity := fun _ => 0, effort := fun _ => 0 },
    joint_time_ := fun _ => none,
    current_state_time_ := 0,
    copy_dynamics_ := true,
    error_ := error_,
    update_callbacks_ := [0, 1] }

/-- A joint-state message with positions only. -/
def positionsMsg (stamp : Time) (name : List String) (position : List ℚ) : JointState :=
  { stamp := stamp, name := name, position := position, velocity := [], effort := [] }

/-- A monitor over the example arm in which every joint was last updated at time `100`. -/
def agedMonitor : CurrentStateMonitor :=
  { freshMonitor exampleArm (1 / 1000000) with
    joint_time_ := fun _ => some 100, current_state_time_ := 100 }

/-- An instance of the parameter `isEmptyWorld` for the examples: a world message without
collision objects and without octomap data is empty. -/
def exampleIsEmptyWorld (w : PlanningSceneWorldMsg) : Bool :=
  w.collision_objects.isEmpty && w.octomap_data.isEmpty

/-- An instance of the parameter `isEmptyRobotState` for the examples: a robot state
message is empty when it is a diff that names no joint, carries no position, velocity or
effort and attaches no collision object. -/
def exampleIsEmptyRobotState (rs : RobotStateMsg) : Bool :=
  rs.is_diff && rs.joint_state.name.isEmpty && rs.attached_collision_objects.isEmpty &&
    rs.joint_state.position.isEmpty && rs.joint_state.velocity.isEmpty &&
    rs.joint_state.effort.isEmpty

/-- A diff scene message in which only the robot state is populated (itself a diff), with
the given attached collision objects. -/
def stateOnlyDiff (attached : List String) : PlanningSceneMsg :=
  { name := "",
    robot_state :=
      { joint_state := positionsMsg 5 ["A"] [1 / 2],
        attached_collision_objects := attached,
        is_diff := true },
    fixed_frame_transforms := [],
    allowed_collision_matrix_entry_names := [],
    link_padding := [],
    link_scale := [],
    world := { collision_objects := [], octomap_data := [] },
    is_diff := true }

/-- The method `CurrentStateMonitor::isActive() const`. -/
def isActive (mon : CurrentStateMonitor) : Bool :=
  mon.state_monitor_started_

/-- The method `CurrentStateMonitor::startStateMonitor(joint_states_topic)`, with the clock
reading `now`. With an empty topic the source logs an error and creates no subscription;
the listener for multi-DOF joints is commented out in the source. -/
def startStateMonitor (mon : CurrentStateMonitor) (joint_states_topic : String) (now : Time) :
    CurrentStateMonitor :=
  if !mon.state_monitor_started_ then
    let mon1 : CurrentStateMonitor := { mon with joint_time_ := fun _ => none }
    let mon2 : CurrentStateMonitor :=
      if joint_states_topic.isEmpty then mon1
      else { mon1 with joint_state_subscriber_ := some joint_states_topic }
    { mon2 with state_monitor_started_ := true, monitor_start_time_ := now }
  else mon

/-- The loop `while (!haveCompleteState() && slept_time < wait_time)` of
`CurrentStateMonitor::waitForCompleteState(double)`. Joint updates arrive while the caller
sleeps, so `snapshots k` is the monitor as the call number `k` of `haveCompleteState()`
finds it. The loop is entered at call number `k` with the accumulated `slept_time`; the
result is the number of the call that ended the loop and the accumulated sleep, or `none`
when `fuel` iterations were not enough. The statement `slept_time += sleep_step_s` adds
in `double`. -/
def waitForCompleteState_loop (snapshots : Nat → CurrentStateMonitor)
    (wait_time sleep_step_s : ℚ) : Nat → Nat → ℚ → Option (Nat × ℚ)
  | 0, _, _ => none
  | fuel + 1, k, slept_time =>
    if !haveCompleteState (snapshots k) && decide (slept_time < wait_time) then
      waitForCompleteState_loop snapshots wait_time sleep_step_s fuel (k + 1)
        (roundDouble (slept_time + sleep_step_s))
    else some (k, slept_time)

/-- The method `CurrentStateMonitor::waitForCompleteState(double wait_time) const`: the
returned flag and the number of calls of `sleep_step.sleep()`, or `none` when `fuel` loop
iterations were not enough. The length of one sleep (`rclcpp::Rate`) is not represented.
The literal `0.05` is the `double` nearest to `5/100`, and the quotient `wait_time / 10.0`
is computed in `double`. -/
def waitForCompleteState (snapshots : Nat → CurrentStateMonitor) (wait_time : ℚ)
    (fuel : Nat) : Option (Bool × Nat) :=
  let slept_time : ℚ := 0
  let sleep_step_s : ℚ := min (roundDouble (5 / 100)) (roundDouble (wait_time / 10))
  match waitForCompleteState_loop snapshots wait_time sleep_step_s fuel 0 slept_time with
  | none => none
  | some r => some (haveCompleteState (snapshots (r.1 + 1)), r.1)

/-- A run in which the first three calls of `haveCompleteState()` find a monitor without
timestamps and every later call finds every joint timestamped. -/
def exampleSnapshots (k : Nat) : CurrentStateMonitor :=
  if k < 3 then freshMonitor exampleArm (1 / 1000000) else agedMonitor

/-- The method `CurrentStateMonitor::getCurrentStateTime() const`. -/
def getCurrentStateTime (mon : CurrentStateMonitor) : Time :=
  mon.current_state_time_

/-- Modelled from the spec: `RobotState::setVariablePositions(pos)` replaces every
position. -/
def RobotState.setVariablePositions (rs : RobotState) (pos : JointModel → ℚ) : RobotState :=
  { rs with position := pos }

/-- Modelled from the spec: `RobotState::setVariableVelocities(vel)` replaces every
velocity; the state has velocities from then on. -/
def RobotState.setVariableVelocities (rs : RobotState) (vel : JointModel → ℚ) : RobotState :=
  { rs with velocity := vel, has_velocity_ := true }

/-- Modelled from the spec: `RobotState::setVariableAccelerations(acc)` replaces every
acceleration; the state has accelerations from then on. -/
def RobotState.setVariableAccelerations (rs : RobotState) (acc : JointModel → ℚ) :
    RobotState :=
  { rs with acceleration := acc, has_acceleration_ := true }

/-- Modelled from the spec: `RobotState::setVariableEffort(eff)` replaces every effort; the
state has efforts from then on. -/
def RobotState.setVariableEffort (rs : RobotState) (eff : JointModel → ℚ) : RobotState :=
  { rs with effort := eff, has_effort_ := true }

/-- The method `CurrentStateMonitor::setToCurrentState(robot_state::RobotState& upd)
const`: the state `upd` after the call. -/
def setToCurrentState (mon : CurrentStateMonitor) (upd : RobotState) : RobotState :=
  let upd1 := upd.setVariablePositions mon.robot_state_.position
  if mon.copy_dynamics_ then
    let upd2 :=
      if mon.robot_state_.has_velocity_ then
        upd1.setVariableVelocities mon.robot_state_.velocity
      else upd1
    let upd3 :=
      if mon.robot_state_.has_acceleration_ then
        upd2.setVariableAccelerations mon.robot_state_.acceleration
      else upd2
    if mon.robot_state_.has_effort_ then upd3.setVariableEffort mon.robot_state_.effort
    else upd3
  else upd1

/-- Seconds of the wall clock (`std::chrono::system_clock`) and of a
`std::chrono::duration<double>`. -/
abbrev WallTime := ℚ

/-- Modelled from the spec: the parts of the content of a scene (world objects,
fixed-frame transforms, allowed-collision matrix, padding, scale, object colours); the
robot state is kept apart. -/
inductive SceneComponent where
  | world
  | transforms
  | allowed_collision_matrix
  | link_padding
  | link_scale
  | object_colors
  deriving DecidableEq, Repr

/-- Modelled from the spec: `planning_scene::PlanningScene` (moveit_core) is not among the
sources. A scene is either a root (no parent, full state) or a diff (a delta against a
parent): `parent_` is the address of the parent in the store of scene objects, and a part
that the scene does not hold itself (`none`) is the one of its parent. -/
structure PlanningScene where
  name_ : String
  parent_ : Option Nat
  robot_state_ : Option RobotState
  components_ : SceneComponent → Option (List String)

/-- Modelled from the spec: `PlanningScene::getCurrentState()` of the scene at address
`a`: its own robot state, or the one of the nearest ancestor that holds one. The chain of
parents is followed for at most `fuel` scenes. -/
def getCurrentState (scenes : List PlanningScene) : Nat → Nat → Option RobotState
  | 0, _ => none
  | fuel + 1, a =>
    match scenes[a]? with
    | none => none
    | some s =>
      match s.robot_state_ with
      | some rs => some rs
      | none =>
        match s.parent_ with
        | none => none
        | some p => getCurrentState scenes fuel p

/-- Modelled from the spec: the part `c` of the content of the scene at address `a`, its
own or the one of the nearest ancestor that holds one. The chain of parents is followed
for at most `fuel` scenes. -/
def getComponent (scenes : List PlanningScene) (c : SceneComponent) :
    Nat → Nat → Option (List String)
  | 0, _ => none
  | fuel + 1, a =>
    match scenes[a]? with
    | none => none
    | some s =>
      match s.components_ c with
      | some v => some v
      | none =>
        match s.parent_ with
        | none => none
        | some p => getComponent scenes c fuel p

/-- Modelled from the spec: `PlanningScene::decoupleParent()` on the scene at address `a`:
a scene without a parent is left as it is; a diff takes over every part it does not hold
from its ancestors and drops its parent ("folds its delta into a standalone root"). -/
def decoupleParent (scenes : List PlanningScene) (a : Nat) : List PlanningScene :=
  match scenes[a]? with
  | none => scenes
  | some s =>
    match s.parent_ with
    | none => scenes
    | some _ =>
      scenes.set a
        { s with
          parent_ := none,
          robot_state_ := getCurrentState scenes scenes.length a,
          components_ := fun c => getComponent scenes c scenes.length a }

/-- Modelled from the spec: `PlanningScene::diff()` on the scene at address `a`: a new
scene object without content of its own, whose parent is `a` and whose name is the name of
`a` followed by `+` (the source: "the '+' added by .diff() at the end of the scene name").
The result is the store with the new object and the address of the new object. -/
def diff (scenes : List PlanningScene) (a : Nat) : List PlanningScene × Nat :=
  (scenes ++
      [{ name_ := ((scenes[a]?).map PlanningScene.name_).getD "" ++ "+",
         parent_ := some a,
         robot_state_ := none,
         components_ := fun _ => none }],
    scenes.length)

/-- Modelled from the spec: `PlanningScene::pushDiffs(parent)` on the scene at address
`a`: nothing for a scene without a parent; otherwise every part that the scene holds
itself is written to the scene at address `p`. -/
def pushDiffs (scenes : List PlanningScene) (a p : Nat) : List PlanningScene :=
  match scenes[a]?, scenes[p]? with
  | some s, some ps =>
    match s.parent_ with
    | none => scenes
    | some _ =>
      scenes.set p
        { ps with
          robot_state_ := match s.robot_state_ with
            | some rs => some rs
            | none => ps.robot_state_,
          components_ := fun c => match s.components_ c with
            | some v => some v
            | none => ps.components_ c }
  | _, _ => scenes

/-- Modelled from the spec: `PlanningScene::clearDiffs()` on the scene at address `a`:
nothing for a scene without a parent; otherwise the scene drops every part it holds
itself. -/
def clearDiffs (scenes : List PlanningScene) (a : Nat) : List PlanningScene :=
  match scenes[a]? with
  | none => scenes
  | some s =>
    match s.parent_ with
    | none => scenes
    | some _ => scenes.set a { s with robot_state_ := none, components_ := fun _ => none }

/-- The fields of `moveit_msgs::msg::CollisionObject` that identify the edit. -/
structure CollisionObjectMsg where
  id : String
  operation : Int
  deriving DecidableEq, Repr

/-- The fields of `moveit_msgs::msg::AttachedCollisionObject` that identify the edit. -/
structure AttachedCollisionObjectMsg where
  link_name : String
  object : CollisionObjectMsg
  deriving DecidableEq, Repr

/-- What a method of `PlanningSceneMonitor` does besides changing the members of the
monitor: a call of a registered update callback with a category,
`new_scene_update_condition_.notify_all()`, a message handed to the publisher (a full
scene or a diff), and the calls into the scene and the occupancy map whose effect on the
content (moveit_core) is not represented beyond the call. -/
inductive SceneEvent where
  | update_callback (cb : Nat) (update_type : SceneUpdateType)
  | notify_all
  | publish (is_full : Bool)
  | setTransforms (transforms : List String)
  | clearObjects
  | processPlanningSceneWorldMsg (world : List String)
  | processCollisionObjectMsg (obj : CollisionObjectMsg)
  | processAttachedCollisionObjectMsg (obj : AttachedCollisionObjectMsg)
  | octomap_clear
  | excludeAttachedBodiesFromOctree
  | excludeWorldObjectsFromOctree
  deriving DecidableEq, Repr

/-- The members of `PlanningSceneMonitor` that the embedded functions read or write. A
`PlanningScenePtr` is the address of a scene object in the store `scenes` (`none` for the
null pointer); `scene_const_` always equals `scene_` and is left out. `tf_buffer_` and
`octomap_monitor_` say whether the pointer is set; `publish_planning_scene_` says whether
the publishing thread exists. -/
structure PlanningSceneMonitor where
  scenes : List PlanningScene
  scene_ : Option Nat
  parent_scene_ : Option Nat
  current_state_monitor_ : Option CurrentStateMonitor
  tf_buffer_ : Bool
  octomap_monitor_ : Bool
  last_update_time_ : Time
  last_robot_motion_time_ : Time
  new_scene_update_ : SceneUpdateType
  update_callbacks_ : List Nat
  publish_planning_scene_ : Bool
  publish_update_types_ : SceneUpdateType
  state_update_pending_ : Bool
  last_robot_state_update_wall_time_ : WallTime
  dt_state_update_ : ℚ

/-- The method `PlanningSceneMonitor::triggerSceneUpdateEvent(update_type)`: the monitor
after the call and the events of the call, in order. -/
def triggerSceneUpdateEvent (m : PlanningSceneMonitor) (update_type : SceneUpdateType) :
    PlanningSceneMonitor × List SceneEvent :=
  ({ m with new_scene_update_ := m.new_scene_update_ ||| update_type },
    m.update_callbacks_.map (fun cb => SceneEvent.update_callback cb update_type) ++
      [SceneEvent.notify_all])

/-- The name edit of `monitorDiffs(false)`: "remove the '+' added by .diff() at the end of
the scene name": a non-empty name whose last character is `+` loses that character. -/
def removeFinalPlus (name : String) : String :=
  if !name.isEmpty then
    if name.back = '+' then name.take (name.length - 1) else name
  else name

/-- The branch `flag == true` of `PlanningSceneMonitor::monitorDiffs`, under the lock: the
current scene is decoupled from its parent, becomes the parent scene, and a diff of it
becomes the current scene. (The detaching and re-attaching of the scene callbacks is not
represented.) -/
def monitorDiffs_couple (m : PlanningSceneMonitor) : PlanningSceneMonitor :=
  match m.scene_ with
  | none => m
  | some a =>
    let scenes1 := decoupleParent m.scenes a
    let d := diff scenes1 a
    { m with scenes := d.1, parent_scene_ := some a, scene_ := some d.2 }

/-- The locked block of the branch `flag == false` of
`PlanningSceneMonitor::monitorDiffs`: the current scene is decoupled from its parent, the
parent reference is reset, and a final `+` is removed from the name of the scene. -/
def monitorDiffs_decouple (m : PlanningSceneMonitor) : PlanningSceneMonitor :=
  match m.scene_ with
  | none => m
  | some a =>
    let scenes1 := decoupleParent m.scenes a
    let scenes2 :=
      match scenes1[a]? with
      | none => scenes1
      | some s => scenes1.set a { s with name_ := removeFinalPlus s.name_ }
    { m with scenes := scenes2, parent_scene_ := none }

/-- The method `PlanningSceneMonitor::stopPublishingPlanningScene()`: the thread is taken
out of `publish_planning_scene_` and joined, then `monitorDiffs(false)` is called; that
nested call finds `publish_planning_scene_` empty, so it is the locked block alone. -/
def stopPublishingPlanningScene (m : PlanningSceneMonitor) : PlanningSceneMonitor :=
  if m.publish_planning_scene_ then
    let m1 : PlanningSceneMonitor := { m with publish_planning_scene_ := false }
    if m1.scene_.isSome then monitorDiffs_decouple m1 else m1
  else m

/-- The method `PlanningSceneMonitor::monitorDiffs(bool flag)`. -/
def monitorDiffs (m : PlanningSceneMonitor) (flag : Bool) : PlanningSceneMonitor :=
  if m.scene_.isSome then
    if flag then monitorDiffs_couple m
    else
      let m1 := if m.publish_planning_scene_ then stopPublishingPlanningScene m else m
      monitorDiffs_decouple m1
  else m

/-- Modelled from the spec: `PlanningScene::usePlanningSceneMsg(scene)` on the scene at
address `a`. A message that is not a diff resets the scene: it is decoupled from its
parent ("full messages carry no parent reference and reset any existing diff chain") and
takes the name of the message; a diff keeps the parent and takes the name of the message
when that name is not empty. What the message does to the content is the parameter
`absorb`. -/
def usePlanningSceneMsg (absorb : PlanningSceneMsg → PlanningScene → PlanningScene)
    (scenes : List PlanningScene) (a : Nat) (scene : PlanningSceneMsg) : List PlanningScene :=
  if scene.is_diff then
    match scenes[a]? with
    | none => scenes
    | some s =>
      scenes.set a
        { absorb scene s with
          parent_ := s.parent_,
          name_ := if scene.name.isEmpty then s.name_ else scene.name }
  else
    let scenes1 := decoupleParent scenes a
    match scenes1[a]? with
    | none => scenes1
    | some s => scenes1.set a { absorb scene s with parent_ := none, name_ := scene.name }

/-- The method `PlanningSceneMonitor::newPlanningSceneMessage(scene)`, with the clock
reading `now`: the monitor after the call, the events of the call in order, and the
returned flag. The overloads of `moveit::core::isEmpty`, the effect of the message on the
content of a scene (`absorb`) and the flag returned by `usePlanningSceneMsg` (`accepted`)
are parameters. -/
def newPlanningSceneMessage (isEmptyWorld : PlanningSceneWorldMsg → Bool)
    (isEmptyRobotState : RobotStateMsg → Bool)
    (absorb : PlanningSceneMsg → PlanningScene → PlanningScene)
    (accepted : PlanningSceneMsg → Bool)
    (m : PlanningSceneMonitor) (scene : PlanningSceneMsg) (now : Time) :
    PlanningSceneMonitor × List SceneEvent × Bool :=
  match m.scene_ with
  | none => (m, [], false)
  | some a =>
    let old_scene_name := ((m.scenes[a]?).map PlanningScene.name_).getD ""
    let result := accepted scene
    let scenes1 := usePlanningSceneMsg absorb m.scenes a scene
    let ev1 :=
      if m.octomap_monitor_ && !scene.is_diff && scene.world.octomap_data.isEmpty then
        [SceneEvent.octomap_clear]
      else []
    let m1 : PlanningSceneMonitor :=
      { m with
        last_update_time_ := now,
        last_robot_motion_time_ := scene.robot_state.joint_state.stamp,
        scenes := scenes1 }
    let m2 : PlanningSceneMonitor :=
      if !scene.is_diff && m1.parent_scene_.isSome then
        let d := diff m1.scenes a
        { m1 with scenes := d.1, parent_scene_ := some a, scene_ := some d.2 }
      else m1
    let ev2 :=
      if m.octomap_monitor_ then
        [SceneEvent.excludeAttachedBodiesFromOctree, SceneEvent.excludeWorldObjectsFromOctree]
      else []
    let upd := newPlanningSceneMessage_upd isEmptyWorld isEmptyRobotState old_scene_name scene
    let r := triggerSceneUpdateEvent m2 upd
    (r.1, ev1 ++ ev2 ++ r.2, result)

/-- The method `PlanningSceneMonitor::updateFrameTransforms()`, with the clock reading
`now`; `transforms` is what `getUpdatedFrameTransforms` collects from the transform
buffer. -/
def updateFrameTransforms (m : PlanningSceneMonitor) (transforms : List String) (now : Time) :
    PlanningSceneMonitor × List SceneEvent :=
  if !m.tf_buffer_ then (m, [])
  else
    match m.scene_ with
    | none => (m, [])
    | some _ =>
      let m1 : PlanningSceneMonitor := { m with last_update_time_ := now }
      let r := triggerSceneUpdateEvent m1 UPDATE_TRANSFORMS
      (r.1, SceneEvent.setTransforms transforms :: r.2)

/-- The method `PlanningSceneMonitor::newPlanningSceneWorldCallback(world)`; `now_tf` and
`now` are the clock readings of `updateFrameTransforms` and of the callback. -/
def newPlanningSceneWorldCallback (m : PlanningSceneMonitor) (world : PlanningSceneWorldMsg)
    (transforms : List String) (now_tf now : Time) : PlanningSceneMonitor × List SceneEvent :=
  match m.scene_ with
  | none => (m, [])
  | some _ =>
    let r1 := updateFrameTransforms m transforms now_tf
    let m2 : PlanningSceneMonitor := { r1.1 with last_update_time_ := now }
    let ev :=
      [SceneEvent.clearObjects, SceneEvent.processPlanningSceneWorldMsg world.collision_objects] ++
        (if m2.octomap_monitor_ && world.octomap_data.isEmpty then [SceneEvent.octomap_clear]
          else [])
    let r3 := triggerSceneUpdateEvent m2 UPDATE_SCENE
    (r3.1, r1.2 ++ ev ++ r3.2)

/-- The method `PlanningSceneMonitor::collisionObjectCallback(obj)`; `now_tf` and `now`
are the clock readings of `updateFrameTransforms` and of the callback. -/
def collisionObjectCallback (m : PlanningSceneMonitor) (obj : CollisionObjectMsg)
    (transforms : List String) (now_tf now : Time) : PlanningSceneMonitor × List SceneEvent :=
  match m.scene_ with
  | none => (m, [])
  | some _ =>
    let r1 := updateFrameTransforms m transforms now_tf
    let m2 : PlanningSceneMonitor := { r1.1 with last_update_time_ := now }
    let r3 := triggerSceneUpdateEvent m2 UPDATE_GEOMETRY
    (r3.1, r1.2 ++ [SceneEvent.processCollisionObjectMsg obj] ++ r3.2)

/-- The method `PlanningSceneMonitor::attachObjectCallback(obj)`; `now_tf` and `now` are
the clock readings of `updateFrameTransforms` and of the callback. -/
def attachObjectCallback (m : PlanningSceneMonitor) (obj : AttachedCollisionObjectMsg)
    (transforms : List String) (now_tf now : Time) : PlanningSceneMonitor × List SceneEvent :=
  match m.scene_ with
  | none => (m, [])
  | some _ =>
    let r1 := updateFrameTransforms m transforms now_tf
    let m2 : PlanningSceneMonitor := { r1.1 with last_update_time_ := now }
    let r3 := triggerSceneUpdateEvent m2 UPDATE_GEOMETRY
    (r3.1, r1.2 ++ [SceneEvent.processAttachedCollisionObjectMsg obj] ++ r3.2)

/-- The method `PlanningSceneMonitor::updateSceneWithCurrentState()`: `none` when a state
monitor is present and the scene pointer is null or the scene has no robot state to write
to (the source dereferences `scene_` unchecked); otherwise the monitor after the call and
the events of the call. With a state monitor, `scene_->getCurrentStateNonConst()` gives
the scene a robot state of its own, which `setToCurrentState` overwrites. The warning
about missing joints is not represented. -/
def updateSceneWithCurrentState (m : PlanningSceneMonitor) :
    Option (PlanningSceneMonitor × List SceneEvent) :=
  match m.current_state_monitor_ with
  | some csm =>
    match m.scene_ with
    | none => none
    | some a =>
      match m.scenes[a]?, getCurrentState m.scenes m.scenes.length a with
      | some s, some rs =>
        let m1 : PlanningSceneMonitor :=
          { m with
            last_update_time_ := getCurrentStateTime csm,
            last_robot_motion_time_ := getCurrentStateTime csm,
            scenes := m.scenes.set a { s with robot_state_ := some (setToCurrentState csm rs) } }
        some (triggerSceneUpdateEvent m1 UPDATE_STATE)
      | _, _ => none
  | none => some (m, [])

/-- The part of `PlanningSceneMonitor::onStateUpdate` before the call of
`updateSceneWithCurrentState`, with the wall-clock reading `n`: the monitor and the local
flag `update`. -/
def onStateUpdate_throttle (m : PlanningSceneMonitor) (n : WallTime) :
    PlanningSceneMonitor × Bool :=
  let dt := n - m.last_robot_state_update_wall_time_
  if dt < m.dt_state_update_ then
    ({ m with state_update_pending_ := true }, false)
  else
    ({ m with state_update_pending_ := false, last_robot_state_update_wall_time_ := n }, true)

/-- The part of `PlanningSceneMonitor::stateUpdateTimerCallback` before the call of
`updateSceneWithCurrentState`: the monitor and the local flag `update`. The source reads
the wall clock twice: `n` is the reading from which `dt` is taken, `n2` the later reading
stored in `last_robot_state_update_wall_time_`. -/
def stateUpdateTimerCallback_throttle (m : PlanningSceneMonitor) (n n2 : WallTime) :
    PlanningSceneMonitor × Bool :=
  if m.state_update_pending_ then
    let dt := n - m.last_robot_state_update_wall_time_
    if m.state_update_pending_ && decide (dt ≥ m.dt_state_update_) then
      ({ m with state_update_pending_ := false, last_robot_state_update_wall_time_ := n2 },
        true)
    else (m, false)
  else (m, false)

/-- The first block of `PlanningSceneMonitor::scenePublishingThread`: "publish the full
planning scene once". -/
def scenePublishingThread_first (_m : PlanningSceneMonitor) : List SceneEvent :=
  [SceneEvent.publish true]

/-- One pass through the body of the `do` loop of
`PlanningSceneMonitor::scenePublishingThread`, after the wait on the condition variable:
the monitor after the pass and the events of the pass, `none` when a null scene pointer is
dereferenced. The content of the message and the sleep of the rate limiter are not
represented. -/
def scenePublishingThread_iteration (m : PlanningSceneMonitor) :
    Option (PlanningSceneMonitor × List SceneEvent) :=
  if m.new_scene_update_ ≠ UPDATE_NONE then
    if (m.publish_update_types_ &&& m.new_scene_update_) ≠ 0 ∨
        m.new_scene_update_ = UPDATE_SCENE then
      match m.scene_ with
      | none => none
      | some a =>
        let is_full : Bool := decide (m.new_scene_update_ = UPDATE_SCENE)
        let pushed : Option (List PlanningScene) :=
          match m.parent_scene_ with
          | some p => some (pushDiffs m.scenes a p)
          | none =>
            match (m.scenes[a]?).bind PlanningScene.parent_ with
            | none => some m.scenes
            | some _ => none
        match pushed with
        | none => none
        | some scenes1 =>
          let ev :=
            if m.octomap_monitor_ then
              [SceneEvent.excludeAttachedBodiesFromOctree,
                SceneEvent.excludeWorldObjectsFromOctree]
            else []
          some ({ m with scenes := clearDiffs scenes1 a, new_scene_update_ := UPDATE_NONE },
            ev ++ [SceneEvent.publish is_full])
    else some ({ m with new_scene_update_ := UPDATE_NONE }, [])
  else some (m, [])

/-- The conversion `std::chrono::duration_cast<std::chrono::seconds>` of a
`duration<double>`: the whole seconds, rounded towards zero. -/
def durationCastSeconds (d : ℚ) : Int :=
  if 0 ≤ d then ⌊d⌋ else ⌈d⌉

/-- The loop `while (last_robot_motion_time_ < t && timeout > wallDur)` of
`PlanningSceneMonitor::waitForCurrentRobotState`. Scene messages arrive while the caller
waits, so `seen k` is the value of `last_robot_motion_time_` at evaluation number `k` of
the loop condition, and `elapsed k` is `now() - start` after wait number `k`. The body
waits on the condition variable and subtracts from `dur`; it writes neither `timeout` nor
`wallDur`. The result is the number of waits and the final `dur`, or `none` when `fuel`
iterations were not enough. -/
def waitForCurrentRobotState_loop (t : Time) (timeout wallDur : Int) (seen : Nat → Time)
    (elapsed : Nat → ℚ) : Nat → Nat → ℚ → Option (Nat × ℚ)
  | 0, _, _ => none
  | fuel + 1, k, dur =>
    if seen k < t ∧ timeout > wallDur then
      waitForCurrentRobotState_loop t timeout wallDur seen elapsed fuel (k + 1)
        (dur - elapsed k)
    else some (k, dur)

/-- The method `PlanningSceneMonitor::waitForCurrentRobotState(t, wait_time)`: the
returned flag, the monitor after the call and the events of the call, or `none` when the
call has not returned within `fuel` iterations of its loop (or dereferences a null scene).
`now` and `now_wall` are the clock readings; `seen k` for `k > 0` is the value of
`last_robot_motion_time_` that evaluation number `k` of the loop condition finds, the
first evaluation finds the member of the monitor. -/
def waitForCurrentRobotState (m : PlanningSceneMonitor) (t : Time) (wait_time : ℚ)
    (now : Time) (now_wall : WallTime) (seen : Nat → Time) (elapsed : Nat → ℚ) (fuel : Nat) :
    Option (Bool × PlanningSceneMonitor × List SceneEvent) :=
  if t = 0 then some (false, m, [])
  else
    let dur : ℚ := wait_time
    let timeout : Int := durationCastSeconds dur
    match m.current_state_monitor_ with
    | some csm =>
      let success := waitForCurrentState csm now t wait_time
      if success then
        if m.state_update_pending_ then
          let m1 : PlanningSceneMonitor :=
            { m with state_update_pending_ := false,
                     last_robot_state_update_wall_time_ := now_wall }
          match updateSceneWithCurrentState m1 with
          | none => none
          | some r => some (true, r.1, r.2)
        else some (true, m, [])
      else some (false, m, [])
    | none =>
      let wallDur : Int := 0
      let seenAt : Nat → Time := fun k => if k = 0 then m.last_robot_motion_time_ else seen k
      match waitForCurrentRobotState_loop t timeout wallDur seenAt elapsed fuel 0 dur with
      | none => none
      | some r => some (decide (seenAt r.1 ≥ t), m, [])

/-- A scene monitor over one root scene named `scene`, without state monitor, transform
buffer and occupancy map, with two registered update callbacks, a state-refresh interval
of `1/10` s, and the pending category `pending`. -/
def exampleSceneMonitor (pending : SceneUpdateType) : PlanningSceneMonitor :=
  { scenes :=
      [{ name_ := "scene", parent_ := none,
         robot_state_ := some { position := fun _ => 0, velocity := fun _ => 0,
                                effort := fun _ => 0 },
         components_ := fun _ => some [] }],
    scene_ := some 0,
    parent_scene_ := none,
    current_state_monitor_ := none,
    tf_buffer_ := false,
    octomap_monitor_ := false,
    last_update_time_ := 0,
    last_robot_motion_time_ := 0,
    new_scene_update_ := pending,
    update_callbacks_ := [0, 1],
    publish_planning_scene_ := false,
    publish_update_types_ := UPDATE_NONE,
    state_update_pending_ := false,
    last_robot_state_update_wall_time_ := 0,
    dt_state_update_ := 1 / 10 }

/-- The example scene monitor after `monitorDiffs(true)`, configured to republish the
categories in `mask`, with the pending category `pending`. -/
def exampleCoupledMonitor (mask pending : SceneUpdateType) : PlanningSceneMonitor :=
  { monitorDiffs (exampleSceneMonitor pending) true with
    publish_planning_scene_ := true, publish_update_types_ := mask }

/-- The example scene monitor with a transform buffer and with the state monitor in which
every joint was last updated at time `100`. -/
def exampleTrackedSceneMonitor : PlanningSceneMonitor :=
  { exampleSceneMonitor UPDATE_NONE with
    current_state_monitor_ := some agedMonitor, tf_buffer_ := true }

/-- A full (not a diff) scene message named `fresh`. -/
def exampleFullSceneMsg : PlanningSceneMsg :=
  { stateOnlyDiff [] with name := "fresh", is_diff := false }

/-- A step of a run of `jointStateCallback`: iteration `i` of its `for` loop has run, or
an event of the call. -/
inductive TraceStep where
  | merge (i : Nat)
  | event (e : Event)
  deriving DecidableEq, Repr

/-- The loop `for (std::size_t i = 0; i < n; ++i)` of `jointStateCallback` with its trace:
the loop runs as `jointStateLoop` does, on the monitor and the flag `update`, and every
iteration adds to the trace its index and the monitor as the iteration leaves it. -/
def jointStateLoop_trace (joint_state : JointState) :
    Nat → Nat → (CurrentStateMonitor × Bool) × List (TraceStep × CurrentStateMonitor) →
    (CurrentStateMonitor × Bool) × List (TraceStep × CurrentStateMonitor)
  | _, 0, s => s
  | i, todo + 1, s =>
    jointStateLoop_trace joint_state (i + 1) todo
      (jointStateStep joint_state i s.1,
        s.2 ++ [(TraceStep.merge i, (jointStateStep joint_state i s.1).1)])

/-- The method `CurrentStateMonitor::jointStateCallback` with its trace: the monitor after
the call, and the steps of the call in the order of the statements of the source (the
loop, then the calls of the registered callbacks if `update` is set, then `notify_all`),
each with the monitor as it stands when the step is made, which is what a callback or a
woken thread that reads the monitor finds. -/
def jointStateCallback_trace (mon : CurrentStateMonitor) (joint_state : JointState) :
    CurrentStateMonitor × List (TraceStep × CurrentStateMonitor) :=
  if joint_state.name.length ≠ joint_state.position.length then (mon, [])
  else
    let n := joint_state.name.length
    let mon1 : CurrentStateMonitor := { mon with current_state_time_ := joint_state.stamp }
    let s := jointStateLoop_trace joint_state 0 n ((mon1, false), [])
    let trace1 :=
      if s.1.2 then
        s.2 ++ mon.update_callbacks_.map
          (fun cb => (TraceStep.event (Event.update_callback cb joint_state), s.1.1))
      else s.2
    (s.1.1, trace1 ++ [(TraceStep.event Event.notify_all, s.1.1)])

/-- A diff scene message that carries one world object and nothing else: its robot state is
an empty diff, whose header stamp is the default `0`. -/
def exampleGeometryDiff : PlanningSceneMsg :=
  { name := "",
    robot_state :=
      { joint_state := positionsMsg 0 [] [],
        attached_collision_objects := [],
        is_diff := true },
    fixed_frame_transforms := [],
    allowed_collision_matrix_entry_names := [],
    link_padding := [],
    link_scale := [],
    world := { collision_objects := ["box"], octomap_data := [] },
    is_diff := true }

/-- Modelled from the spec: `PlanningScene::getParent()` of the scene at address `a`, `none`
for the null pointer of a root. -/
def getParent (scenes : List PlanningScene) (a : Nat) : Option Nat :=
  (scenes[a]?).bind PlanningScene.parent_

/-- The function `sceneIsParentOf(scene, possible_parent)` of the anonymous namespace of
planning_scene_monitor.cpp; the two pointers are addresses in the store (`none` for the
null pointer). The depth of the recursion is bounded by `fuel`: `none` when `fuel` calls
were not enough. -/
def sceneIsParentOf (scenes : List PlanningScene) : Nat → Option Nat → Option Nat → Option Bool
  | 0, _, _ => none
  | fuel + 1, scene, possible_parent =>
    match scene with
    | some a =>
      if scene = possible_parent then some true
      else sceneIsParentOf scenes fuel (getParent scenes a) possible_parent
    | none => some false

/-- The method `PlanningSceneMonitor::updatesScene(scene)` (both overloads):
`sceneIsParentOf(scene_const_, scene.get())`. -/
def updatesScene (m : PlanningSceneMonitor) (scene : Option Nat) (fuel : Nat) : Option Bool :=
  sceneIsParentOf m.scenes fuel m.scene_ scene

/-- The scene reached from `scene` by following the parent reference `n` times (`none` once
the chain has ended). -/
def nthAncestor (scenes : List PlanningScene) : Nat → Option Nat → Option Nat
  | 0, scene => scene
  | n + 1, scene => nthAncestor scenes n (scene.bind (getParent scenes))

/-- The lookup `robot_model_->getJointModelGroup(group)`, `none` for the null pointer. -/
def RobotModel.getJointModelGroup (m : RobotModel) (group : String) :
    Option JointModelGroup :=
  m.joint_model_groups.find? (fun g => g.name == group)

set_option linter.unusedVariables false in
/-- The method `CurrentStateMonitor::waitForCompleteState(const std::string& group, double
wait_time) const`: the returned flag, or `none` when `fuel` iterations of the loop of
`waitForCompleteState(wait_time)` were not enough. `snapshots` is as in
`waitForCompleteState_loop`: the call of `haveCompleteState(missing_joints)` is the call
after the two last calls of `waitForCompleteState(wait_time)`. In the source the block
under `if (jmg)` declares `bool ok = true;` again, so the loop over the names of the group
writes that inner variable, whose scope ends with the block; `return ok` reads the
variable declared first. -/
def waitForCompleteState_group (snapshots : Nat → CurrentStateMonitor) (group : String)
    (wait_time : ℚ) (fuel : Nat) : Option Bool :=
  match waitForCompleteState snapshots wait_time fuel with
  | none => none
  | some r =>
    if r.1 then some true
    else
      let ok : Bool := true
      let mon := snapshots (r.2 + 2)
      let have_complete := haveCompleteStateMissing mon []
      let missing_joints := have_complete.2
      if !have_complete.1 then
        match mon.robot_model_.getJointModelGroup group with
        | some jmg =>
          let mj := missing_joints
          let names := jmg.joint_model_names
          let block : Bool :=
            let ok : Bool := true
            names.foldl (fun ok name => if ok && mj.contains name then false else ok) ok
          some ok
        | none =>
          let ok : Bool := false
          some ok
      else some ok

/-- The value that the loop over the names of the group computes in
`waitForCompleteState(group, wait_time)`: no joint of the group is among the missing
joints. -/
def groupJointsKnown (mon : CurrentStateMonitor) (jmg : JointModelGroup) : Bool :=
  jmg.joint_model_names.all (fun name => !(haveCompleteStateMissing mon []).2.contains name)

/-- Example model: the example arm with the joint group `arm` of the joints `A` and `B`. -/
def exampleArmGrouped : RobotModel :=
  { exampleArm with
    joint_model_groups := [{ name := "arm", joint_model_names := ["A", "B"] }] }

/-- The conversions `(int)` and `(int32_t)` of a `double`: the integral part, rounded
towards zero (values outside the range of the integer type are not represented). -/
def castInt (d : ℚ) : Int :=
  if 0 ≤ d then ⌊d⌋ else ⌈d⌉

/-- The constructor `rclcpp::Duration(int32_t seconds, uint32_t nanoseconds)`: the duration
of `seconds` seconds and `nanoseconds` nanoseconds, in nanoseconds. A `double` argument is
converted to `uint32_t` by dropping its fractional part. -/
def Duration (seconds : Int) (nanoseconds : ℚ) : Time :=
  seconds * 1000000000 + castInt nanoseconds % 4294967296

/-- The statements of `PlanningSceneMonitor::initialize` that compute
`shape_transform_cache_lookup_wait_time_`; `parameter` is the value of the parameter
`shape_transform_cache_lookup_wait_time`, if it is set. In the second argument of the
constructor the cast `(int32_t)` applies to `(temp_wait_time - seconds)`, and the product
with `1.0e+9` is taken afterwards; the cast `(int32_t)seconds` of an `int` changes
nothing. -/
def initialize_shape_transform_cache_lookup_wait_time (parameter : Option ℚ) : Time :=
  let temp_wait_time : ℚ :=
    match parameter with
    | some v => v
    | none => 5 / 100
  let seconds : Int := castInt temp_wait_time
  Duration seconds ((castInt (temp_wait_time - seconds) : ℚ) * 1000000000)

/-- The wait time that the configured value stands for: `w` seconds, in nanoseconds (whole
seconds plus the fractional part times `1e9`). -/
def configuredWaitTime (w : ℚ) : ℚ :=
  (⌊w⌋ : ℚ) * 1000000000 + (w - ⌊w⌋) * 1000000000

/-- The shape kinds of `shapes::ShapeType`. -/
inductive ShapeType where
  | UNKNOWN_SHAPE
  | SPHERE
  | CYLINDER
  | CONE
  | BOX
  | PLANE
  | MESH
  | OCTREE
  deriving DecidableEq, Repr

/-- What the monitor asks of a `shapes::Shape`: its `type`; `geometry` stands for the rest
of the shape. -/
structure Shape where
  type : ShapeType
  geometry : Nat
  deriving DecidableEq, Repr

/-- An `occupancy_map_monitor::ShapeHandle` (an unsigned integer); `0` is the null handle. -/
abbrev ShapeHandle := Nat

/-- Modelled from the spec: the occupancy subsystem (`OccupancyMapMonitor`) is an external
collaborator that hands out "opaque handles". `accepts` says for which shapes `excludeShape`
gives a handle, `handle_count_` counts the handles given so far, `excluded` lists the
non-null handles returned by `excludeShape` and `forgotten` the handles passed to
`forgetShape`, both in the order of the calls. -/
structure OccupancyMapMonitor where
  accepts : Shape → Bool
  handle_count_ : Nat
  excluded : List ShapeHandle
  forgotten : List ShapeHandle

/-- Modelled from the spec: `OccupancyMapMonitor::excludeShape(shape)`: a new non-null
handle for a shape that the subsystem accepts, the null handle `0` otherwise. -/
def OccupancyMapMonitor.excludeShape (o : OccupancyMapMonitor) (shape : Shape) :
    OccupancyMapMonitor × ShapeHandle :=
  if o.accepts shape then
    ({ o with handle_count_ := o.handle_count_ + 1,
              excluded := o.excluded ++ [o.handle_count_ + 1] },
      o.handle_count_ + 1)
  else (o, 0)

/-- Modelled from the spec: `OccupancyMapMonitor::forgetShape(handle)`. -/
def OccupancyMapMonitor.forgetShape (o : OccupancyMapMonitor) (handle : ShapeHandle) :
    OccupancyMapMonitor :=
  { o with forgotten := o.forgotten ++ [handle] }

/-- What the monitor asks of a `moveit::core::LinkModel`: `getName()` and `getShapes()`. A
`const LinkModel*` is the value it points to. -/
structure LinkModel where
  name : String
  shapes : List Shape
  deriving DecidableEq, Repr

/-- What the monitor asks of a `robot_state::AttachedBody`: `getName()` and `getShapes()`.
A `const AttachedBody*` is the value it points to. -/
structure AttachedBody where
  name : String
  shapes : List Shape
  deriving DecidableEq, Repr

/-- The members `id_` and `shapes_` of a `collision_detection::World::Object`; the pose
`shape_poses_[i]` is known by its index `i`. -/
structure Object where
  id_ : String
  shapes_ : List Shape
  deriving DecidableEq, Repr

/-- The constant `planning_scene::PlanningScene::OCTOMAP_NS` of moveit_core. -/
def OCTOMAP_NS : String := "<octomap>"

/-- The bits of `collision_detection::World::Action` that
`currentWorldObjectUpdateCallback` tests. -/
def CREATE : Nat := 1

/-- The bit `collision_detection::World::DESTROY`. -/
def DESTROY : Nat := 2

/-- The bit `collision_detection::World::MOVE_SHAPE`. -/
def MOVE_SHAPE : Nat := 4

/-- A `std::map` from keys to vectors, as the list of its entries (no two entries with the
same key; the order of the entries is the order of their creation, not the order of the
keys): `find(key)`, `none` for `end()`. -/
def mapFind {κ α : Type} [DecidableEq κ] (m : List (κ × List α)) (key : κ) :
    Option (List α) :=
  (m.find? (fun e => decide (e.1 = key))).map Prod.snd

/-- The statement `m[key].push_back(v)` on a `std::map` of vectors: the entry is created
empty when there is none. -/
def mapPushBack {κ α : Type} [DecidableEq κ] (m : List (κ × List α)) (key : κ) (v : α) :
    List (κ × List α) :=
  match mapFind m key with
  | some _ => m.map (fun e => if e.1 = key then (e.1, e.2 ++ [v]) else e)
  | none => m ++ [(key, [v])]

/-- The statement `m.erase(it)` for the iterator `it` found for `key`. -/
def mapErase {κ α : Type} [DecidableEq κ] (m : List (κ × List α)) (key : κ) :
    List (κ × List α) :=
  m.filter (fun e => decide (e.1 ≠ key))

/-- The handles held by a map of shape handles, entry by entry. -/
def storedHandles {κ β : Type} : List (κ × List (ShapeHandle × β)) → List ShapeHandle
  | [] => []
  | e :: m => e.2.map Prod.fst ++ storedHandles m

/-- The members of `PlanningSceneMonitor` that the shape-exclusion functions read or write:
the occupancy subsystem (`none` for a null `octomap_monitor_`) and the three maps of shape
handles. In `collision_body_shape_handles_` the pointer `&obj->shape_poses_[i]` is the
index `i`. -/
structure ShapeHandles where
  octomap_monitor_ : Option OccupancyMapMonitor
  link_shape_handles_ : List (LinkModel × List (ShapeHandle × Nat))
  attached_body_shape_handles_ : List (AttachedBody × List (ShapeHandle × Nat))
  collision_body_shape_handles_ : List (String × List (ShapeHandle × Nat))

/-- A loop `for (... it : entries) octomap_monitor_->forgetShape(it.first)`. -/
def forgetAll (o : OccupancyMapMonitor) (handles : List ShapeHandle) : OccupancyMapMonitor :=
  handles.foldl OccupancyMapMonitor.forgetShape o

/-- The statements `h = octomap_monitor_->excludeShape(shape); if (h)
m[key].push_back(std::make_pair(h, i));` on the subsystem and the map. -/
def excludeShapeStep {κ : Type} [DecidableEq κ] (key : κ) (shape : Shape) (i : Nat)
    (st : OccupancyMapMonitor × List (κ × List (ShapeHandle × Nat))) :
    OccupancyMapMonitor × List (κ × List (ShapeHandle × Nat)) :=
  let r := st.1.excludeShape shape
  if r.2 ≠ 0 then (r.1, mapPushBack st.2 key (r.2, i)) else (r.1, st.2)

/-- The loop over the shapes of one body, entered at index `i` with the shapes from `i` on.
With `skip_flat` the iteration `continue`s on a shape of type `PLANE` or `OCTREE` (attached
bodies and world objects); without it every shape is excluded (robot links; the merging of
mesh vertices changes the geometry only and is not represented). -/
def excludeShapesLoop {κ : Type} [DecidableEq κ] (skip_flat : Bool) (key : κ) :
    Nat → List Shape → OccupancyMapMonitor × List (κ × List (ShapeHandle × Nat)) →
    OccupancyMapMonitor × List (κ × List (ShapeHandle × Nat))
  | _, [], st => st
  | i, shape :: rest, st =>
    excludeShapesLoop skip_flat key (i + 1) rest
      (if skip_flat && (decide (shape.type = ShapeType.PLANE) ||
          decide (shape.type = ShapeType.OCTREE)) then st
        else excludeShapeStep key shape i st)

/-- The method `PlanningSceneMonitor::includeRobotLinksInOctree()`. -/
def includeRobotLinksInOctree (c : ShapeHandles) : ShapeHandles :=
  match c.octomap_monitor_ with
  | none => c
  | some o =>
    { c with octomap_monitor_ := some (forgetAll o (storedHandles c.link_shape_handles_)),
             link_shape_handles_ := [] }

/-- The method `PlanningSceneMonitor::excludeRobotLinksFromOctree()`; `links` is
`getRobotModel()->getLinkModelsWithCollisionGeometry()`. The warning about the elapsed
time is not represented. -/
def excludeRobotLinksFromOctree (c : ShapeHandles) (links : List LinkModel) : ShapeHandles :=
  match c.octomap_monitor_ with
  | none => c
  | some _ =>
    let c1 := includeRobotLinksInOctree c
    match c1.octomap_monitor_ with
    | none => c1
    | some o1 =>
      let r := links.foldl
        (fun st link => excludeShapesLoop false link 0 link.shapes st)
        (o1, c1.link_shape_handles_)
      { c1 with octomap_monitor_ := some r.1, link_shape_handles_ := r.2 }

/-- The method `PlanningSceneMonitor::includeAttachedBodiesInOctree()`. -/
def includeAttachedBodiesInOctree (c : ShapeHandles) : ShapeHandles :=
  match c.octomap_monitor_ with
  | none => c
  | some o =>
    { c with
      octomap_monitor_ := some (forgetAll o (storedHandles c.attached_body_shape_handles_)),
      attached_body_shape_handles_ := [] }

/-- The method `PlanningSceneMonitor::excludeAttachedBodyFromOctree(attached_body)`. -/
def excludeAttachedBodyFromOctree (c : ShapeHandles) (attached_body : AttachedBody) :
    ShapeHandles :=
  match c.octomap_monitor_ with
  | none => c
  | some o =>
    let r := excludeShapesLoop true attached_body 0 attached_body.shapes
      (o, c.attached_body_shape_handles_)
    { c with octomap_monitor_ := some r.1, attached_body_shape_handles_ := r.2 }

/-- The method `PlanningSceneMonitor::includeAttachedBodyInOctree(attached_body)`. -/
def includeAttachedBodyInOctree (c : ShapeHandles) (attached_body : AttachedBody) :
    ShapeHandles :=
  match c.octomap_monitor_ with
  | none => c
  | some o =>
    match mapFind c.attached_body_shape_handles_ attached_body with
    | some entries =>
      { c with
        octomap_monitor_ := some (forgetAll o (entries.map Prod.fst)),
        attached_body_shape_handles_ := mapErase c.attached_body_shape_handles_ attached_body }
    | none => c

/-- The method `PlanningSceneMonitor::excludeAttachedBodiesFromOctree()`; `ab` is what
`scene_->getCurrentState().getAttachedBodies(ab)` collects. -/
def excludeAttachedBodiesFromOctree (c : ShapeHandles) (ab : List AttachedBody) :
    ShapeHandles :=
  ab.foldl excludeAttachedBodyFromOctree (includeAttachedBodiesInOctree c)

/-- The method `PlanningSceneMonitor::includeWorldObjectsInOctree()`. -/
def includeWorldObjectsInOctree (c : ShapeHandles) : ShapeHandles :=
  match c.octomap_monitor_ with
  | none => c
  | some o =>
    { c with
      octomap_monitor_ := some (forgetAll o (storedHandles c.collision_body_shape_handles_)),
      collision_body_shape_handles_ := [] }

/-- The method `PlanningSceneMonitor::excludeWorldObjectFromOctree(obj)`. -/
def excludeWorldObjectFromOctree (c : ShapeHandles) (obj : Object) : ShapeHandles :=
  match c.octomap_monitor_ with
  | none => c
  | some o =>
    let r := excludeShapesLoop true obj.id_ 0 obj.shapes_ (o, c.collision_body_shape_handles_)
    { c with octomap_monitor_ := some r.1, collision_body_shape_handles_ := r.2 }

/-- The method `PlanningSceneMonitor::includeWorldObjectInOctree(obj)`. -/
def includeWorldObjectInOctree (c : ShapeHandles) (obj : Object) : ShapeHandles :=
  match c.octomap_monitor_ with
  | none => c
  | some o =>
    match mapFind c.collision_body_shape_handles_ obj.id_ with
    | some entries =>
      { c with
        octomap_monitor_ := some (forgetAll o (entries.map Prod.fst)),
        collision_body_shape_handles_ := mapErase c.collision_body_shape_handles_ obj.id_ }
    | none => c

/-- The method `PlanningSceneMonitor::excludeWorldObjectsFromOctree()`; `world` is the list
of the objects of `*scene_->getWorld()`. -/
def excludeWorldObjectsFromOctree (c : ShapeHandles) (world : List Object) : ShapeHandles :=
  world.foldl excludeWorldObjectFromOctree (includeWorldObjectsInOctree c)

/-- The method `PlanningSceneMonitor::currentStateAttachedBodyUpdateCallback(attached_body,
just_attached)`. -/
def currentStateAttachedBodyUpdateCallback (c : ShapeHandles) (attached_body : AttachedBody)
    (just_attached : Bool) : ShapeHandles :=
  match c.octomap_monitor_ with
  | none => c
  | some _ =>
    if just_attached then excludeAttachedBodyFromOctree c attached_body
    else includeAttachedBodyInOctree c attached_body

/-- The method `PlanningSceneMonitor::currentWorldObjectUpdateCallback(obj, action)`. In
the last branch the source calls `excludeWorldObjectFromOctree(obj)` first and
`includeWorldObjectInOctree(obj)` second. -/
def currentWorldObjectUpdateCallback (c : ShapeHandles) (obj : Object) (action : Nat) :
    ShapeHandles :=
  match c.octomap_monitor_ with
  | none => c
  | some _ =>
    if obj.id_ = OCTOMAP_NS then c
    else if action &&& CREATE ≠ 0 then excludeWorldObjectFromOctree c obj
    else if action &&& DESTROY ≠ 0 then includeWorldObjectInOctree c obj
    else includeWorldObjectInOctree (excludeWorldObjectFromOctree c obj) obj

/-- A call of one of the functions that write the maps of shape handles. -/
inductive ShapeOperation where
  | excludeRobotLinksFromOctree (links : List LinkModel)
  | includeRobotLinksInOctree
  | excludeAttachedBodiesFromOctree (ab : List AttachedBody)
  | includeAttachedBodiesInOctree
  | excludeWorldObjectsFromOctree (world : List Object)
  | includeWorldObjectsInOctree
  | excludeAttachedBodyFromOctree (attached_body : AttachedBody)
  | includeAttachedBodyInOctree (attached_body : AttachedBody)
  | excludeWorldObjectFromOctree (obj : Object)
  | includeWorldObjectInOctree (obj : Object)
  | currentStateAttachedBodyUpdateCallback (attached_body : AttachedBody) (just_attached : Bool)
  | currentWorldObjectUpdateCallback (obj : Object) (action : Nat)

/-- The effect of one call. -/
def ShapeOperation.apply (c : ShapeHandles) : ShapeOperation → ShapeHandles
  | ShapeOperation.excludeRobotLinksFromOctree links =>
    planning_scene_monitor.excludeRobotLinksFromOctree c links
  | ShapeOperation.includeRobotLinksInOctree =>
    planning_scene_monitor.includeRobotLinksInOctree c
  | ShapeOperation.excludeAttachedBodiesFromOctree ab =>
    planning_scene_monitor.excludeAttachedBodiesFromOctree c ab
  | ShapeOperation.includeAttachedBodiesInOctree =>
    planning_scene_monitor.includeAttachedBodiesInOctree c
  | ShapeOperation.excludeWorldObjectsFromOctree world =>
    planning_scene_monitor.excludeWorldObjectsFromOctree c world
  | ShapeOperation.includeWorldObjectsInOctree =>
    planning_scene_monitor.includeWorldObjectsInOctree c
  | ShapeOperation.excludeAttachedBodyFromOctree attached_body =>
    planning_scene_monitor.excludeAttachedBodyFromOctree c attached_body
  | ShapeOperation.includeAttachedBodyInOctree attached_body =>
    planning_scene_monitor.includeAttachedBodyInOctree c attached_body
  | ShapeOperation.excludeWorldObjectFromOctree obj =>
    planning_scene_monitor.excludeWorldObjectFromOctree c obj
  | ShapeOperation.includeWorldObjectInOctree obj =>
    planning_scene_monitor.includeWorldObjectInOctree c obj
  | ShapeOperation.currentStateAttachedBodyUpdateCallback attached_body just_attached =>
    planning_scene_monitor.currentStateAttachedBodyUpdateCallback c attached_body just_attached
  | ShapeOperation.currentWorldObjectUpdateCallback obj action =>
    planning_scene_monitor.currentWorldObjectUpdateCallback c obj action

/-- A sequence of calls, in order. -/
def runShapeOperations (c : ShapeHandles) (ops : List ShapeOperation) : ShapeHandles :=
  ops.foldl ShapeOperation.apply c

/-- Every handle held by one of the three maps of shape handles. -/
def allStoredHandles (c : ShapeHandles) : List ShapeHandle :=
  storedHandles c.link_shape_handles_ ++ storedHandles c.attached_body_shape_handles_ ++
    storedHandles c.collision_body_shape_handles_

/-- The invariant of the maps of shape handles together with the occupancy subsystem `o`:
no map has two entries with the same key; the handles held by the maps together with the
forgotten handles are, as multisets, the non-null handles obtained from `excludeShape`; no
held handle is null; the obtained handles are distinct, positive and at most
`handle_count_`. -/
def handlesInvariant (c : ShapeHandles) (o : OccupancyMapMonitor) : Prop :=
  (c.link_shape_handles_.map Prod.fst).Nodup ∧
  (c.attached_body_shape_handles_.map Prod.fst).Nodup ∧
  (c.collision_body_shape_handles_.map Prod.fst).Nodup ∧
  ((allStoredHandles c : Multiset ShapeHandle) + (o.forgotten : Multiset ShapeHandle)
    = (o.excluded : Multiset ShapeHandle)) ∧
  (0 : ShapeHandle) ∉ allStoredHandles c ∧
  o.excluded.Nodup ∧
  (∀ h ∈ o.excluded, 0 < h ∧ h ≤ o.handle_count_)

/-- An occupancy subsystem that accepts every shape and has given no handle yet. -/
def exampleOccupancy : OccupancyMapMonitor :=
  { accepts := fun _ => true, handle_count_ := 0, excluded := [], forgotten := [] }

/-- The members of a monitor right after the occupancy subsystem was created: no handle is
held. -/
def exampleShapeHandles : ShapeHandles :=
  { octomap_monitor_ := some exampleOccupancy,
    link_shape_handles_ := [],
    attached_body_shape_handles_ := [],
    collision_body_shape_handles_ := [] }

/-- A world object with a box and a plane. -/
def exampleBox : Object :=
  { id_ := "box",
    shapes_ :=
      [{ type := ShapeType.BOX, geometry := 1 }, { type := ShapeType.PLANE, geometry := 2 }] }

/-- An attached body with one cylinder. -/
def exampleTool : AttachedBody :=
  { name := "tool", shapes := [{ type := ShapeType.CYLINDER, geometry := 3 }] }

/-- A robot link with a mesh. -/
def exampleLink : LinkModel :=
  { name := "link1", shapes := [{ type := ShapeType.MESH, geometry := 4 }] }

/-- The invariant of one map of shape handles together with the occupancy subsystem, `rest`
being the handles held by the two other maps. -/
def pairInvariant {κ : Type} (rest : Multiset ShapeHandle)
    (st : OccupancyMapMonitor × List (κ × List (ShapeHandle × Nat))) : Prop :=
  (st.2.map Prod.fst).Nodup ∧
  ((storedHandles st.2 : Multiset ShapeHandle) + rest + (st.1.forgotten : Multiset ShapeHandle)
    = (st.1.excluded : Multiset ShapeHandle)) ∧
  (0 : ShapeHandle) ∉ storedHandles st.2 ∧
  st.1.excluded.Nodup ∧
  (∀ h ∈ st.1.excluded, 0 < h ∧ h ≤ st.1.handle_count_)

/-- A run on the example members: the robot links are excluded, the example box is created,
the example tool is attached, the box moves, and the attached bodies are excluded anew. -/
def exampleShapeOperations : List ShapeOperation :=
  [ShapeOperation.excludeRobotLinksFromOctree [exampleLink],
    ShapeOperation.currentWorldObjectUpdateCallback exampleBox CREATE,
    ShapeOperation.currentStateAttachedBodyUpdateCallback exampleTool true,
    ShapeOperation.currentWorldObjectUpdateCallback exampleBox MOVE_SHAPE,
    ShapeOperation.excludeAttachedBodiesFromOctree [exampleTool]]

/-- The rounding of a number whose binary exponent `e` is known (normal range). -/
theorem roundDouble_eq (q : ℚ) (e : ℤ) (h1 : (2 : ℚ) ^ e ≤ |q|) (h2 : |q| < (2 : ℚ) ^ (e + 1))
    (he : -1022 ≤ e) : roundDouble q = roundToMultiple ((2 : ℚ) ^ (e - 52)) q := by
  have hpos : (0 : ℚ) < |q| := lt_of_lt_of_le (by positivity) h1
  have hq : q ≠ 0 := abs_pos.mp hpos
  have hlog : Int.log 2 |q| = e := by
    apply le_antisymm
    · have := (Int.lt_zpow_iff_log_lt (R := ℚ) (b := 2) (by norm_num) hpos).mp
        (by exact_mod_cast h2)
      omega
    · exact (Int.zpow_le_iff_le_log (R := ℚ) (b := 2) (by norm_num) hpos).mp
        (by exact_mod_cast h1)
  unfold roundDouble
  rw [if_neg hq, hlog, max_eq_left he]

theorem roundDouble_eq_of_pos (q : ℚ) (e : ℤ) (h1 : (2 : ℚ) ^ e ≤ q)
    (h2 : q < (2 : ℚ) ^ (e + 1)) (he : -1022 ≤ e) :
    roundDouble q = roundToMultiple ((2 : ℚ) ^ (e - 52)) q := by
  have hpos : (0 : ℚ) < q := lt_of_lt_of_le (by positivity) h1
  exact roundDouble_eq q e (by rw [abs_of_pos hpos]; exact h1)
    (by rw [abs_of_pos hpos]; exact h2) he

theorem roundDouble_eq_of_neg (q : ℚ) (e : ℤ) (h1 : (2 : ℚ) ^ e ≤ -q)
    (h2 : -q < (2 : ℚ) ^ (e + 1)) (he : -1022 ≤ e) :
    roundDouble q = roundToMultiple ((2 : ℚ) ^ (e - 52)) q := by
  have hpos : (0 : ℚ) < -q := lt_of_lt_of_le (by positivity) h1
  have hneg : q < 0 := by linarith
  exact roundDouble_eq q e (by rw [abs_of_neg hneg]; exact h1)
    (by rw [abs_of_neg hneg]; exact h2) he

/-- The rounding of a positive number below the normal range. -/
theorem roundDouble_eq_of_small (q : ℚ) (h0 : 0 < q) (h : q < (2 : ℚ) ^ (-1022 : ℤ)) :
    roundDouble q = roundToMultiple ((2 : ℚ) ^ (-1074 : ℤ)) q := by
  have hq : q ≠ 0 := ne_of_gt h0
  have habs : |q| = q := abs_of_pos h0
  have hlog : Int.log 2 |q| < -1022 := by
    rw [habs]
    exact (Int.lt_zpow_iff_log_lt (R := ℚ) (b := 2) (by norm_num) h0).mp (by exact_mod_cast h)
  unfold roundDouble
  rw [if_neg hq, max_eq_right (le_of_lt hlog)]
  norm_num

theorem roundDouble_zero : roundDouble 0 = 0 := by
  simp [roundDouble]

/-- Rounding to a multiple of `quantum` lowers a number by at most half of `quantum`. -/
theorem roundToMultiple_ge (quantum q : ℚ) (hq : 0 < quantum) :
    q - quantum / 2 ≤ roundToMultiple quantum q := by
  have ht : q = q / quantum * quantum := by field_simp
  have hf1 : ((⌊q / quantum⌋ : ℤ) : ℚ) ≤ q / quantum := Int.floor_le _
  have hf2 : q / quantum < ((⌊q / quantum⌋ : ℤ) : ℚ) + 1 := Int.lt_floor_add_one _
  unfold roundToMultiple
  simp only []
  split
  · rename_i h
    have : q / quantum * quantum - quantum / 2 ≤ ((⌊q / quantum⌋ : ℤ) : ℚ) * quantum := by
      nlinarith
    linarith
  · split
    · have : q / quantum * quantum ≤ (((⌊q / quantum⌋ : ℤ) : ℚ) + 1) * quantum := by
        nlinarith
      linarith
    · rename_i h1 h2
      have heq : q / quantum - ((⌊q / quantum⌋ : ℤ) : ℚ) = 1 / 2 := by
        apply le_antisymm
        · exact not_lt.mp h2
        · exact not_lt.mp h1
      split
      · have : q / quantum * quantum - quantum / 2 ≤ ((⌊q / quantum⌋ : ℤ) : ℚ) * quantum := by
          nlinarith
        linarith
      · have : q / quantum * quantum ≤ (((⌊q / quantum⌋ : ℤ) : ℚ) + 1) * quantum := by
          nlinarith
        linarith

/-- In the normal range the rounding lowers a positive number by at most the fraction
`2^-53` of it. -/
theorem roundDouble_ge (q : ℚ) (h : (2 : ℚ) ^ (-1022 : ℤ) ≤ q) :
    q * (1 - (2 : ℚ) ^ (-53 : ℤ)) ≤ roundDouble q := by
  have h0 : (0 : ℚ) < q := lt_of_lt_of_le (by positivity) h
  have hq : q ≠ 0 := ne_of_gt h0
  have habs : |q| = q := abs_of_pos h0
  have hge : (-1022 : ℤ) ≤ Int.log 2 q :=
    (Int.zpow_le_iff_le_log (R := ℚ) (b := 2) (by norm_num) h0).mp (by exact_mod_cast h)
  have hle : (2 : ℚ) ^ (Int.log 2 q) ≤ q := by
    have := Int.zpow_log_le_self (R := ℚ) (b := 2) (by norm_num) h0
    exact_mod_cast this
  unfold roundDouble
  rw [if_neg hq, habs, max_eq_left hge]
  have hquant : (0 : ℚ) < (2 : ℚ) ^ (Int.log 2 q - 52) := by positivity
  have hsplit : (2 : ℚ) ^ (Int.log 2 q - 52) = (2 : ℚ) ^ (Int.log 2 q) * (2 : ℚ) ^ (-52 : ℤ) := by
    rw [← zpow_add₀ (by norm_num : (2 : ℚ) ≠ 0)]
    congr 1
  have hb := roundToMultiple_ge ((2 : ℚ) ^ (Int.log 2 q - 52)) q hquant
  have h53 : (2 : ℚ) ^ (-52 : ℤ) / 2 = (2 : ℚ) ^ (-53 : ℤ) := by norm_num
  have : (2 : ℚ) ^ (Int.log 2 q - 52) / 2 ≤ q * (2 : ℚ) ^ (-53 : ℤ) := by
    rw [hsplit, mul_div_assoc, h53]
    exact mul_le_mul_of_nonneg_right hle (by positivity)
  have hring : q * (1 - (2 : ℚ) ^ (-53 : ℤ)) = q - q * (2 : ℚ) ^ (-53 : ℤ) := by ring
  rw [hring]
  have h1 : q - q * (2 : ℚ) ^ (-53 : ℤ) ≤ q - (2 : ℚ) ^ (Int.log 2 q - 52) / 2 := by linarith
  exact le_trans h1 hb

/-- Rounding to a multiple of `quantum` raises a number by at most half of `quantum`. -/
theorem roundToMultiple_le (quantum q : ℚ) (hq : 0 < quantum) :
    roundToMultiple quantum q ≤ q + quantum / 2 := by
  have ht : q = q / quantum * quantum := by field_simp
  have hf1 : ((⌊q / quantum⌋ : ℤ) : ℚ) ≤ q / quantum := Int.floor_le _
  have hf2 : q / quantum < ((⌊q / quantum⌋ : ℤ) : ℚ) + 1 := Int.lt_floor_add_one _
  unfold roundToMultiple
  simp only []
  split
  · have : ((⌊q / quantum⌋ : ℤ) : ℚ) * quantum ≤ q / quantum * quantum := by
      nlinarith
    linarith
  · split
    · rename_i h1 h
      have : (((⌊q / quantum⌋ : ℤ) : ℚ) + 1) * quantum ≤ q / quantum * quantum + quantum / 2 := by
        nlinarith
      linarith
    · rename_i h1 h2
      have heq : q / quantum - ((⌊q / quantum⌋ : ℤ) : ℚ) = 1 / 2 := by
        apply le_antisymm
        · exact not_lt.mp h2
        · exact not_lt.mp h1
      split
      · have : ((⌊q / quantum⌋ : ℤ) : ℚ) * quantum ≤ q / quantum * quantum := by
          nlinarith
        linarith
      · have : (((⌊q / quantum⌋ : ℤ) : ℚ) + 1) * quantum ≤ q / quantum * quantum + quantum / 2 := by
          nlinarith
        linarith

/-- In the normal range the rounding raises a positive number by at most the fraction
`2^-53` of it. -/
theorem roundDouble_le (q : ℚ) (h : (2 : ℚ) ^ (-1022 : ℤ) ≤ q) :
    roundDouble q ≤ q * (1 + (2 : ℚ) ^ (-53 : ℤ)) := by
  have h0 : (0 : ℚ) < q := lt_of_lt_of_le (by positivity) h
  have hq : q ≠ 0 := ne_of_gt h0
  have habs : |q| = q := abs_of_pos h0
  have hge : (-1022 : ℤ) ≤ Int.log 2 q :=
    (Int.zpow_le_iff_le_log (R := ℚ) (b := 2) (by norm_num) h0).mp (by exact_mod_cast h)
  have hle : (2 : ℚ) ^ (Int.log 2 q) ≤ q := by
    have := Int.zpow_log_le_self (R := ℚ) (b := 2) (by norm_num) h0
    exact_mod_cast this
  unfold roundDouble
  rw [if_neg hq, habs, max_eq_left hge]
  have hquant : (0 : ℚ) < (2 : ℚ) ^ (Int.log 2 q - 52) := by positivity
  have hsplit : (2 : ℚ) ^ (Int.log 2 q - 52) = (2 : ℚ) ^ (Int.log 2 q) * (2 : ℚ) ^ (-52 : ℤ) := by
    rw [← zpow_add₀ (by norm_num : (2 : ℚ) ≠ 0)]
    congr 1
  have hb := roundToMultiple_le ((2 : ℚ) ^ (Int.log 2 q - 52)) q hquant
  have h53 : (2 : ℚ) ^ (-52 : ℤ) / 2 = (2 : ℚ) ^ (-53 : ℤ) := by norm_num
  have : (2 : ℚ) ^ (Int.log 2 q - 52) / 2 ≤ q * (2 : ℚ) ^ (-53 : ℤ) := by
    rw [hsplit, mul_div_assoc, h53]
    exact mul_le_mul_of_nonneg_right hle (by positivity)
  have hring : q * (1 + (2 : ℚ) ^ (-53 : ℤ)) = q + q * (2 : ℚ) ^ (-53 : ℤ) := by ring
  rw [hring]
  have h1 : q + (2 : ℚ) ^ (Int.log 2 q - 52) / 2 ≤ q + q * (2 : ℚ) ^ (-53 : ℤ) := by linarith
  exact le_trans hb h1

/-- The `double` literal `0.05`. -/
theorem roundDouble_five_hundredths :
    roundDouble (5 / 100) = 3602879701896397 / 72057594037927936 := by
  rw [roundDouble_eq_of_pos _ (-5) (by norm_num) (by norm_num) (by norm_num)]
  norm_num [roundToMultiple]

/-- A quotient `wait_time / 10.0` below half of the least positive `double` is rounded to
zero. -/
theorem roundDouble_least_tenth : roundDouble (1 / 2 ^ 1074 / 10) = 0 := by
  rw [roundDouble_eq_of_small _ (by norm_num) (by norm_num)]
  norm_num [roundToMultiple]

/-! ## Lemmas on the loop of `jointStateCallback` -/

theorem jointStateStep_frame (js : JointState) (i : Nat) (st : CurrentStateMonitor × Bool) :
    (jointStateStep js i st).1.robot_model_ = st.1.robot_model_ ∧
    (jointStateStep js i st).1.error_ = st.1.error_ ∧
    (jointStateStep js i st).1.copy_dynamics_ = st.1.copy_dynamics_ ∧
    (jointStateStep js i st).1.update_callbacks_ = st.1.update_callbacks_ ∧
    (jointStateStep js i st).1.current_state_time_ = st.1.current_state_time_ := by
  unfold jointStateStep
  split
  · simp
  · split
    · simp
    · simp only []
      split
      · split <;> simp
      · simp

theorem jointStateStep_other (js : JointState) (i : Nat) (st : CurrentStateMonitor × Bool)
    (jm : JointModel)
    (h : st.1.robot_model_.getJointModel (js.name.getD i "") ≠ some jm) :
    (jointStateStep js i st).1.robot_state_.position jm = st.1.robot_state_.position jm ∧
    (jointStateStep js i st).1.robot_state_.velocity jm = st.1.robot_state_.velocity jm ∧
    (jointStateStep js i st).1.robot_state_.effort jm = st.1.robot_state_.effort jm ∧
    (jointStateStep js i st).1.joint_time_ jm = st.1.joint_time_ jm := by
  unfold jointStateStep
  split
  · simp
  · rename_i jm0 hjm0
    have hne : jm ≠ jm0 := by
      intro e; apply h; rw [hjm0, e]
    split
    · simp
    · simp only []
      split
      · split <;>
          simp [RobotState.setJointPositions, RobotState.setJointVelocities,
            RobotState.setJointEfforts, Function.update_noteq hne] <;>
          (repeat' split) <;> simp [Function.update_noteq hne]
      · simp [Function.update_noteq hne]

theorem jointStateStep_at (js : JointState) (i : Nat) (st : CurrentStateMonitor × Bool)
    (jm : JointModel)
    (h : st.1.robot_model_.getJointModel (js.name.getD i "") = some jm)
    (hv : jm.variableCount = 1) :
    (jointStateStep js i st).1.joint_time_ jm = some js.stamp ∧
    (jointStateStep js i st).1.robot_state_.position jm =
      storedAfter st.1.error_ jm (st.1.robot_state_.position jm) (js.position.getD i 0) := by
  unfold jointStateStep
  rw [h]
  simp only [hv, ne_eq, not_true_eq_false, if_false]
  unfold storedAfter
  by_cases hp : st.1.robot_state_.position jm = js.position.getD i 0
  · simp [RobotState.getJointPositions, hp]
  · simp only [RobotState.getJointPositions, hp, not_false_eq_true, if_true, if_false]
    split
    · simp [RobotState.setJointPositions, RobotState.setJointVelocities,
            RobotState.setJointEfforts]
      (repeat' split) <;> simp
    · simp [RobotState.setJointPositions, RobotState.setJointVelocities,
            RobotState.setJointEfforts]
      (repeat' split) <;> simp

theorem jointStateStep_skip (js : JointState) (i : Nat) (st : CurrentStateMonitor × Bool)
    (jm : JointModel)
    (h : st.1.robot_model_.getJointModel (js.name.getD i "") = some jm)
    (hv : jm.variableCount ≠ 1) :
    jointStateStep js i st = st := by
  unfold jointStateStep
  rw [h]
  simp [hv]

theorem jointStateStep_time_stays (js : JointState) (i : Nat) (st : CurrentStateMonitor × Bool)
    (jm : JointModel) (h : st.1.joint_time_ jm = some js.stamp) :
    (jointStateStep js i st).1.joint_time_ jm = some js.stamp := by
  by_cases hk : st.1.robot_model_.getJointModel (js.name.getD i "") = some jm
  · by_cases hv : jm.variableCount = 1
    · exact (jointStateStep_at js i st jm hk hv).1
    · rw [jointStateStep_skip js i st jm hk hv]; exact h
  · rw [(jointStateStep_other js i st jm hk).2.2.2]; exact h

theorem jointStateLoop_frame (js : JointState) :
    ∀ (todo i : Nat) (st : CurrentStateMonitor × Bool),
      (jointStateLoop js i todo st).1.robot_model_ = st.1.robot_model_ ∧
      (jointStateLoop js i todo st).1.error_ = st.1.error_ ∧
      (jointStateLoop js i todo st).1.copy_dynamics_ = st.1.copy_dynamics_ ∧
      (jointStateLoop js i todo st).1.update_callbacks_ = st.1.update_callbacks_ ∧
      (jointStateLoop js i todo st).1.current_state_time_ = st.1.current_state_time_ := by
  intro todo
  induction todo with
  | zero => intro i st; simp [jointStateLoop]
  | succ n ih =>
    intro i st
    simp only [jointStateLoop]
    obtain ⟨h1, h2, h3, h4, h5⟩ := ih (i + 1) (jointStateStep js i st)
    obtain ⟨g1, g2, g3, g4, g5⟩ := jointStateStep_frame js i st
    exact ⟨h1.trans g1, h2.trans g2, h3.trans g3, h4.trans g4, h5.trans g5⟩

theorem jointStateLoop_split (js : JointState) :
    ∀ (a b i : Nat) (st : CurrentStateMonitor × Bool),
      jointStateLoop js i (a + b) st = jointStateLoop js (i + a) b (jointStateLoop js i a st) := by
  intro a
  induction a with
  | zero => intro b i st; simp [jointStateLoop]
  | succ n ih =>
    intro b i st
    have e : n + 1 + b = (n + b) + 1 := by omega
    rw [e]
    simp only [jointStateLoop]
    rw [ih b (i + 1) (jointStateStep js i st)]
    have e2 : i + 1 + n = i + (n + 1) := by omega
    rw [e2]

theorem jointStateLoop_other (js : JointState) (jm : JointModel) :
    ∀ (todo i : Nat) (st : CurrentStateMonitor × Bool),
      (∀ k, i ≤ k → k < i + todo →
        st.1.robot_model_.getJointModel (js.name.getD k "") ≠ some jm) →
      (jointStateLoop js i todo st).1.robot_state_.position jm = st.1.robot_state_.position jm ∧
      (jointStateLoop js i todo st).1.robot_state_.velocity jm = st.1.robot_state_.velocity jm ∧
      (jointStateLoop js i todo st).1.robot_state_.effort jm = st.1.robot_state_.effort jm ∧
      (jointStateLoop js i todo st).1.joint_time_ jm = st.1.joint_time_ jm := by
  intro todo
  induction todo with
  | zero => intro i st _; simp [jointStateLoop]
  | succ n ih =>
    intro i st h
    simp only [jointStateLoop]
    have hm := (jointStateStep_frame js i st).1
    obtain ⟨h1, h2, h3, h4⟩ := ih (i + 1) (jointStateStep js i st) (by
      intro k hk1 hk2
      rw [hm]
      exact h k (by omega) (by omega))
    obtain ⟨g1, g2, g3, g4⟩ := jointStateStep_other js i st jm (h i (le_refl i) (by omega))
    exact ⟨h1.trans g1, h2.trans g2, h3.trans g3, h4.trans g4⟩

theorem jointStateLoop_time_stays (js : JointState) (jm : JointModel) :
    ∀ (todo i : Nat) (st : CurrentStateMonitor × Bool),
      st.1.joint_time_ jm = some js.stamp →
      (jointStateLoop js i todo st).1.joint_time_ jm = some js.stamp := by
  intro todo
  induction todo with
  | zero => intro i st h; simpa [jointStateLoop] using h
  | succ n ih =>
    intro i st h
    simp only [jointStateLoop]
    exact ih (i + 1) _ (jointStateStep_time_stays js i st jm h)

/-- The loop over `n` entries is the loop over the entries before `k`, the step at `k`,
and the loop over the entries after `k`. -/
theorem jointStateLoop_through (js : JointState) (n k : Nat)
    (st : CurrentStateMonitor × Bool) (hk : k < n) :
    jointStateLoop js 0 n st =
      jointStateLoop js (k + 1) (n - k - 1)
        (jointStateStep js k (jointStateLoop js 0 k st)) := by
  have e : n = k + ((n - k - 1) + 1) := by omega
  conv_lhs => rw [e]
  rw [jointStateLoop_split js k ((n - k - 1) + 1) 0 st]
  have e0 : 0 + k = k := by omega
  rw [e0, Nat.add_comm (n - k - 1) 1, jointStateLoop_split js 1 (n - k - 1) k]
  simp only [jointStateLoop]

/-- Every known single-variable joint named by the message carries the stamp of the
message after the loop. -/
theorem jointStateLoop_time (js : JointState) (jm : JointModel) (n k : Nat)
    (st : CurrentStateMonitor × Bool) (hk : k < n)
    (hjm : st.1.robot_model_.getJointModel (js.name.getD k "") = some jm)
    (hv : jm.variableCount = 1) :
    (jointStateLoop js 0 n st).1.joint_time_ jm = some js.stamp := by
  rw [jointStateLoop_through js n k st hk]
  apply jointStateLoop_time_stays
  have f1 := (jointStateLoop_frame js k 0 st).1
  exact (jointStateStep_at js k (jointStateLoop js 0 k st) jm (by rw [f1]; exact hjm) hv).1

/-- The loop run up to and including the last index `k` that names `jm`, then to the end:
the timestamp of `jm` is the stamp, and its position is what the step at `k` stores over
the position left by the iterations before `k`. -/
theorem jointStateLoop_last (js : JointState) (jm : JointModel) (n k : Nat)
    (st : CurrentStateMonitor × Bool) (hk : k < n)
    (hjm : st.1.robot_model_.getJointModel (js.name.getD k "") = some jm)
    (hv : jm.variableCount = 1)
    (hlast : ∀ j, k < j → j < n →
      st.1.robot_model_.getJointModel (js.name.getD j "") ≠ some jm) :
    (jointStateLoop js 0 n st).1.joint_time_ jm = some js.stamp ∧
    (jointStateLoop js 0 n st).1.robot_state_.position jm =
      storedAfter st.1.error_ jm ((jointStateLoop js 0 k st).1.robot_state_.position jm)
        (js.position.getD k 0) := by
  refine ⟨jointStateLoop_time js jm n k st hk hjm hv, ?_⟩
  obtain ⟨f1, f2, -, -, -⟩ := jointStateLoop_frame js k 0 st
  have hjm1 : (jointStateLoop js 0 k st).1.robot_model_.getJointModel (js.name.getD k "")
      = some jm := by rw [f1]; exact hjm
  obtain ⟨-, a2⟩ := jointStateStep_at js k (jointStateLoop js 0 k st) jm hjm1 hv
  have hm2 := (jointStateStep_frame js k (jointStateLoop js 0 k st)).1
  obtain ⟨o1, -, -, -⟩ := jointStateLoop_other js jm (n - k - 1) (k + 1)
    (jointStateStep js k (jointStateLoop js 0 k st)) (by
      intro j hj1 hj2
      rw [hm2, f1]
      exact hlast j (by omega) (by omega))
  rw [jointStateLoop_through js n k st hk, o1, a2, f2]

theorem storedAfter_cases (e : ℚ) (jm : JointModel) (old p : ℚ) :
    storedAfter e jm old p = p ∨
    (jm.isContinuousRevolute = false ∧ roundDouble (jm.bounds0.min_position_ - e) ≤ p ∧
      p < jm.bounds0.min_position_ ∧ storedAfter e jm old p = jm.bounds0.min_position_) ∨
    (jm.isContinuousRevolute = false ∧ jm.bounds0.max_position_ < p ∧
      p ≤ roundDouble (jm.bounds0.max_position_ + e) ∧
      storedAfter e jm old p = jm.bounds0.max_position_) := by
  unfold storedAfter
  by_cases h1 : old = p
  · left; simp [h1]
  · by_cases h2 : jm.isContinuousRevolute = true
    · left; simp [h1, h2]
    · have h2f : jm.isContinuousRevolute = false := by simpa using h2
      by_cases h3 : belowWithinError e jm.bounds0 p = true
      · right; left
        have h3c := h3
        simp only [belowWithinError, Bool.and_eq_true, decide_eq_true_eq] at h3c
        exact ⟨h2f, h3c.2, h3c.1, by simp [h1, h2f, h3]⟩
      · by_cases h4 : aboveWithinError e jm.bounds0 p = true
        · right; right
          have h4c := h4
          simp only [aboveWithinError, Bool.and_eq_true, decide_eq_true_eq] at h4c
          exact ⟨h2f, h4c.1, h4c.2, by simp [h1, h2f, h3, h4]⟩
        · left; simp [h1, h2f, h3, h4]

theorem storedAfter_continuous (e : ℚ) (jm : JointModel) (old p : ℚ)
    (hc : jm.isContinuousRevolute = true) : storedAfter e jm old p = p := by
  unfold storedAfter
  by_cases h1 : old = p
  · simp [h1]
  · simp [h1, hc]

theorem storedAfter_beyond (e : ℚ) (jm : JointModel) (old p : ℚ)
    (h : ¬ inErrorMargin e jm.bounds0 p) :
    storedAfter e jm old p = p := by
  rcases storedAfter_cases e jm old p with h1 | ⟨_, h2, h2b, _⟩ | ⟨_, h3, h3b, _⟩
  · exact h1
  · exact absurd (Or.inl ⟨h2, h2b⟩) h
  · exact absurd (Or.inr ⟨h3, h3b⟩) h

theorem storedAfter_margin (e : ℚ) (jm : JointModel) (old p : ℚ)
    (hold : old ≠ p) (hc : jm.isContinuousRevolute = false)
    (hb : jm.bounds0.min_position_ ≤ jm.bounds0.max_position_) :
    (roundDouble (jm.bounds0.min_position_ - e) ≤ p ∧ p < jm.bounds0.min_position_ →
      storedAfter e jm old p = jm.bounds0.min_position_) ∧
    (jm.bounds0.max_position_ < p ∧ p ≤ roundDouble (jm.bounds0.max_position_ + e) →
      storedAfter e jm old p = jm.bounds0.max_position_) := by
  unfold storedAfter
  constructor
  · intro h
    have : belowWithinError e jm.bounds0 p = true := by
      simp [belowWithinError, h.1, h.2]
    simp [hold, hc, this]
  · intro h
    have h1 : belowWithinError e jm.bounds0 p = false := by
      have : ¬ p < jm.bounds0.min_position_ := by linarith [h.1]
      simp [belowWithinError, this]
    have h2 : aboveWithinError e jm.bounds0 p = true := by
      simp [aboveWithinError, h.1, h.2]
    simp [hold, hc, h1, h2]

theorem storedAfter_not_inErrorMargin (e : ℚ) (jm : JointModel) (old p : ℚ)
    (hc : jm.isContinuousRevolute = false)
    (hb : jm.bounds0.min_position_ ≤ jm.bounds0.max_position_)
    (hold : ¬ inErrorMargin e jm.bounds0 old) :
    ¬ inErrorMargin e jm.bounds0 (storedAfter e jm old p) := by
  by_cases h1 : old = p
  · have : storedAfter e jm old p = old := by simp [storedAfter, h1]
    rw [this]; exact hold
  · obtain ⟨m1, m2⟩ := storedAfter_margin e jm old p h1 hc hb
    intro hm
    by_cases hin : inErrorMargin e jm.bounds0 p
    · rcases hin with hlo | hhi
      · rw [m1 hlo] at hm
        rcases hm with hm | hm <;> linarith [hm.1, hm.2]
      · rw [m2 hhi] at hm
        rcases hm with hm | hm <;> linarith [hm.1, hm.2]
    · rcases storedAfter_cases e jm old p with c | ⟨_, c1, c2, _⟩ | ⟨_, c1, c2, _⟩
      · rw [c] at hm; exact hin hm
      · exact hin (Or.inl ⟨c1, c2⟩)
      · exact hin (Or.inr ⟨c1, c2⟩)

theorem jointStateStep_not_inErrorMargin (js : JointState) (i : Nat)
    (st : CurrentStateMonitor × Bool) (jm : JointModel)
    (hc : jm.isContinuousRevolute = false)
    (hb : jm.bounds0.min_position_ ≤ jm.bounds0.max_position_)
    (h : ¬ inErrorMargin st.1.error_ jm.bounds0 (st.1.robot_state_.position jm)) :
    ¬ inErrorMargin (jointStateStep js i st).1.error_ jm.bounds0
      ((jointStateStep js i st).1.robot_state_.position jm) := by
  rw [(jointStateStep_frame js i st).2.1]
  by_cases hk : st.1.robot_model_.getJointModel (js.name.getD i "") = some jm
  · by_cases hv : jm.variableCount = 1
    · rw [(jointStateStep_at js i st jm hk hv).2]
      exact storedAfter_not_inErrorMargin _ jm _ _ hc hb h
    · rw [jointStateStep_skip js i st jm hk hv]; exact h
  · rw [(jointStateStep_other js i st jm hk).1]; exact h

theorem jointStateLoop_not_inErrorMargin (js : JointState) (jm : JointModel)
    (hc : jm.isContinuousRevolute = false)
    (hb : jm.bounds0.min_position_ ≤ jm.bounds0.max_position_) :
    ∀ (todo i : Nat) (st : CurrentStateMonitor × Bool),
      ¬ inErrorMargin st.1.error_ jm.bounds0 (st.1.robot_state_.position jm) →
      ¬ inErrorMargin (jointStateLoop js i todo st).1.error_ jm.bounds0
        ((jointStateLoop js i todo st).1.robot_state_.position jm) := by
  intro todo
  induction todo with
  | zero => intro i st h; simpa [jointStateLoop] using h
  | succ n ih =>
    intro i st h
    simp only [jointStateLoop]
    exact ih (i + 1) _ (jointStateStep_not_inErrorMargin js i st jm hc hb h)

/-- The monitor part of a well-formed call is the loop run over the whole message. -/
theorem jointStateCallback_fst (mon : CurrentStateMonitor) (js : JointState)
    (hwf : js.name.length = js.position.length) :
    (jointStateCallback mon js).1 =
      (jointStateLoop js 0 js.name.length
        ({ mon with current_state_time_ := js.stamp }, false)).1 := by
  unfold jointStateCallback
  simp [hwf]

/-- C1: a joint update whose name count differs from its position count is rejected as a
whole: the monitor after `jointStateCallback` is the monitor before it (so the stored
robot state, the per-joint timestamp map and the snapshot time are unchanged) and the
call produces no event, in particular no call of a registered observer. -/
theorem jointStateCallback_rejects_count_mismatch (mon : CurrentStateMonitor)
    (joint_state : JointState)
    (h : joint_state.name.length ≠ joint_state.position.length) :
    (jointStateCallback mon joint_state).1 = mon ∧
    (jointStateCallback mon joint_state).1.robot_state_ = mon.robot_state_ ∧
    (jointStateCallback mon joint_state).1.joint_time_ = mon.joint_time_ ∧
    (jointStateCallback mon joint_state).1.current_state_time_ = mon.current_state_time_ ∧
    (jointStateCallback mon joint_state).2 = [] ∧
    ∀ cb msg, Event.update_callback cb msg ∉ (jointStateCallback mon joint_state).2 := by
  unfold jointStateCallback
  simp [h]

/-- Witness of C1: the message naming `A` and `B` with a single position. -/
theorem jointStateCallback_rejects_count_mismatch_witness :
    (positionsMsg 100 ["A", "B"] [1]).name.length ≠ (positionsMsg 100 ["A", "B"] [1]).position.length ∧
    (jointStateCallback (freshMonitor exampleArm (1 / 1000000))
      (positionsMsg 100 ["A", "B"] [1])).1 = freshMonitor exampleArm (1 / 1000000) ∧
    (jointStateCallback (freshMonitor exampleArm (1 / 1000000))
      (positionsMsg 100 ["A", "B"] [1])).2 = [] :=
  ⟨by decide,
   (jointStateCallback_rejects_count_mismatch (freshMonitor exampleArm (1 / 1000000))
      (positionsMsg 100 ["A", "B"] [1]) (by decide)).1,
   (jointStateCallback_rejects_count_mismatch (freshMonitor exampleArm (1 / 1000000))
      (positionsMsg 100 ["A", "B"] [1]) (by decide)).2.2.2.2.1⟩

/-- The `double` difference `min - error_` for the joint `A` (limits `[0, 1]`) and the
error `1/1000000`: the `double` nearest to `-1/1000000`. -/
theorem roundDouble_exampleA_lower :
    roundDouble (exampleJointA.bounds0.min_position_ - 1 / 1000000)
      = -(4722366482869645 / 4722366482869645213696) := by
  have e : exampleJointA.bounds0.min_position_ - 1 / 1000000 = -(1 / 1000000 : ℚ) := by
    norm_num [exampleJointA]
  rw [e, roundDouble_eq_of_neg _ (-20) (by norm_num) (by norm_num) (by norm_num)]
  norm_num [roundToMultiple]

/-- The `double` sum `max + error_` for the joint `A` (limits `[0, 1]`) and the error
`1/1000000`. -/
theorem roundDouble_exampleA_upper :
    roundDouble (exampleJointA.bounds0.max_position_ + 1 / 1000000)
      = 4503604130970123 / 4503599627370496 := by
  have e : exampleJointA.bounds0.max_position_ + 1 / 1000000 = (1000001 / 1000000 : ℚ) := by
    norm_num [exampleJointA]
  rw [e, roundDouble_eq_of_pos _ 0 (by norm_num) (by norm_num) (by norm_num)]
  norm_num [roundToMultiple]

/-- The position that a call on a fresh monitor of a one-joint message leaves for the
joint. -/
theorem jointStateCallback_single_entry (model : RobotModel) (e : ℚ) (stamp : Time)
    (name : String) (p : ℚ) (jm : JointModel)
    (hjm : model.getJointModel name = some jm) (hv : jm.variableCount = 1) :
    (jointStateCallback (freshMonitor model e)
      (positionsMsg stamp [name] [p])).1.robot_state_.position jm = storedAfter e jm 0 p := by
  rw [jointStateCallback_fst _ _ rfl]
  have h := (jointStateLoop_last (positionsMsg stamp [name] [p]) jm 1 0
    ({ freshMonitor model e with current_state_time_ := stamp }, false) (by decide)
    hjm hv (by intro j h1 h2; omega)).2
  exact h

/-- C3, counterexample: with limits `[0, 1]` and `ε = 1e-6` the input `-0.01` for the
bounded, non-continuous, single-variable joint `A` is stored as `-0.01`: it is not
clamped to the bound `0`, and the stored position is not within `[min - ε, max + ε]`. -/
theorem jointStateCallback_far_input_not_clamped :
    exampleJointA.variableCount = 1 ∧ exampleJointA.isContinuousRevolute = false ∧
    (jointStateCallback (freshMonitor exampleArm (1 / 1000000))
      (positionsMsg 100 ["A"] [-1 / 100])).1.robot_state_.position exampleJointA = -1 / 100 ∧
    (jointStateCallback (freshMonitor exampleArm (1 / 1000000))
      (positionsMsg 100 ["A"] [-1 / 100])).1.robot_state_.position exampleJointA
        ≠ exampleJointA.bounds0.min_position_ ∧
    ¬ (exampleJointA.bounds0.min_position_ - (freshMonitor exampleArm (1 / 1000000)).error_
        ≤ (jointStateCallback (freshMonitor exampleArm (1 / 1000000))
            (positionsMsg 100 ["A"] [-1 / 100])).1.robot_state_.position exampleJointA ∧
      (jointStateCallback (freshMonitor exampleArm (1 / 1000000))
            (positionsMsg 100 ["A"] [-1 / 100])).1.robot_state_.position exampleJointA
        ≤ exampleJointA.bounds0.max_position_ + (freshMonitor exampleArm (1 / 1000000)).error_) := by
  have gA : exampleArm.getJointModel "A" = some exampleJointA := rfl
  have hpos : (jointStateCallback (freshMonitor exampleArm (1 / 1000000))
      (positionsMsg 100 ["A"] [-1 / 100])).1.robot_state_.position exampleJointA = -1 / 100 := by
    rw [jointStateCallback_single_entry exampleArm (1 / 1000000) 100 "A" _ exampleJointA gA rfl]
    apply storedAfter_beyond
    unfold inErrorMargin
    rw [roundDouble_exampleA_lower, roundDouble_exampleA_upper]
    norm_num [exampleJointA]
  refine ⟨rfl, rfl, hpos, ?_, ?_⟩
  · rw [hpos]; norm_num [exampleJointA]
  · rw [hpos]; norm_num [exampleJointA, freshMonitor]

/-- C3, amended: if before `jointStateCallback` the stored position of a non-continuous
single-variable joint with `min ≤ max` is in neither of the windows that the code clamps
(not in `[fl(min - ε), min)` and not in `(max, fl(max + ε)]`, where `fl` is the rounding
of the `double` difference and sum), the same holds after the call, for every message; and
an input for that joint (its last entry in a well-formed update) that is outside both
windows is stored as given, not clamped. -/
theorem jointStateCallback_keeps_out_of_error_margin
    (mon : CurrentStateMonitor) (joint_state : JointState) (jm : JointModel)
    (hvar : jm.variableCount = 1)
    (hc : jm.isContinuousRevolute = false)
    (hb : jm.bounds0.min_position_ ≤ jm.bounds0.max_position_)
    (hpre : ¬ inErrorMargin mon.error_ jm.bounds0 (mon.robot_state_.position jm)) :
    ¬ inErrorMargin mon.error_ jm.bounds0
      ((jointStateCallback mon joint_state).1.robot_state_.position jm) ∧
    (∀ i, joint_state.name.length = joint_state.position.length →
      i < joint_state.name.length →
      mon.robot_model_.getJointModel (joint_state.name.getD i "") = some jm →
      (∀ k, i < k → k < joint_state.name.length →
        mon.robot_model_.getJointModel (joint_state.name.getD k "") ≠ some jm) →
      ¬ inErrorMargin mon.error_ jm.bounds0 (joint_state.position.getD i 0) →
      (jointStateCallback mon joint_state).1.robot_state_.position jm
        = joint_state.position.getD i 0) := by
  constructor
  · by_cases hwf : joint_state.name.length = joint_state.position.length
    · rw [jointStateCallback_fst mon joint_state hwf]
      have h := jointStateLoop_not_inErrorMargin joint_state jm hc hb joint_state.name.length 0
        ({ mon with current_state_time_ := joint_state.stamp }, false) hpre
      rw [(jointStateLoop_frame joint_state joint_state.name.length 0 _).2.1] at h
      exact h
    · have : (jointStateCallback mon joint_state).1 = mon := by
        unfold jointStateCallback; simp [hwf]
      rw [this]; exact hpre
  · intro i hwf hi hjm hlast hfar
    rw [jointStateCallback_fst mon joint_state hwf]
    obtain ⟨-, hp⟩ := jointStateLoop_last joint_state jm joint_state.name.length i
      ({ mon with current_state_time_ := joint_state.stamp }, false) hi hjm hvar hlast
    rw [hp]
    exact storedAfter_beyond _ _ _ _ hfar

/-- Witness of the amended C3: limits `[0, 1]`, `ε = 1e-6`, stored position `0`; after the
input `-0.0000005` the stored position is not in a clamp window, and the input `-0.01` is
stored as given. -/
theorem jointStateCallback_keeps_out_of_error_margin_witness :
    ¬ inErrorMargin (1 / 1000000) exampleJointA.bounds0
      ((jointStateCallback (freshMonitor exampleArm (1 / 1000000))
        (positionsMsg 100 ["A"] [-5 / 10000000])).1.robot_state_.position exampleJointA) ∧
    (jointStateCallback (freshMonitor exampleArm (1 / 1000000))
      (positionsMsg 101 ["A"] [-1 / 100])).1.robot_state_.position exampleJointA = -1 / 100 := by
  have hlo : roundDouble (exampleJointA.bounds0.min_position_ -
      (freshMonitor exampleArm (1 / 1000000)).error_)
      = -(4722366482869645 / 4722366482869645213696) := roundDouble_exampleA_lower
  have hup : roundDouble (exampleJointA.bounds0.max_position_ +
      (freshMonitor exampleArm (1 / 1000000)).error_)
      = 4503604130970123 / 4503599627370496 := roundDouble_exampleA_upper
  have hpre : ¬ inErrorMargin (freshMonitor exampleArm (1 / 1000000)).error_
      exampleJointA.bounds0
      ((freshMonitor exampleArm (1 / 1000000)).robot_state_.position exampleJointA) := by
    unfold inErrorMargin
    rw [hlo, hup]
    norm_num [freshMonitor, exampleJointA]
  have hb : exampleJointA.bounds0.min_position_ ≤ exampleJointA.bounds0.max_position_ := by
    norm_num [exampleJointA]
  refine ⟨(jointStateCallback_keeps_out_of_error_margin (freshMonitor exampleArm (1 / 1000000))
      (positionsMsg 100 ["A"] [-5 / 10000000]) exampleJointA rfl rfl hb hpre).1, ?_⟩
  have hout : ¬ inErrorMargin (freshMonitor exampleArm (1 / 1000000)).error_
      exampleJointA.bounds0 ((positionsMsg 101 ["A"] [-1 / 100]).position.getD 0 0) := by
    unfold inErrorMargin
    rw [hlo, hup]
    norm_num [positionsMsg, exampleJointA]
  have h := (jointStateCallback_keeps_out_of_error_margin (freshMonitor exampleArm (1 / 1000000))
      (positionsMsg 101 ["A"] [-1 / 100]) exampleJointA rfl rfl hb hpre).2 0 rfl (by decide)
      (by decide) (by intro k h1 h2; simp [positionsMsg] at h2; omega) hout
  rw [h]
  norm_num [positionsMsg]

/-- C4, the code at the failing input: a monitor that has ingested no update (snapshot
time `0`) is asked at clock reading `9` for a state at time `100` with a timeout of one
second; no update with a stamp of `100` or later has been ingested, yet
`waitForCurrentState` returns `true`, and so does the call made by
`MoveGroupInterfaceImpl::getCurrentState`. -/
theorem waitForCurrentState_succeeds_without_update :
    (freshMonitor exampleArm (1 / 1000000)).current_state_time_ < 100 ∧
    (∀ jm, (freshMonitor exampleArm (1 / 1000000)).joint_time_ jm = none) ∧
    waitForCurrentState (freshMonitor exampleArm (1 / 1000000)) 9 100 1 = true ∧
    getCurrentState_succeeds (freshMonitor exampleArm (1 / 1000000)) 9 1 = true := by
  refine ⟨by simp [freshMonitor], fun _ => rfl, rfl, rfl⟩

/-! ## Lemmas on the completeness checks -/

theorem haveCompleteState_foldl (jt : JointModel → Option Time) :
    ∀ (l : List JointModel) (r : Bool),
      l.foldl (fun result joint =>
          if jt joint = none then
            if !joint.passive && !joint.mimic then false else result
          else result) r
        = (r && l.all (fun j => !(!j.passive && !j.mimic && (jt j).isNone))) := by
  intro l
  induction l with
  | nil => intro r; simp
  | cons j l ih =>
    intro r
    simp only [List.foldl_cons, List.all_cons]
    rw [ih]
    cases hj : jt j <;> cases hp : j.passive <;> cases hm : j.mimic <;> cases r <;> simp

theorem haveCompleteStateMissing_foldl (jt : JointModel → Option Time) :
    ∀ (l : List JointModel) (r : Bool) (ms : List String),
      l.foldl (fun (acc : Bool × List String) joint =>
          if jt joint = none then
            if !joint.passive && !joint.mimic then (false, acc.2 ++ [joint.name]) else acc
          else acc) (r, ms)
        = (r && l.all (fun j => !(!j.passive && !j.mimic && (jt j).isNone)),
           ms ++ (l.filter (fun j => !j.passive && !j.mimic && (jt j).isNone)).map
             JointModel.name) := by
  intro l
  induction l with
  | nil => intro r ms; simp
  | cons j l ih =>
    intro r ms
    simp only [List.foldl_cons]
    by_cases h1 : jt j = none
    · by_cases h2 : (!j.passive && !j.mimic) = true
      · rw [if_pos h1, if_pos h2, ih]
        clear ih
        cases hp : j.passive <;> cases hm : j.mimic <;>
          simp_all [List.filter_cons]
      · rw [if_pos h1, if_neg h2, ih]
        clear ih
        cases hp : j.passive <;> cases hm : j.mimic <;>
          simp_all [List.filter_cons]
    · rw [if_neg h1, ih]
      clear ih
      cases hj : jt j with
      | none => exact absurd hj h1
      | some t => simp [List.filter_cons, hj]

theorem haveCompleteState_eq_true_iff (mon : CurrentStateMonitor) :
    haveCompleteState mon = true ↔
      ∀ j ∈ mon.robot_model_.active_joint_models, j.passive = false → j.mimic = false →
        ∃ t, mon.joint_time_ j = some t := by
  unfold haveCompleteState
  rw [haveCompleteState_foldl]
  simp only [Bool.true_and, List.all_eq_true]
  constructor
  · intro h j hj hp hm
    have := h j hj
    cases hjt : mon.joint_time_ j with
    | none => simp [hp, hm, hjt] at this
    | some t => exact ⟨t, rfl⟩
  · intro h j hj
    cases hp : j.passive <;> cases hm : j.mimic <;> simp
    obtain ⟨t, ht⟩ := h j hj hp hm
    simp [ht]

/-- C5: `haveCompleteState()` returns true exactly when every active joint of the model
that is neither passive nor a mimic joint has an entry in the per-joint timestamp map; the
overload taking a list returns the same boolean and leaves in the list its former content
followed by the names of the active, non-passive, non-mimic joints without an entry, in
the order of the model's active joints. -/
theorem haveCompleteState_iff_required_joints_timestamped (mon : CurrentStateMonitor)
    (missing_states : List String) :
    (haveCompleteState mon = true ↔
      ∀ j ∈ mon.robot_model_.active_joint_models, j.passive = false → j.mimic = false →
        ∃ t, mon.joint_time_ j = some t) ∧
    (haveCompleteStateMissing mon missing_states).1 = haveCompleteState mon ∧
    (haveCompleteStateMissing mon missing_states).2 =
      missing_states ++
        (mon.robot_model_.active_joint_models.filter
          (fun j => !j.passive && !j.mimic && (mon.joint_time_ j).isNone)).map
          JointModel.name := by
  refine ⟨haveCompleteState_eq_true_iff mon, ?_, ?_⟩
  · unfold haveCompleteStateMissing haveCompleteState
    rw [haveCompleteStateMissing_foldl, haveCompleteState_foldl]
  · unfold haveCompleteStateMissing
    rw [haveCompleteStateMissing_foldl]

/-- C6, counterexample: the model `exampleMobile` has the active joints `base` (planar,
three variables) and `A`, neither passive nor mimic; the well-formed update naming both
with a position each is ingested, and `haveCompleteState()` is still false: the
multi-variable joint `base` gets no timestamp from `jointStateCallback`. -/
theorem haveCompleteState_false_after_update_naming_planar_joint :
    (positionsMsg 100 ["base", "A"] [0, 1 / 2]).name.length
      = (positionsMsg 100 ["base", "A"] [0, 1 / 2]).position.length ∧
    (∀ j ∈ exampleMobile.active_joint_models, j.passive = false → j.mimic = false →
      j.name ∈ (positionsMsg 100 ["base", "A"] [0, 1 / 2]).name) ∧
    haveCompleteState (jointStateCallback (freshMonitor exampleMobile (1 / 1000000))
      (positionsMsg 100 ["base", "A"] [0, 1 / 2])).1 = false := by
  refine ⟨rfl, ?_, ?_⟩
  · intro j hj _ _
    simp only [exampleMobile, List.mem_cons, List.mem_singleton, List.not_mem_nil, or_false] at hj
    rcases hj with rfl | rfl <;> simp [positionsMsg, exampleJointBase, exampleJointA]
  · simp [haveCompleteState, jointStateCallback, jointStateLoop, jointStateStep, freshMonitor,
      positionsMsg, exampleMobile, RobotModel.getJointModel, exampleJointA, exampleJointBase,
      RobotState.getJointPositions, RobotState.setJointPositions,
      JointModel.isContinuousRevolute, belowWithinError, aboveWithinError, Function.update]

/-- C6, amended: for a robot model whose active, non-passive, non-mimic joints all have
exactly one variable (and are found under their own name), ingesting a well-formed update
that names every such joint makes `haveCompleteState()` return true. -/
theorem haveCompleteState_after_update_of_single_variable_joints
    (mon : CurrentStateMonitor) (joint_state : JointState)
    (hwf : joint_state.name.length = joint_state.position.length)
    (hfind : ∀ j ∈ mon.robot_model_.active_joint_models, j.passive = false → j.mimic = false →
      mon.robot_model_.getJointModel j.name = some j)
    (hone : ∀ j ∈ mon.robot_model_.active_joint_models, j.passive = false → j.mimic = false →
      j.variableCount = 1)
    (hall : ∀ j ∈ mon.robot_model_.active_joint_models, j.passive = false → j.mimic = false →
      j.name ∈ joint_state.name) :
    haveCompleteState (jointStateCallback mon joint_state).1 = true := by
  rw [haveCompleteState_eq_true_iff, jointStateCallback_fst mon joint_state hwf]
  rw [(jointStateLoop_frame joint_state joint_state.name.length 0 _).1]
  intro j hj hp hm
  obtain ⟨k, hk, hkn⟩ := List.getElem_of_mem (hall j hj hp hm)
  refine ⟨joint_state.stamp, ?_⟩
  apply jointStateLoop_time joint_state j joint_state.name.length k _ hk _ (hone j hj hp hm)
  have e : joint_state.name.getD k "" = j.name := by
    rw [List.getD_eq_getElem _ _ hk]; exact hkn
  rw [e]
  exact hfind j hj hp hm

/-- Witness of the amended C6: the arm of the single-variable joints `A`, `B`, `W`, and
the update naming the three of them. -/
theorem haveCompleteState_after_update_of_single_variable_joints_witness :
    haveCompleteState (freshMonitor exampleArm (1 / 1000000)) = false ∧
    haveCompleteState (jointStateCallback (freshMonitor exampleArm (1 / 1000000))
      (positionsMsg 100 ["W", "A", "B"] [2, 1 / 2, 1])).1 = true := by
  refine ⟨by decide, ?_⟩
  apply haveCompleteState_after_update_of_single_variable_joints
    (freshMonitor exampleArm (1 / 1000000)) (positionsMsg 100 ["W", "A", "B"] [2, 1 / 2, 1]) rfl
  · intro j hj _ _
    simp only [freshMonitor, exampleArm, List.mem_cons, List.mem_singleton, List.not_mem_nil,
      or_false] at hj
    rcases hj with rfl | rfl | rfl <;> rfl
  · intro j hj _ _
    simp only [freshMonitor, exampleArm, List.mem_cons, List.mem_singleton, List.not_mem_nil,
      or_false] at hj
    rcases hj with rfl | rfl | rfl <;> rfl
  · intro j hj _ _
    simp only [freshMonitor, exampleArm, List.mem_cons, List.mem_singleton, List.not_mem_nil,
      or_false] at hj
    rcases hj with rfl | rfl | rfl <;> simp [positionsMsg, exampleJointW, exampleJointA, exampleJointB]

theorem haveCompleteStateAge_foldl (jt : JointModel → Option Time) (old : Time) :
    ∀ (l : List JointModel) (r : Bool),
      l.foldl (fun result joint =>
          if joint.passive || joint.mimic then result
          else
            match jt joint with
            | none => false
            | some t => if t < old then false else result) r
        = (r && l.all (fun j => !(!j.passive && !j.mimic &&
            ((jt j).isNone || (jt j).any (fun t => decide (t < old)))))) := by
  intro l
  induction l with
  | nil => intro r; simp
  | cons j l ih =>
    intro r
    simp only [List.foldl_cons, List.all_cons]
    rw [ih]
    clear ih
    cases hj : jt j with
    | none => cases hp : j.passive <;> cases hm : j.mimic <;> cases r <;> simp
    | some t =>
      by_cases ht : t < old <;>
        cases hp : j.passive <;> cases hm : j.mimic <;> cases r <;> simp [ht]

theorem haveCompleteStateAgeMissing_foldl (jt : JointModel → Option Time) (old : Time) :
    ∀ (l : List JointModel) (r : Bool) (ms : List String),
      l.foldl (fun (acc : Bool × List String) joint =>
          if joint.passive || joint.mimic then acc
          else
            match jt joint with
            | none => (false, acc.2 ++ [joint.name])
            | some t => if t < old then (false, acc.2 ++ [joint.name]) else acc) (r, ms)
        = (r && l.all (fun j => !(!j.passive && !j.mimic &&
              ((jt j).isNone || (jt j).any (fun t => decide (t < old))))),
           ms ++ (l.filter (fun j => !j.passive && !j.mimic &&
              ((jt j).isNone || (jt j).any (fun t => decide (t < old))))).map
             JointModel.name) := by
  intro l
  induction l with
  | nil => intro r ms; simp
  | cons j l ih =>
    intro r ms
    simp only [List.foldl_cons]
    by_cases h1 : (j.passive || j.mimic) = true
    · rw [if_pos h1, ih]
      clear ih
      cases hp : j.passive <;> cases hm : j.mimic <;> simp_all [List.filter_cons]
    · rw [if_neg h1]
      cases hj : jt j with
      | none =>
        simp only []
        rw [ih]
        clear ih
        cases hp : j.passive <;> cases hm : j.mimic <;> simp_all [List.filter_cons]
      | some t =>
        simp only []
        by_cases ht : t < old
        · rw [if_pos ht, ih]
          clear ih
          cases hp : j.passive <;> cases hm : j.mimic <;> simp_all [List.filter_cons]
        · rw [if_neg ht, ih]
          clear ih
          have hd : decide (t < old) = false := decide_eq_false ht
          have hpm : j.passive = false ∧ j.mimic = false := by simpa using h1
          simp [List.filter_cons, hj, hpm.1, hpm.2, hd]

theorem haveCompleteStateAge_eq_true_iff (mon : CurrentStateMonitor) (now age : Time) :
    haveCompleteStateAge mon now age = true ↔
      ∀ j ∈ mon.robot_model_.active_joint_models, j.passive = false → j.mimic = false →
        ∃ t, mon.joint_time_ j = some t ∧ t ≥ now - age := by
  unfold haveCompleteStateAge
  simp only []
  rw [haveCompleteStateAge_foldl]
  simp only [Bool.true_and, List.all_eq_true]
  constructor
  · intro h j hj hp hm
    have := h j hj
    cases hjt : mon.joint_time_ j with
    | none => simp [hp, hm, hjt] at this
    | some t =>
      refine ⟨t, rfl, ?_⟩
      simpa [hp, hm, hjt] using this
  · intro h j hj
    cases hp : j.passive <;> cases hm : j.mimic <;> simp
    obtain ⟨t, ht, hge⟩ := h j hj hp hm
    simp only [ht, Option.isNone_some, Option.any_some, Bool.false_or, Bool.not_eq_true,
      decide_eq_false_iff_not, not_lt]
    exact ⟨rfl, hge⟩

/-- C7: `haveCompleteState(maxAge)` returns true exactly when every active, non-passive,
non-mimic joint has a timestamp `t` with `t ≥ now - maxAge`; it returns false when one such
joint has a timestamp older than `now - maxAge`, and there are monitors for which
`haveCompleteState()` is true while `haveCompleteState(maxAge)` is false; the overload with
a list returns the same boolean and leaves in the list its former content followed by the
names of the active, non-passive, non-mimic joints that were never updated or are stale,
in the order of the model's active joints. -/
theorem haveCompleteStateAge_iff_required_joints_fresh (mon : CurrentStateMonitor)
    (now age : Time) (missing_states : List String) :
    (haveCompleteStateAge mon now age = true ↔
      ∀ j ∈ mon.robot_model_.active_joint_models, j.passive = false → j.mimic = false →
        ∃ t, mon.joint_time_ j = some t ∧ t ≥ now - age) ∧
    (∀ j ∈ mon.robot_model_.active_joint_models, j.passive = false → j.mimic = false →
      ∀ t, mon.joint_time_ j = some t → t < now - age →
        haveCompleteStateAge mon now age = false) ∧
    (∃ (m : CurrentStateMonitor) (n a : Time),
      haveCompleteState m = true ∧ haveCompleteStateAge m n a = false) ∧
    (haveCompleteStateAgeMissing mon now age missing_states).1
      = haveCompleteStateAge mon now age ∧
    (haveCompleteStateAgeMissing mon now age missing_states).2 =
      missing_states ++
        (mon.robot_model_.active_joint_models.filter
          (fun j => !j.passive && !j.mimic &&
            ((mon.joint_time_ j).isNone ||
              (mon.joint_time_ j).any (fun t => decide (t < now - age))))).map
          JointModel.name := by
  refine ⟨haveCompleteStateAge_eq_true_iff mon now age, ?_, ⟨agedMonitor, 1000, 10, ?_, ?_⟩,
    ?_, ?_⟩
  · intro j hj hp hm t ht hlt
    cases hres : haveCompleteStateAge mon now age with
    | false => rfl
    | true =>
      obtain ⟨t2, ht2, hge⟩ := (haveCompleteStateAge_eq_true_iff mon now age).mp hres j hj hp hm
      rw [ht] at ht2
      cases ht2
      exact absurd hge (not_le.mpr hlt)
  · decide
  · decide
  · unfold haveCompleteStateAgeMissing haveCompleteStateAge
    simp only []
    rw [haveCompleteStateAgeMissing_foldl, haveCompleteStateAge_foldl]
  · unfold haveCompleteStateAgeMissing
    simp only []
    rw [haveCompleteStateAgeMissing_foldl]

/-- Witness of C7: every joint of the arm was updated at time `100`; at clock reading
`1000` with a maximal age of `10` the state is complete but not fresh, and the three
joints are reported; with a maximal age of `900` it is fresh. -/
theorem haveCompleteStateAge_iff_required_joints_fresh_witness :
    haveCompleteState agedMonitor = true ∧
    haveCompleteStateAge agedMonitor 1000 10 = false ∧
    haveCompleteStateAge agedMonitor 1000 900 = true ∧
    (haveCompleteStateAgeMissing agedMonitor 1000 10 ["x"]).2 = ["x", "A", "B", "W"] := by
  refine ⟨by decide, ?_, by decide, by decide⟩
  exact (haveCompleteStateAge_iff_required_joints_fresh agedMonitor 1000 10 []).2.1
    exampleJointA (by decide) rfl rfl 100 rfl (by decide)

/-- The events of a well-formed call: the callbacks, if the loop set `update`, then
`notify_all`. -/
theorem jointStateCallback_snd (mon : CurrentStateMonitor) (js : JointState)
    (hwf : js.name.length = js.position.length) :
    (jointStateCallback mon js).2 =
      (if (jointStateLoop js 0 js.name.length
          ({ mon with current_state_time_ := js.stamp }, false)).2
        then mon.update_callbacks_.map (fun cb => Event.update_callback cb js)
        else []) ++ [Event.notify_all] := by
  unfold jointStateCallback
  simp [hwf]

theorem jointStateStep_same (js : JointState) (i : Nat) (st : CurrentStateMonitor × Bool)
    (h : ∀ jm, st.1.robot_model_.getJointModel (js.name.getD i "") = some jm →
      jm.variableCount = 1 → js.position.getD i 0 = st.1.robot_state_.position jm) :
    (jointStateStep js i st).1.robot_state_ = st.1.robot_state_ ∧
    (jointStateStep js i st).2 = st.2 := by
  unfold jointStateStep
  split
  · simp
  · rename_i jm hjm
    by_cases hv : jm.variableCount = 1
    · have hp := h jm hjm hv
      simp only [hv, ne_eq, not_true_eq_false, if_false, RobotState.getJointPositions]
      rw [if_neg (not_not.mpr hp.symm)]
      exact ⟨rfl, rfl⟩
    · simp [hv]

theorem jointStateLoop_same (js : JointState) :
    ∀ (todo i : Nat) (st : CurrentStateMonitor × Bool),
      (∀ k, i ≤ k → k < i + todo → ∀ jm,
        st.1.robot_model_.getJointModel (js.name.getD k "") = some jm →
        jm.variableCount = 1 → js.position.getD k 0 = st.1.robot_state_.position jm) →
      (jointStateLoop js i todo st).1.robot_state_ = st.1.robot_state_ ∧
      (jointStateLoop js i todo st).2 = st.2 := by
  intro todo
  induction todo with
  | zero => intro i st _; simp [jointStateLoop]
  | succ n ih =>
    intro i st h
    simp only [jointStateLoop]
    obtain ⟨s1, s2⟩ := jointStateStep_same js i st (h i (le_refl i) (by omega))
    have hm := (jointStateStep_frame js i st).1
    obtain ⟨l1, l2⟩ := ih (i + 1) (jointStateStep js i st) (by
      intro k hk1 hk2 jm hjm hv
      rw [s1]
      rw [hm] at hjm
      exact h k (by omega) (by omega) jm hjm hv)
    exact ⟨l1.trans s1, l2.trans s2⟩

/-- C8: for a well-formed update in which the input position of every named, known,
single-variable joint equals its stored position, `jointStateCallback` reports no update:
the local flag `update` stays false, the only event is `notify_all` (no observer is
invoked), the stored robot state (positions, velocities and efforts) is unchanged, the
snapshot time is the stamp of the update, and so is the timestamp of every such joint. -/
theorem jointStateCallback_same_positions_no_update
    (mon : CurrentStateMonitor) (joint_state : JointState)
    (hwf : joint_state.name.length = joint_state.position.length)
    (hsame : ∀ i, i < joint_state.name.length → ∀ jm,
      mon.robot_model_.getJointModel (joint_state.name.getD i "") = some jm →
      jm.variableCount = 1 → joint_state.position.getD i 0 = mon.robot_state_.position jm) :
    (jointStateLoop joint_state 0 joint_state.name.length
      ({ mon with current_state_time_ := joint_state.stamp }, false)).2 = false ∧
    (jointStateCallback mon joint_state).2 = [Event.notify_all] ∧
    (∀ cb msg, Event.update_callback cb msg ∉ (jointStateCallback mon joint_state).2) ∧
    (jointStateCallback mon joint_state).1.robot_state_ = mon.robot_state_ ∧
    (getCurrentStateAndTime (jointStateCallback mon joint_state).1).2 = joint_state.stamp ∧
    (∀ i, i < joint_state.name.length → ∀ jm,
      mon.robot_model_.getJointModel (joint_state.name.getD i "") = some jm →
      jm.variableCount = 1 →
      (jointStateCallback mon joint_state).1.joint_time_ jm = some joint_state.stamp) := by
  obtain ⟨l1, l2⟩ := jointStateLoop_same joint_state joint_state.name.length 0
    ({ mon with current_state_time_ := joint_state.stamp }, false) (by
      intro k _ hk jm hjm hv
      exact hsame k (by omega) jm hjm hv)
  have hev : (jointStateCallback mon joint_state).2 = [Event.notify_all] := by
    rw [jointStateCallback_snd mon joint_state hwf, l2]
    simp
  refine ⟨l2, hev, ?_, ?_, ?_, ?_⟩
  · intro cb msg
    rw [hev]
    simp
  · rw [jointStateCallback_fst mon joint_state hwf, l1]
  · unfold getCurrentStateAndTime
    rw [jointStateCallback_fst mon joint_state hwf]
    exact (jointStateLoop_frame joint_state joint_state.name.length 0 _).2.2.2.2
  · intro i hi jm hjm hv
    rw [jointStateCallback_fst mon joint_state hwf]
    exact jointStateLoop_time joint_state jm joint_state.name.length i _ hi hjm hv

/-- Witness of C8: `A = 1.0`, `B = 2.0` are fed at time `100` to a fresh monitor: both
observers are called, the snapshot holds `A = 1`, `B = 2` and the time `100`. Feeding
`A = 1.0` at time `101` then produces the single event `notify_all`, leaves the stored
state as it is, and sets the timestamp of `A` to `101` while that of `B` stays `100`. -/
theorem jointStateCallback_same_positions_no_update_witness :
    (jointStateCallback (freshMonitor exampleArm (1 / 1000000))
      (positionsMsg 100 ["A", "B"] [1, 2])).2 =
      [Event.update_callback 0 (positionsMsg 100 ["A", "B"] [1, 2]),
        Event.update_callback 1 (positionsMsg 100 ["A", "B"] [1, 2]), Event.notify_all] ∧
    (getCurrentStateAndTime (jointStateCallback (freshMonitor exampleArm (1 / 1000000))
      (positionsMsg 100 ["A", "B"] [1, 2])).1).1.position exampleJointA = 1 ∧
    (getCurrentStateAndTime (jointStateCallback (freshMonitor exampleArm (1 / 1000000))
      (positionsMsg 100 ["A", "B"] [1, 2])).1).1.position exampleJointB = 2 ∧
    (getCurrentStateAndTime (jointStateCallback (freshMonitor exampleArm (1 / 1000000))
      (positionsMsg 100 ["A", "B"] [1, 2])).1).2 = 100 ∧
    (jointStateCallback (jointStateCallback (freshMonitor exampleArm (1 / 1000000))
      (positionsMsg 100 ["A", "B"] [1, 2])).1 (positionsMsg 101 ["A"] [1])).2
      = [Event.notify_all] ∧
    (jointStateCallback (jointStateCallback (freshMonitor exampleArm (1 / 1000000))
      (positionsMsg 100 ["A", "B"] [1, 2])).1 (positionsMsg 101 ["A"] [1])).1.robot_state_
      = (jointStateCallback (freshMonitor exampleArm (1 / 1000000))
          (positionsMsg 100 ["A", "B"] [1, 2])).1.robot_state_ ∧
    (jointStateCallback (jointStateCallback (freshMonitor exampleArm (1 / 1000000))
      (positionsMsg 100 ["A", "B"] [1, 2])).1 (positionsMsg 101 ["A"] [1])).1.joint_time_
      exampleJointA = some 101 ∧
    (jointStateCallback (jointStateCallback (freshMonitor exampleArm (1 / 1000000))
      (positionsMsg 100 ["A", "B"] [1, 2])).1 (positionsMsg 101 ["A"] [1])).1.joint_time_
      exampleJointB = some 100 := by
  have gA : exampleArm.getJointModel "A" = some exampleJointA := rfl
  have gB : exampleArm.getJointModel "B" = some exampleJointB := rfl
  have hmodel : (jointStateCallback (freshMonitor exampleArm (1 / 1000000))
      (positionsMsg 100 ["A", "B"] [1, 2])).1.robot_model_ = exampleArm := by
    rw [jointStateCallback_fst _ _ rfl]
    exact (jointStateLoop_frame _ _ 0 _).1
  have hA : (jointStateCallback (freshMonitor exampleArm (1 / 1000000))
      (positionsMsg 100 ["A", "B"] [1, 2])).1.robot_state_.position exampleJointA = 1 := by
    norm_num [jointStateCallback, jointStateLoop, jointStateStep, freshMonitor, positionsMsg,
      gA, gB, exampleJointA, exampleJointB,
      RobotState.getJointPositions, RobotState.setJointPositions,
      JointModel.isContinuousRevolute, belowWithinError, aboveWithinError, Function.update]
  have hB : (jointStateCallback (freshMonitor exampleArm (1 / 1000000))
      (positionsMsg 100 ["A", "B"] [1, 2])).1.robot_state_.position exampleJointB = 2 := by
    norm_num [jointStateCallback, jointStateLoop, jointStateStep, freshMonitor, positionsMsg,
      gA, gB, exampleJointA, exampleJointB,
      RobotState.getJointPositions, RobotState.setJointPositions,
      JointModel.isContinuousRevolute, belowWithinError, aboveWithinError, Function.update]
  have hT : (jointStateCallback (freshMonitor exampleArm (1 / 1000000))
      (positionsMsg 100 ["A", "B"] [1, 2])).1.joint_time_ exampleJointB = some 100 := by
    norm_num [jointStateCallback, jointStateLoop, jointStateStep, freshMonitor, positionsMsg,
      gA, gB, exampleJointA, exampleJointB,
      RobotState.getJointPositions, RobotState.setJointPositions,
      JointModel.isContinuousRevolute, belowWithinError, aboveWithinError, Function.update]
  have h := jointStateCallback_same_positions_no_update
    (jointStateCallback (freshMonitor exampleArm (1 / 1000000))
      (positionsMsg 100 ["A", "B"] [1, 2])).1 (positionsMsg 101 ["A"] [1]) rfl (by
      intro i hi jm hjm _
      have hi0 : i = 0 := by simp [positionsMsg] at hi; omega
      subst hi0
      rw [hmodel] at hjm
      have hjmA : jm = exampleJointA := by
        have : exampleArm.getJointModel ((positionsMsg 101 ["A"] [1]).name.getD 0 "")
            = some exampleJointA := rfl
        rw [this] at hjm
        exact (Option.some.inj hjm).symm
      rw [hjmA, hA]
      simp [positionsMsg])
  refine ⟨?_, hA, hB, ?_, h.2.1, h.2.2.2.1, ?_, ?_⟩
  · norm_num [jointStateCallback, jointStateLoop, jointStateStep, freshMonitor, positionsMsg,
      gA, gB, exampleJointA, exampleJointB,
      RobotState.getJointPositions, RobotState.setJointPositions,
      JointModel.isContinuousRevolute, belowWithinError, aboveWithinError, Function.update]
  · unfold getCurrentStateAndTime
    rw [jointStateCallback_fst _ _ rfl]
    exact (jointStateLoop_frame _ _ 0 _).2.2.2.2
  · exact h.2.2.2.2.2 0 (by decide) exampleJointA (by rw [hmodel]; rfl) rfl
  · rw [jointStateCallback_fst _ _ rfl]
    have := (jointStateLoop_other (positionsMsg 101 ["A"] [1]) exampleJointB 1 0
      ({ (jointStateCallback (freshMonitor exampleArm (1 / 1000000))
          (positionsMsg 100 ["A", "B"] [1, 2])).1 with
          current_state_time_ := (positionsMsg 101 ["A"] [1]).stamp }, false) (by
        intro k hk1 hk2
        have hk0 : k = 0 := by omega
        subst hk0
        simp only []
        rw [hmodel]
        decide)).2.2.2
    exact this.trans hT

/-- C9: a continuous revolute joint is never clamped: for a well-formed update and a
continuous revolute joint of one variable that the model knows, whose entry at index `i`
is its last entry in the update, the position stored by `jointStateCallback` is the input
position, whatever the variable bounds and the bound error are. -/
theorem jointStateCallback_continuous_never_clamped
    (mon : CurrentStateMonitor) (joint_state : JointState) (i : Nat) (jm : JointModel)
    (hwf : joint_state.name.length = joint_state.position.length)
    (hi : i < joint_state.name.length)
    (hjm : mon.robot_model_.getJointModel (joint_state.name.getD i "") = some jm)
    (hvar : jm.variableCount = 1)
    (hrev : jm.type = JointType.REVOLUTE)
    (hcont : jm.continuous = true)
    (hlast : ∀ k, i < k → k < joint_state.name.length →
      mon.robot_model_.getJointModel (joint_state.name.getD k "") ≠ some jm) :
    (jointStateCallback mon joint_state).1.robot_state_.position jm
      = joint_state.position.getD i 0 := by
  rw [jointStateCallback_fst mon joint_state hwf]
  obtain ⟨-, hp⟩ := jointStateLoop_last joint_state jm joint_state.name.length i
    ({ mon with current_state_time_ := joint_state.stamp }, false) hi hjm hvar hlast
  rw [hp]
  exact storedAfter_continuous _ _ _ _ (by simp [JointModel.isContinuousRevolute, hrev, hcont])

/-- Witness of C9: the continuous joint `W` with variable bounds `[-3, 3]` and
`ε = 1e-6`; the input `3.0000005`, within `ε` above the upper bound, is stored as given. -/
theorem jointStateCallback_continuous_never_clamped_witness :
    exampleJointW.bounds0.max_position_ < 30000005 / 10000000 ∧
    (30000005 / 10000000 : ℚ) ≤ exampleJointW.bounds0.max_position_ + 1 / 1000000 ∧
    (jointStateCallback (freshMonitor exampleArm (1 / 1000000))
      (positionsMsg 100 ["A", "W"] [1 / 2, 30000005 / 10000000])).1.robot_state_.position
        exampleJointW = 30000005 / 10000000 := by
  refine ⟨by norm_num [exampleJointW], by norm_num [exampleJointW], ?_⟩
  have h := jointStateCallback_continuous_never_clamped
    (freshMonitor exampleArm (1 / 1000000))
    (positionsMsg 100 ["A", "W"] [1 / 2, 30000005 / 10000000]) 1 exampleJointW rfl
    (by decide) (by decide) rfl rfl rfl
    (by intro k h1 h2; simp [positionsMsg] at h2; omega)
  simpa [positionsMsg] using h

/-- The local `upd` of `newPlanningSceneMessage` equals the reference classification: the
full scene when the message is not a diff, or is a diff with a non-empty name different
from the previous scene name, or with collision-matrix entry names, link padding or link
scale; otherwise the union of GEOMETRY (world not empty), TRANSFORMS (fixed-frame
transforms not empty), STATE (robot state not empty) and GEOMETRY (robot state not empty,
with attached collision objects or not itself a diff). -/
theorem newPlanningSceneMessage_upd_classification
    (isEmptyWorld : PlanningSceneWorldMsg → Bool) (isEmptyRobotState : RobotStateMsg → Bool)
    (old_scene_name : String) (scene : PlanningSceneMsg) :
    newPlanningSceneMessage_upd isEmptyWorld isEmptyRobotState old_scene_name scene
      = referenceClassification isEmptyWorld isEmptyRobotState old_scene_name scene := by
  unfold newPlanningSceneMessage_upd referenceClassification
  cases hd : scene.is_diff
  · simp
  · by_cases hn : scene.name = ""
    · cases ha : scene.allowed_collision_matrix_entry_names <;>
      cases hp : scene.link_padding <;> cases hs : scene.link_scale <;>
      cases hw : isEmptyWorld scene.world <;> cases ht : scene.fixed_frame_transforms <;>
      cases hr : isEmptyRobotState scene.robot_state <;>
      cases hat : scene.robot_state.attached_collision_objects <;>
      cases hrd : scene.robot_state.is_diff <;>
      simp [hn, String.isEmpty_iff, UPDATE_NONE, UPDATE_STATE, UPDATE_TRANSFORMS, UPDATE_GEOMETRY, UPDATE_SCENE]
    · by_cases ho : scene.name = old_scene_name
      · cases ha : scene.allowed_collision_matrix_entry_names <;>
        cases hp : scene.link_padding <;> cases hs : scene.link_scale <;>
        cases hw : isEmptyWorld scene.world <;> cases ht : scene.fixed_frame_transforms <;>
        cases hr : isEmptyRobotState scene.robot_state <;>
        cases hat : scene.robot_state.attached_collision_objects <;>
        cases hrd : scene.robot_state.is_diff <;>
        simp [hn, ho, String.isEmpty_iff, UPDATE_NONE, UPDATE_STATE, UPDATE_TRANSFORMS, UPDATE_GEOMETRY,
          UPDATE_SCENE]
      · simp [hn, ho, String.isEmpty_iff, UPDATE_SCENE]

/-- The local `upd` of `newPlanningSceneMessage` for a diff that carries only a robot
state which is itself a diff: STATE, and GEOMETRY as well when collision objects are
attached. -/
theorem newPlanningSceneMessage_upd_state_only
    (isEmptyWorld : PlanningSceneWorldMsg → Bool) (isEmptyRobotState : RobotStateMsg → Bool)
    (old_scene_name : String) (scene : PlanningSceneMsg)
    (hd : scene.is_diff = true) (hn : scene.name = "")
    (ha : scene.allowed_collision_matrix_entry_names = []) (hp : scene.link_padding = [])
    (hs : scene.link_scale = []) (hw : isEmptyWorld scene.world = true)
    (ht : scene.fixed_frame_transforms = []) (hr : isEmptyRobotState scene.robot_state = false)
    (hrd : scene.robot_state.is_diff = true) :
    newPlanningSceneMessage_upd isEmptyWorld isEmptyRobotState old_scene_name scene
      = if scene.robot_state.attached_collision_objects = [] then UPDATE_STATE
        else UPDATE_STATE ||| UPDATE_GEOMETRY := by
  unfold newPlanningSceneMessage_upd
  cases hl : scene.robot_state.attached_collision_objects with
  | nil =>
    simp [String.isEmpty_iff, hd, hn, ha, hp, hs, hw, ht, hr, hrd, hl, UPDATE_NONE, UPDATE_STATE]
  | cons a l =>
    simp [String.isEmpty_iff, hd, hn, ha, hp, hs, hw, ht, hr, hrd, hl, UPDATE_NONE, UPDATE_STATE,
      UPDATE_GEOMETRY]

/-- What `newPlanningSceneMessage` does when a scene exists, with the local `upd` left as
the source computes it. -/
theorem newPlanningSceneMessage_events
    (isEmptyWorld : PlanningSceneWorldMsg → Bool) (isEmptyRobotState : RobotStateMsg → Bool)
    (absorb : PlanningSceneMsg → PlanningScene → PlanningScene)
    (accepted : PlanningSceneMsg → Bool)
    (m : PlanningSceneMonitor) (scene : PlanningSceneMsg) (now : Time)
    (a : Nat) (s0 : PlanningScene) (ha : m.scene_ = some a) (hs0 : m.scenes[a]? = some s0) :
    (newPlanningSceneMessage isEmptyWorld isEmptyRobotState absorb accepted m scene now).2.1
      = (if m.octomap_monitor_ && !scene.is_diff && scene.world.octomap_data.isEmpty then
          [SceneEvent.octomap_clear] else []) ++
        (if m.octomap_monitor_ then
          [SceneEvent.excludeAttachedBodiesFromOctree, SceneEvent.excludeWorldObjectsFromOctree]
          else []) ++
        (m.update_callbacks_.map (fun cb => SceneEvent.update_callback cb
          (newPlanningSceneMessage_upd isEmptyWorld isEmptyRobotState s0.name_ scene)) ++
          [SceneEvent.notify_all]) ∧
    (newPlanningSceneMessage isEmptyWorld isEmptyRobotState absorb accepted m scene
      now).1.new_scene_update_
      = m.new_scene_update_ |||
        newPlanningSceneMessage_upd isEmptyWorld isEmptyRobotState s0.name_ scene ∧
    (newPlanningSceneMessage isEmptyWorld isEmptyRobotState absorb accepted m scene now).2.2
      = accepted scene := by
  unfold newPlanningSceneMessage
  simp only [ha, hs0, Option.map_some', Option.getD_some]
  by_cases hc : (!scene.is_diff && m.parent_scene_.isSome) = true
  · simp only [hc, if_true, triggerSceneUpdateEvent]
    refine ⟨?_, ?_, ?_⟩ <;> first | rfl | trivial
  · simp only [hc, if_false, triggerSceneUpdateEvent]
    refine ⟨?_, ?_, ?_⟩ <;> first | rfl | trivial

/-- C10: the change category that `newPlanningSceneMessage` reports for a message applied
to an existing scene is the reference classification, computed with the name the scene
had before the message: every registered update callback is called once with that category
(after the events of the occupancy map, before `notify_all`), and the category is or-ed
into the pending category `new_scene_update_`; the reference classification is the full
scene when the message is not a diff, or is a diff with a non-empty name different from
the previous scene name, or with collision-matrix entry names, link padding or link scale;
otherwise the union of GEOMETRY (world not empty), TRANSFORMS (fixed-frame transforms not
empty), STATE (robot state not empty) and GEOMETRY (robot state not empty, with attached
collision objects or not itself a diff). In particular for a diff with only a robot state
that is itself a diff the callbacks are called with exactly STATE when it has no attached
collision objects, and with exactly STATE and GEOMETRY when it has some. -/
theorem newPlanningSceneMessage_reports_referenceClassification
    (isEmptyWorld : PlanningSceneWorldMsg → Bool) (isEmptyRobotState : RobotStateMsg → Bool)
    (absorb : PlanningSceneMsg → PlanningScene → PlanningScene)
    (accepted : PlanningSceneMsg → Bool)
    (m : PlanningSceneMonitor) (scene : PlanningSceneMsg) (now : Time)
    (a : Nat) (s0 : PlanningScene) (ha : m.scene_ = some a) (hs0 : m.scenes[a]? = some s0) :
    (newPlanningSceneMessage isEmptyWorld isEmptyRobotState absorb accepted m scene now).2.1
      = (if m.octomap_monitor_ && !scene.is_diff && scene.world.octomap_data.isEmpty then
          [SceneEvent.octomap_clear] else []) ++
        (if m.octomap_monitor_ then
          [SceneEvent.excludeAttachedBodiesFromOctree, SceneEvent.excludeWorldObjectsFromOctree]
          else []) ++
        (m.update_callbacks_.map (fun cb => SceneEvent.update_callback cb
          (referenceClassification isEmptyWorld isEmptyRobotState s0.name_ scene)) ++
          [SceneEvent.notify_all]) ∧
    (newPlanningSceneMessage isEmptyWorld isEmptyRobotState absorb accepted m scene
      now).1.new_scene_update_
      = m.new_scene_update_ |||
        referenceClassification isEmptyWorld isEmptyRobotState s0.name_ scene ∧
    (scene.is_diff = true → scene.name = "" →
      scene.allowed_collision_matrix_entry_names = [] → scene.link_padding = [] →
      scene.link_scale = [] → isEmptyWorld scene.world = true →
      scene.fixed_frame_transforms = [] → isEmptyRobotState scene.robot_state = false →
      scene.robot_state.is_diff = true → m.octomap_monitor_ = false →
      (scene.robot_state.attached_collision_objects = [] →
        (newPlanningSceneMessage isEmptyWorld isEmptyRobotState absorb accepted m scene
          now).2.1 = m.update_callbacks_.map
            (fun cb => SceneEvent.update_callback cb UPDATE_STATE) ++
            [SceneEvent.notify_all]) ∧
      (scene.robot_state.attached_collision_objects ≠ [] →
        (newPlanningSceneMessage isEmptyWorld isEmptyRobotState absorb accepted m scene
          now).2.1 = m.update_callbacks_.map
            (fun cb => SceneEvent.update_callback cb (UPDATE_STATE ||| UPDATE_GEOMETRY)) ++
            [SceneEvent.notify_all])) := by
  obtain ⟨h1, h2, -⟩ := newPlanningSceneMessage_events isEmptyWorld isEmptyRobotState absorb
    accepted m scene now a s0 ha hs0
  refine ⟨?_, ?_, ?_⟩
  · rw [h1, newPlanningSceneMessage_upd_classification]
  · rw [h2, newPlanningSceneMessage_upd_classification]
  · intro hd hn hacm hp hs hw ht hr hrd ho
    have hu := newPlanningSceneMessage_upd_state_only isEmptyWorld isEmptyRobotState s0.name_
      scene hd hn hacm hp hs hw ht hr hrd
    constructor
    · intro hat
      rw [h1, hu, if_pos hat, ho]
      simp
    · intro hat
      rw [h1, hu, if_neg hat, ho]
      simp

/-- Witness of C10: the example scene monitor (two update callbacks, no occupancy map)
receives the diff message with only a robot state: both callbacks are called with exactly
STATE; with an attached collision object both are called with exactly STATE and GEOMETRY,
the value `5`. -/
theorem newPlanningSceneMessage_reports_referenceClassification_witness :
    (newPlanningSceneMessage exampleIsEmptyWorld exampleIsEmptyRobotState (fun _ s => s)
      (fun _ => true) (exampleSceneMonitor UPDATE_NONE) (stateOnlyDiff []) 7).2.1
      = [SceneEvent.update_callback 0 UPDATE_STATE, SceneEvent.update_callback 1 UPDATE_STATE,
          SceneEvent.notify_all] ∧
    (newPlanningSceneMessage exampleIsEmptyWorld exampleIsEmptyRobotState (fun _ s => s)
      (fun _ => true) (exampleSceneMonitor UPDATE_NONE) (stateOnlyDiff ["cup"]) 7).2.1
      = [SceneEvent.update_callback 0 (UPDATE_STATE ||| UPDATE_GEOMETRY),
          SceneEvent.update_callback 1 (UPDATE_STATE ||| UPDATE_GEOMETRY),
          SceneEvent.notify_all] ∧
    (newPlanningSceneMessage exampleIsEmptyWorld exampleIsEmptyRobotState (fun _ s => s)
      (fun _ => true) (exampleSceneMonitor UPDATE_NONE) (stateOnlyDiff ["cup"])
      7).1.new_scene_update_ = UPDATE_NONE |||
        referenceClassification exampleIsEmptyWorld exampleIsEmptyRobotState "scene"
          (stateOnlyDiff ["cup"]) ∧
    UPDATE_STATE ||| UPDATE_GEOMETRY = 5 :=
  ⟨((newPlanningSceneMessage_reports_referenceClassification exampleIsEmptyWorld
      exampleIsEmptyRobotState (fun _ s => s) (fun _ => true) (exampleSceneMonitor UPDATE_NONE)
      (stateOnlyDiff []) 7 0 _ rfl rfl).2.2
      rfl rfl rfl rfl rfl rfl rfl rfl rfl rfl).1 rfl,
   ((newPlanningSceneMessage_reports_referenceClassification exampleIsEmptyWorld
      exampleIsEmptyRobotState (fun _ s => s) (fun _ => true) (exampleSceneMonitor UPDATE_NONE)
      (stateOnlyDiff ["cup"]) 7 0 _ rfl rfl).2.2
      rfl rfl rfl rfl rfl rfl rfl rfl rfl rfl).2 (by decide),
   (newPlanningSceneMessage_reports_referenceClassification exampleIsEmptyWorld
      exampleIsEmptyRobotState (fun _ s => s) (fun _ => true) (exampleSceneMonitor UPDATE_NONE)
      (stateOnlyDiff ["cup"]) 7 0 _ rfl rfl).2.1,
   by decide⟩

/-! ## Lemmas on `waitForCompleteState` -/

/-- One pass of the loop of `waitForCompleteState`: the state is incomplete and the
accumulated sleep is below `wait_time`. -/
theorem waitForCompleteState_loop_step (snapshots : Nat → CurrentStateMonitor)
    (w step : ℚ) (fuel k : Nat) (slept : ℚ)
    (hc : haveCompleteState (snapshots k) = false) (hs : slept < w) :
    waitForCompleteState_loop snapshots w step (fuel + 1) k slept
      = waitForCompleteState_loop snapshots w step fuel (k + 1) (roundDouble (slept + step)) := by
  simp only [waitForCompleteState_loop]
  rw [if_pos (by simp [hc, hs])]

/-- What the loop of `waitForCompleteState` returns: the first call number at which the
state is complete or the accumulated sleep has reached `wait_time`. -/
theorem waitForCompleteState_loop_some (snapshots : Nat → CurrentStateMonitor)
    (w step : ℚ) :
    ∀ (fuel k : Nat) (slept : ℚ) (r : Nat × ℚ),
      waitForCompleteState_loop snapshots w step fuel k slept = some r →
      k ≤ r.1 ∧ r.2 = (fun s => roundDouble (s + step))^[r.1 - k] slept ∧
      (haveCompleteState (snapshots r.1) = true ∨ w ≤ r.2) ∧
      (∀ j, k ≤ j → j < r.1 →
        haveCompleteState (snapshots j) = false ∧
          (fun s => roundDouble (s + step))^[j - k] slept < w) := by
  intro fuel
  induction fuel with
  | zero => intro k slept r h; simp [waitForCompleteState_loop] at h
  | succ n ih =>
    intro k slept r h
    simp only [waitForCompleteState_loop] at h
    by_cases hc : (!haveCompleteState (snapshots k) && decide (slept < w)) = true
    · rw [if_pos hc] at h
      obtain ⟨h1, h2, h3, h4⟩ := ih (k + 1) (roundDouble (slept + step)) r h
      simp only [Bool.and_eq_true, Bool.not_eq_true', decide_eq_true_eq] at hc
      refine ⟨by omega, ?_, h3, ?_⟩
      · rw [h2]
        have e : r.1 - k = (r.1 - (k + 1)) + 1 := by omega
        rw [e, Function.iterate_succ_apply]
      · intro j hj1 hj2
        by_cases hjk : j = k
        · subst hjk
          simp [hc.1, hc.2]
        · obtain ⟨g1, g2⟩ := h4 j (by omega) hj2
          refine ⟨g1, ?_⟩
          have e : j - k = (j - (k + 1)) + 1 := by omega
          rw [e, Function.iterate_succ_apply]
          exact g2
    · rw [if_neg hc] at h
      cases h
      simp only [Bool.and_eq_true, Bool.not_eq_true', decide_eq_true_eq, not_and, not_lt] at hc
      refine ⟨le_refl k, by simp, ?_, ?_⟩
      · cases hh : haveCompleteState (snapshots k) with
        | true => left; rfl
        | false => right; exact hc hh
      · intro j hj1 hj2
        omega

/-- The loop of `waitForCompleteState` ends within `d + 1` iterations when `d` sleeps
bring the accumulated sleep to `wait_time`. -/
theorem waitForCompleteState_loop_terminates (snapshots : Nat → CurrentStateMonitor)
    (w step : ℚ) :
    ∀ (d fuel k : Nat) (slept : ℚ), d < fuel →
      w ≤ (fun s => roundDouble (s + step))^[d] slept →
      ∃ r, waitForCompleteState_loop snapshots w step fuel k slept = some r ∧ r.1 ≤ k + d := by
  intro d
  induction d with
  | zero =>
    intro fuel k slept hf hw
    obtain ⟨n, rfl⟩ : ∃ n, fuel = n + 1 := ⟨fuel - 1, by omega⟩
    simp only [waitForCompleteState_loop]
    have : ¬ slept < w := by
      simp only [Function.iterate_zero, id_eq] at hw
      exact not_lt.mpr hw
    simp [this]
  | succ d ih =>
    intro fuel k slept hf hw
    obtain ⟨n, rfl⟩ : ∃ n, fuel = n + 1 := ⟨fuel - 1, by omega⟩
    simp only [waitForCompleteState_loop]
    by_cases hc : (!haveCompleteState (snapshots k) && decide (slept < w)) = true
    · rw [if_pos hc]
      rw [Function.iterate_succ_apply] at hw
      obtain ⟨r, hr, hle⟩ := ih n (k + 1) (roundDouble (slept + step)) (by omega) hw
      exact ⟨r, hr, by omega⟩
    · rw [if_neg hc]
      exact ⟨(k, slept), rfl, by simp⟩

/-- With a sleep step of zero the accumulated sleep stays zero: on a state that never
becomes complete the loop of `waitForCompleteState` does not end, whatever the fuel. -/
theorem waitForCompleteState_loop_zero_step (snapshots : Nat → CurrentStateMonitor) (w : ℚ)
    (hw : 0 < w) (hc : ∀ k, haveCompleteState (snapshots k) = false) :
    ∀ (fuel k : Nat), waitForCompleteState_loop snapshots w 0 fuel k 0 = none := by
  intro fuel
  induction fuel with
  | zero => intro k; rfl
  | succ n ih =>
    intro k
    rw [waitForCompleteState_loop_step snapshots w 0 n k 0 (hc k) hw, add_zero,
      roundDouble_zero]
    exact ih (k + 1)

/-- A sleep that adds at least `c` as long as the accumulated sleep is below `w` brings it
to `w` within `N` sleeps when `w ≤ N * c`. -/
theorem iterate_reaches (f : ℚ → ℚ) (w c : ℚ) (N : Nat) (hc : 0 ≤ c)
    (hprog : ∀ s, 0 ≤ s → s < w → s + c ≤ f s) (hN : w ≤ (N : ℚ) * c) :
    ∃ d, d ≤ N ∧ w ≤ f^[d] 0 := by
  by_contra hno
  push_neg at hno
  have key : ∀ d, d ≤ N → (d : ℚ) * c ≤ f^[d] 0 := by
    intro d
    induction d with
    | zero => intro _; simp
    | succ d ih =>
      intro hd
      have h1 := ih (by omega)
      have h2 := hno d (by omega)
      have h0 : (0 : ℚ) ≤ f^[d] 0 := le_trans (mul_nonneg (Nat.cast_nonneg d) hc) h1
      have h3 := hprog _ h0 h2
      rw [Function.iterate_succ_apply']
      push_cast
      linarith
  have h1 := key N (le_refl N)
  have h2 := hno N (le_refl N)
  linarith

/-- The progress of one sleep of `waitForCompleteState` in `double` arithmetic, for a
`wait_time` of at least twenty times the least normal `double`. -/
theorem waitForCompleteState_progress (w s : ℚ)
    (hlo : 20 * (2 : ℚ) ^ (-1022 : ℤ) ≤ w) (hs0 : 0 ≤ s) (hs : s < w) :
    s + (min (roundDouble (5 / 100)) (roundDouble (w / 10)) - 6 / 5 * w * (2 : ℚ) ^ (-53 : ℤ))
      ≤ roundDouble (s + min (roundDouble (5 / 100)) (roundDouble (w / 10))) := by
  have hp : (0 : ℚ) < (2 : ℚ) ^ (-1022 : ℤ) := by positivity
  have h53 : (2 : ℚ) ^ (-53 : ℤ) = 1 / 9007199254740992 := by norm_num
  have hsmall : (2 : ℚ) ^ (-1022 : ℤ) ≤ 1 / 20 := by
    have : (2 : ℚ) ^ (-1022 : ℤ) ≤ (2 : ℚ) ^ (-5 : ℤ) :=
      zpow_le_zpow_right₀ (by norm_num) (by norm_num)
    have h5 : (2 : ℚ) ^ (-5 : ℤ) = 1 / 32 := by norm_num
    exact le_trans this (by rw [h5]; norm_num)
  generalize hpd : (2 : ℚ) ^ (-1022 : ℤ) = p at hlo hp hsmall
  have hw0 : 0 < w := by linarith
  have hw10 : (2 : ℚ) ^ (-1022 : ℤ) ≤ w / 10 := by rw [hpd]; linarith
  have hb1 := roundDouble_ge (w / 10) hw10
  have hb2 := roundDouble_le (w / 10) hw10
  rw [h53] at hb1 hb2
  have hstep1 : p ≤ min (roundDouble (5 / 100)) (roundDouble (w / 10)) := by
    rw [roundDouble_five_hundredths]
    apply le_min
    · linarith
    · linarith
  have hstep2 : min (roundDouble (5 / 100)) (roundDouble (w / 10)) ≤ w / 10 * (1 + 1 / 9007199254740992) :=
    le_trans (min_le_right _ _) hb2
  have hx : (2 : ℚ) ^ (-1022 : ℤ) ≤ s + min (roundDouble (5 / 100)) (roundDouble (w / 10)) := by
    rw [hpd]; linarith
  have hr := roundDouble_ge _ hx
  rw [h53] at hr ⊢
  linarith

/-- The number of sleeps `max ⌈20 * w⌉ 10 + 1` is enough. -/
theorem waitForCompleteState_enough (w : ℚ)
    (hlo : 20 * (2 : ℚ) ^ (-1022 : ℤ) ≤ w) (hhi : w ≤ 2 ^ 22) :
    0 ≤ min (roundDouble (5 / 100)) (roundDouble (w / 10)) - 6 / 5 * w * (2 : ℚ) ^ (-53 : ℤ) ∧
    w ≤ ((max ⌈20 * w⌉₊ 10 + 1 : Nat) : ℚ) *
      (min (roundDouble (5 / 100)) (roundDouble (w / 10)) - 6 / 5 * w * (2 : ℚ) ^ (-53 : ℤ)) := by
  have hp : (0 : ℚ) < (2 : ℚ) ^ (-1022 : ℤ) := by positivity
  have h53 : (2 : ℚ) ^ (-53 : ℤ) = 1 / 9007199254740992 := by norm_num
  have hsmall : (2 : ℚ) ^ (-1022 : ℤ) ≤ 1 / 20 := by
    have : (2 : ℚ) ^ (-1022 : ℤ) ≤ (2 : ℚ) ^ (-5 : ℤ) :=
      zpow_le_zpow_right₀ (by norm_num) (by norm_num)
    have h5 : (2 : ℚ) ^ (-5 : ℤ) = 1 / 32 := by norm_num
    exact le_trans this (by rw [h5]; norm_num)
  generalize hpd : (2 : ℚ) ^ (-1022 : ℤ) = p at hlo hp hsmall
  have hw0 : 0 < w := by linarith
  have hw10 : (2 : ℚ) ^ (-1022 : ℤ) ≤ w / 10 := by rw [hpd]; linarith
  have hb1 := roundDouble_ge (w / 10) hw10
  rw [h53] at hb1 ⊢
  have hN1 : 20 * w + 1 ≤ ((max ⌈20 * w⌉₊ 10 + 1 : Nat) : ℚ) := by
    have h1 : 20 * w ≤ ((⌈20 * w⌉₊ : Nat) : ℚ) := Nat.le_ceil _
    have h2 : ((⌈20 * w⌉₊ : Nat) : ℚ) ≤ ((max ⌈20 * w⌉₊ 10 : Nat) : ℚ) := by
      exact_mod_cast le_max_left _ _
    push_cast at h2 ⊢
    linarith
  have hN2 : (11 : ℚ) ≤ ((max ⌈20 * w⌉₊ 10 + 1 : Nat) : ℚ) := by
    have h2 : ((10 : Nat) : ℚ) ≤ ((max ⌈20 * w⌉₊ 10 : Nat) : ℚ) := by
      exact_mod_cast le_max_right _ _
    push_cast at h2 ⊢
    linarith
  generalize ((max ⌈20 * w⌉₊ 10 + 1 : Nat) : ℚ) = N at hN1 hN2
  have hhi2 : w ≤ 4194304 := by norm_num at hhi; exact hhi
  rcases min_choice (roundDouble (5 / 100)) (roundDouble (w / 10)) with hm | hm
  · rw [hm, roundDouble_five_hundredths]
    have hc0 : (0 : ℚ) ≤ 3602879701896397 / 72057594037927936
        - 6 / 5 * w * (1 / 9007199254740992) := by linarith
    refine ⟨hc0, ?_⟩
    have h1 : (20 * w + 1) * (3602879701896397 / 72057594037927936
        - 6 / 5 * w * (1 / 9007199254740992)) ≤ N * (3602879701896397 / 72057594037927936
        - 6 / 5 * w * (1 / 9007199254740992)) := mul_le_mul_of_nonneg_right hN1 hc0
    have hsq : w * w ≤ 4194304 * w := mul_le_mul_of_nonneg_right hhi2 (le_of_lt hw0)
    nlinarith
  · rw [hm]
    have hc0 : (0 : ℚ) ≤ roundDouble (w / 10) - 6 / 5 * w * (1 / 9007199254740992) := by linarith
    refine ⟨hc0, ?_⟩
    have h1 : 11 * (roundDouble (w / 10) - 6 / 5 * w * (1 / 9007199254740992))
        ≤ N * (roundDouble (w / 10) - 6 / 5 * w * (1 / 9007199254740992)) :=
      mul_le_mul_of_nonneg_right hN2 hc0
    linarith

/-- The accumulated sleep of `waitForCompleteState(0.1)`: ten sleeps of the `double`
nearest to `0.01` stay below `0.1`, the eleventh passes it. On a state that never becomes
complete the call sleeps eleven times. -/
theorem waitForCompleteState_tenth (snapshots : Nat → CurrentStateMonitor)
    (hc : ∀ k, haveCompleteState (snapshots k) = false) :
    waitForCompleteState snapshots (1 / 10) 12 = some (false, 11) := by
  have hstep : min (roundDouble (5 / 100)) (roundDouble (1 / 10 / 10))
      = 5764607523034235 / 576460752303423488 := by
    rw [roundDouble_five_hundredths]
    have : roundDouble (1 / 10 / 10) = 5764607523034235 / 576460752303423488 := by
      rw [roundDouble_eq_of_pos _ (-7) (by norm_num) (by norm_num) (by norm_num)]
      norm_num [roundToMultiple]
    rw [this]
    norm_num
  have h0 : roundDouble ((0 : ℚ) + 5764607523034235 / 576460752303423488) = 5764607523034235 / 576460752303423488 := by
    rw [roundDouble_eq_of_pos _ (-7) (by norm_num) (by norm_num) (by norm_num)]
    norm_num [roundToMultiple]
  have h1 : roundDouble ((5764607523034235 / 576460752303423488 : ℚ) + 5764607523034235 / 576460752303423488) = 5764607523034235 / 288230376151711744 := by
    rw [roundDouble_eq_of_pos _ (-6) (by norm_num) (by norm_num) (by norm_num)]
    norm_num [roundToMultiple]
  have h2 : roundDouble ((5764607523034235 / 288230376151711744 : ℚ) + 5764607523034235 / 576460752303423488) = 1080863910568919 / 36028797018963968 := by
    rw [roundDouble_eq_of_pos _ (-6) (by norm_num) (by norm_num) (by norm_num)]
    norm_num [roundToMultiple]
  have h3 : roundDouble ((1080863910568919 / 36028797018963968 : ℚ) + 5764607523034235 / 576460752303423488) = 5764607523034235 / 144115188075855872 := by
    rw [roundDouble_eq_of_pos _ (-5) (by norm_num) (by norm_num) (by norm_num)]
    norm_num [roundToMultiple]
  have h4 : roundDouble ((5764607523034235 / 144115188075855872 : ℚ) + 5764607523034235 / 576460752303423488) = 3602879701896397 / 72057594037927936 := by
    rw [roundDouble_eq_of_pos _ (-5) (by norm_num) (by norm_num) (by norm_num)]
    norm_num [roundToMultiple]
  have h5 : roundDouble ((3602879701896397 / 72057594037927936 : ℚ) + 5764607523034235 / 576460752303423488) = 8646911284551353 / 144115188075855872 := by
    rw [roundDouble_eq_of_pos _ (-5) (by norm_num) (by norm_num) (by norm_num)]
    norm_num [roundToMultiple]
  have h6 : roundDouble ((8646911284551353 / 144115188075855872 : ℚ) + 5764607523034235 / 576460752303423488) = 1261007895663739 / 18014398509481984 := by
    rw [roundDouble_eq_of_pos _ (-4) (by norm_num) (by norm_num) (by norm_num)]
    norm_num [roundToMultiple]
  have h7 : roundDouble ((1261007895663739 / 18014398509481984 : ℚ) + 5764607523034235 / 576460752303423488) = 5764607523034235 / 72057594037927936 := by
    rw [roundDouble_eq_of_pos _ (-4) (by norm_num) (by norm_num) (by norm_num)]
    norm_num [roundToMultiple]
  have h8 : roundDouble ((5764607523034235 / 72057594037927936 : ℚ) + 5764607523034235 / 576460752303423488) = 3242591731706757 / 36028797018963968 := by
    rw [roundDouble_eq_of_pos _ (-4) (by norm_num) (by norm_num) (by norm_num)]
    norm_num [roundToMultiple]
  have h9 : roundDouble ((3242591731706757 / 36028797018963968 : ℚ) + 5764607523034235 / 576460752303423488) = 7205759403792793 / 72057594037927936 := by
    rw [roundDouble_eq_of_pos _ (-4) (by norm_num) (by norm_num) (by norm_num)]
    norm_num [roundToMultiple]
  have h10 : roundDouble ((7205759403792793 / 72057594037927936 : ℚ) + 5764607523034235 / 576460752303423488) = 990791918021509 / 9007199254740992 := by
    rw [roundDouble_eq_of_pos _ (-4) (by norm_num) (by norm_num) (by norm_num)]
    norm_num [roundToMultiple]
  unfold waitForCompleteState
  simp only []
  rw [hstep]
  simp only [waitForCompleteState_loop, hc, h0, h1, h2, h3, h4, h5, h6, h7, h8, h9, h10]
  norm_num

/-- C17, counterexample: the least positive `double`, `2^-1074`, is given as `wait_time`.
The quotient `wait_time / 10.0` is rounded to zero, so the sleep step
`min(0.05, wait_time / 10.0)` is zero and the accumulated sleep stays at zero, below
`wait_time`: on a tracker that never receives an update the call does not return, whatever
the number of loop iterations allowed. -/
theorem waitForCompleteState_zero_step_never_returns :
    (0 : ℚ) < 1 / 2 ^ 1074 ∧
    roundDouble (1 / 2 ^ 1074) = 1 / 2 ^ 1074 ∧
    min (roundDouble (5 / 100)) (roundDouble (1 / 2 ^ 1074 / 10)) = 0 ∧
    haveCompleteState (freshMonitor exampleArm (1 / 1000000)) = false ∧
    ∀ fuel, waitForCompleteState (fun _ => freshMonitor exampleArm (1 / 1000000))
      (1 / 2 ^ 1074) fuel = none := by
  have hfresh : haveCompleteState (freshMonitor exampleArm (1 / 1000000)) = false := by decide
  have hstep : min (roundDouble (5 / 100)) (roundDouble (1 / 2 ^ 1074 / 10)) = 0 := by
    rw [roundDouble_five_hundredths, roundDouble_least_tenth]
    norm_num
  have hdouble : roundDouble (1 / 2 ^ 1074) = 1 / 2 ^ 1074 := by
    rw [roundDouble_eq_of_small _ (by norm_num) (by norm_num)]
    norm_num [roundToMultiple]
  refine ⟨by norm_num, hdouble, hstep, hfresh, ?_⟩
  intro fuel
  unfold waitForCompleteState
  simp only []
  rw [hstep, waitForCompleteState_loop_zero_step _ _ (by norm_num) (fun _ => hfresh) fuel 0]

/-- C17, amended: `waitForCompleteState(wait_time)` (1) returns, whenever it returns, the
value that its final call of `haveCompleteState()` finds; (2) when the state is complete
on entry it returns after no sleep, with the value of that final call (true when the state
is still complete then); (3) when `wait_time ≤ 0` it returns after no sleep; (4) whenever
it returns, every sleep was taken while the state was incomplete and the accumulated sleep
was below `wait_time`, and the loop stopped at a complete state or once the accumulated
sleep had reached `wait_time`, where the step is `min(0.05, wait_time / 10.0)` and the
accumulated sleep is the repeated `double` sum of the step; (5) for a `wait_time` from
`20 * 2^-1022` to `2^22` it terminates: with more fuel than `max(⌈20 * wait_time⌉, 10) + 1`
loop iterations it returns after at most that many sleeps. -/
theorem waitForCompleteState_returns_final_completeness
    (snapshots : Nat → CurrentStateMonitor) (wait_time : ℚ) :
    (∀ fuel r, waitForCompleteState snapshots wait_time fuel = some r →
      r.1 = haveCompleteState (snapshots (r.2 + 1))) ∧
    (haveCompleteState (snapshots 0) = true → ∀ fuel, 0 < fuel →
      waitForCompleteState snapshots wait_time fuel
        = some (haveCompleteState (snapshots 1), 0)) ∧
    (wait_time ≤ 0 → ∀ fuel, 0 < fuel →
      waitForCompleteState snapshots wait_time fuel
        = some (haveCompleteState (snapshots 1), 0)) ∧
    (∀ fuel r, waitForCompleteState snapshots wait_time fuel = some r →
      (∀ j, j < r.2 → haveCompleteState (snapshots j) = false ∧
        (fun s => roundDouble
          (s + min (roundDouble (5 / 100)) (roundDouble (wait_time / 10))))^[j] 0
          < wait_time) ∧
      (haveCompleteState (snapshots r.2) = true ∨
        wait_time ≤ (fun s => roundDouble
          (s + min (roundDouble (5 / 100)) (roundDouble (wait_time / 10))))^[r.2] 0)) ∧
    (20 * (2 : ℚ) ^ (-1022 : ℤ) ≤ wait_time → wait_time ≤ 2 ^ 22 →
      ∀ fuel, max ⌈20 * wait_time⌉₊ 10 + 1 < fuel →
      ∃ r, waitForCompleteState snapshots wait_time fuel = some r ∧
        r.2 ≤ max ⌈20 * wait_time⌉₊ 10 + 1) := by
  have key : ∀ fuel r, waitForCompleteState snapshots wait_time fuel = some r →
      ∃ q, waitForCompleteState_loop snapshots wait_time
        (min (roundDouble (5 / 100)) (roundDouble (wait_time / 10))) fuel 0 0 = some q ∧
        r = (haveCompleteState (snapshots (q.1 + 1)), q.1) := by
    intro fuel r h
    unfold waitForCompleteState at h
    simp only [] at h
    cases hq : waitForCompleteState_loop snapshots wait_time
        (min (roundDouble (5 / 100)) (roundDouble (wait_time / 10))) fuel 0 0 with
    | none => rw [hq] at h; simp at h
    | some q =>
      rw [hq] at h
      simp only [Option.some.injEq] at h
      exact ⟨q, rfl, h.symm⟩
  refine ⟨?_, ?_, ?_, ?_, ?_⟩
  · intro fuel r h
    obtain ⟨q, -, rfl⟩ := key fuel r h
    rfl
  · intro hc fuel hf
    obtain ⟨n, rfl⟩ : ∃ n, fuel = n + 1 := ⟨fuel - 1, by omega⟩
    unfold waitForCompleteState
    simp [waitForCompleteState_loop, hc]
  · intro hw fuel hf
    obtain ⟨n, rfl⟩ : ∃ n, fuel = n + 1 := ⟨fuel - 1, by omega⟩
    have : ¬ (0 : ℚ) < wait_time := not_lt.mpr hw
    unfold waitForCompleteState
    simp [waitForCompleteState_loop, this]
  · intro fuel r h
    obtain ⟨q, hq, rfl⟩ := key fuel r h
    obtain ⟨-, g2, g3, g4⟩ := waitForCompleteState_loop_some snapshots wait_time
      (min (roundDouble (5 / 100)) (roundDouble (wait_time / 10))) fuel 0 0 q hq
    refine ⟨?_, ?_⟩
    · intro j hj
      exact g4 j (Nat.zero_le j) hj
    · rcases g3 with g3 | g3
      · left; exact g3
      · right
        rw [g2] at g3
        exact g3
  · intro hlo hhi fuel hf
    obtain ⟨hc0, hN⟩ := waitForCompleteState_enough wait_time hlo hhi
    obtain ⟨d, hd1, hd2⟩ := iterate_reaches
      (fun s => roundDouble (s + min (roundDouble (5 / 100)) (roundDouble (wait_time / 10))))
      wait_time _ (max ⌈20 * wait_time⌉₊ 10 + 1) hc0
      (fun s hs0 hs => waitForCompleteState_progress wait_time s hlo hs0 hs) hN
    obtain ⟨q, hq, hqd⟩ := waitForCompleteState_loop_terminates snapshots wait_time
      (min (roundDouble (5 / 100)) (roundDouble (wait_time / 10))) d fuel 0 0
      (by omega) hd2
    refine ⟨(haveCompleteState (snapshots (q.1 + 1)), q.1), ?_, by simp; omega⟩
    unfold waitForCompleteState
    simp only []
    rw [hq]

/-- Witness of the amended C17: the state is incomplete at the first three calls of
`haveCompleteState()` and complete from then on; with a wait time of one second the call
returns true after three sleeps, within the bound of twenty-one; on a state complete from
the start it returns true with no sleep. -/
theorem waitForCompleteState_returns_final_completeness_witness :
    (∃ r, waitForCompleteState exampleSnapshots 1 22 = some r ∧
        r.2 ≤ max ⌈20 * (1 : ℚ)⌉₊ 10 + 1) ∧
    max ⌈20 * (1 : ℚ)⌉₊ 10 + 1 = 21 ∧
    waitForCompleteState exampleSnapshots 1 22 = some (true, 3) ∧
    waitForCompleteState (fun _ => agedMonitor) 1 1 = some (true, 0) := by
  have hfresh : haveCompleteState (freshMonitor exampleArm (1 / 1000000)) = false := by decide
  have haged : haveCompleteState agedMonitor = true := by decide
  have hN : max ⌈20 * (1 : ℚ)⌉₊ 10 + 1 = 21 := by norm_num
  have hlo : 20 * (2 : ℚ) ^ (-1022 : ℤ) ≤ 1 := by
    have h1 : (2 : ℚ) ^ (-1022 : ℤ) ≤ (2 : ℚ) ^ (-5 : ℤ) :=
      zpow_le_zpow_right₀ (by norm_num) (by norm_num)
    have h5 : (2 : ℚ) ^ (-5 : ℤ) = 1 / 32 := by norm_num
    rw [h5] at h1
    generalize (2 : ℚ) ^ (-1022 : ℤ) = p at h1 ⊢
    linarith
  have hstep : min (roundDouble (5 / 100)) (roundDouble ((1 : ℚ) / 10))
      = 3602879701896397 / 72057594037927936 := by
    rw [roundDouble_five_hundredths]
    have : roundDouble ((1 : ℚ) / 10) = 3602879701896397 / 36028797018963968 := by
      rw [roundDouble_eq_of_pos _ (-4) (by norm_num) (by norm_num) (by norm_num)]
      norm_num [roundToMultiple]
    rw [this]
    norm_num
  have h0 : roundDouble ((0 : ℚ) + 3602879701896397 / 72057594037927936) = 3602879701896397 / 72057594037927936 := by
    rw [roundDouble_eq_of_pos _ (-5) (by norm_num) (by norm_num) (by norm_num)]
    norm_num [roundToMultiple]
  have h1 : roundDouble ((3602879701896397 / 72057594037927936 : ℚ) + 3602879701896397 / 72057594037927936) = 3602879701896397 / 36028797018963968 := by
    rw [roundDouble_eq_of_pos _ (-4) (by norm_num) (by norm_num) (by norm_num)]
    norm_num [roundToMultiple]
  have h2 : roundDouble ((3602879701896397 / 36028797018963968 : ℚ) + 3602879701896397 / 72057594037927936) = 1351079888211149 / 9007199254740992 := by
    rw [roundDouble_eq_of_pos _ (-3) (by norm_num) (by norm_num) (by norm_num)]
    norm_num [roundToMultiple]
  have hrun : waitForCompleteState exampleSnapshots 1 22 = some (true, 3) := by
    unfold waitForCompleteState
    simp only []
    rw [hstep]
    have e0 : haveCompleteState (exampleSnapshots 0) = false := hfresh
    have e1 : haveCompleteState (exampleSnapshots 1) = false := hfresh
    have e2 : haveCompleteState (exampleSnapshots 2) = false := hfresh
    have e3 : haveCompleteState (exampleSnapshots 3) = true := haged
    have e4 : haveCompleteState (exampleSnapshots 4) = true := haged
    simp only [waitForCompleteState_loop, e0, e1, e2, e3, e4, h0, h1, h2]
    norm_num [e4]
  refine ⟨(waitForCompleteState_returns_final_completeness exampleSnapshots 1).2.2.2.2 hlo
      (by norm_num) 22 (by rw [hN]; norm_num), hN, hrun,
    (waitForCompleteState_returns_final_completeness (fun _ => agedMonitor) 1).2.1
      haged 1 (by decide)⟩

/-- C18, counterexample: a tracker that is not started is given the empty topic name;
afterwards no subscription exists, yet the tracker is marked as started: `isActive()` is
true, not false as before the call. -/
theorem startStateMonitor_empty_topic_marks_started :
    isActive (freshMonitor exampleArm (1 / 1000000)) = false ∧
    (startStateMonitor (freshMonitor exampleArm (1 / 1000000)) "" 7).joint_state_subscriber_
      = none ∧
    isActive (startStateMonitor (freshMonitor exampleArm (1 / 1000000)) "" 7) = true := by
  refine ⟨rfl, rfl, rfl⟩

/-- C18, amended: `startStateMonitor` called with an empty topic name on a tracker that is
not started creates no subscription to the joint-position feed (the subscription member
is left as it was), but the tracker is marked as started all the same: `isActive()` is
true afterwards, the per-joint timestamp map is cleared and the start time is the clock
reading. -/
theorem startStateMonitor_empty_topic (mon : CurrentStateMonitor) (now : Time)
    (h : mon.state_monitor_started_ = false) :
    (startStateMonitor mon "" now).joint_state_subscriber_ = mon.joint_state_subscriber_ ∧
    isActive (startStateMonitor mon "" now) = true ∧
    (∀ jm, (startStateMonitor mon "" now).joint_time_ jm = none) ∧
    (startStateMonitor mon "" now).monitor_start_time_ = now ∧
    (startStateMonitor mon "" now).robot_state_ = mon.robot_state_ := by
  have he : ("" : String).isEmpty = true := by decide
  unfold startStateMonitor isActive
  simp [h, he]

/-- Witness of the amended C18: the fresh tracker over the example arm. -/
theorem startStateMonitor_empty_topic_witness :
    (startStateMonitor (freshMonitor exampleArm (1 / 1000000)) "" 7).joint_state_subscriber_
      = (freshMonitor exampleArm (1 / 1000000)).joint_state_subscriber_ ∧
    isActive (startStateMonitor (freshMonitor exampleArm (1 / 1000000)) "" 7) = true :=
  ⟨(startStateMonitor_empty_topic (freshMonitor exampleArm (1 / 1000000)) 7 rfl).1,
   (startStateMonitor_empty_topic (freshMonitor exampleArm (1 / 1000000)) 7 rfl).2.1⟩

/-- C19: `startStateMonitor` on a tracker that is already started is a no-op for every
topic and clock reading: the monitor is returned as it is (timestamp map, subscription and
start time included) and `isActive()` stays true; and starting twice leaves the state that
starting once leaves. -/
theorem startStateMonitor_idempotent (mon : CurrentStateMonitor) (topic topic2 : String)
    (now now2 : Time) :
    (mon.state_monitor_started_ = true →
      startStateMonitor mon topic now = mon ∧
      (startStateMonitor mon topic now).joint_time_ = mon.joint_time_ ∧
      (startStateMonitor mon topic now).joint_state_subscriber_ = mon.joint_state_subscriber_ ∧
      (startStateMonitor mon topic now).monitor_start_time_ = mon.monitor_start_time_ ∧
      isActive (startStateMonitor mon topic now) = true) ∧
    startStateMonitor (startStateMonitor mon topic now) topic2 now2
      = startStateMonitor mon topic now := by
  have hno : ∀ (m : CurrentStateMonitor) (t : String) (n : Time),
      m.state_monitor_started_ = true → startStateMonitor m t n = m := by
    intro m t n hs
    unfold startStateMonitor
    simp [hs]
  have hstarted : (startStateMonitor mon topic now).state_monitor_started_ = true := by
    unfold startStateMonitor
    cases hs : mon.state_monitor_started_ <;> simp [hs]
  refine ⟨?_, hno _ topic2 now2 hstarted⟩
  intro hs
  rw [hno mon topic now hs]
  exact ⟨rfl, rfl, rfl, rfl, hs⟩

/-- Witness of C19: the example tracker started on `joint_states` at time `7` and started
again on another topic at time `9` keeps its subscription and its start time. -/
theorem startStateMonitor_idempotent_witness :
    (startStateMonitor (startStateMonitor (freshMonitor exampleArm (1 / 1000000))
      "joint_states" 7) "other" 9).joint_state_subscriber_ = some "joint_states" ∧
    (startStateMonitor (startStateMonitor (freshMonitor exampleArm (1 / 1000000))
      "joint_states" 7) "other" 9).monitor_start_time_ = 7 := by
  have h := (startStateMonitor_idempotent (startStateMonitor
    (freshMonitor exampleArm (1 / 1000000)) "joint_states" 7) "other" "other" 9 9).1 rfl
  rw [h.1]
  exact ⟨rfl, rfl⟩

/-! ## The scene monitor: notification, republication, waiting -/

/-- C13, counterexample: GEOMETRY is pending and `triggerSceneUpdateEvent(STATE)` is
called: the observers are called with STATE alone, not with the accumulated category
GEOMETRY and STATE. -/
theorem triggerSceneUpdateEvent_passes_own_category :
    (triggerSceneUpdateEvent (exampleSceneMonitor UPDATE_GEOMETRY) UPDATE_STATE).2 =
      [SceneEvent.update_callback 0 UPDATE_STATE, SceneEvent.update_callback 1 UPDATE_STATE,
        SceneEvent.notify_all] ∧
    (exampleSceneMonitor UPDATE_GEOMETRY).new_scene_update_ ||| UPDATE_STATE ≠ UPDATE_STATE ∧
    (∀ cb, SceneEvent.update_callback cb
        ((exampleSceneMonitor UPDATE_GEOMETRY).new_scene_update_ ||| UPDATE_STATE) ∉
      (triggerSceneUpdateEvent (exampleSceneMonitor UPDATE_GEOMETRY) UPDATE_STATE).2) := by
  refine ⟨by decide, by decide, ?_⟩
  intro cb
  simp [triggerSceneUpdateEvent, exampleSceneMonitor, UPDATE_GEOMETRY, UPDATE_STATE]

/-- C13, amended: `triggerSceneUpdateEvent(c)` calls every registered observer exactly
once, in registration order, passing the category `c` of this update (not the pending
mask), then notifies the condition variable; afterwards the pending dirty mask is the
previous dirty mask united (bitwise OR) with `c`, so every bit that was pending or is in
`c` is pending afterwards; no other member of the monitor changes. -/
theorem triggerSceneUpdateEvent_calls_observers_and_merges (m : PlanningSceneMonitor)
    (c : SceneUpdateType) :
    (triggerSceneUpdateEvent m c).2 =
      m.update_callbacks_.map (fun cb => SceneEvent.update_callback cb c) ++
        [SceneEvent.notify_all] ∧
    (triggerSceneUpdateEvent m c).1.new_scene_update_ = m.new_scene_update_ ||| c ∧
    (∀ i, (triggerSceneUpdateEvent m c).1.new_scene_update_.testBit i =
      (m.new_scene_update_.testBit i || c.testBit i)) ∧
    (triggerSceneUpdateEvent m c).1 = { m with new_scene_update_ := m.new_scene_update_ ||| c } := by
  refine ⟨rfl, rfl, ?_, rfl⟩
  intro i
  simp [triggerSceneUpdateEvent, Nat.testBit_or]

/-- The pending mask is a union of the categories that the monitor reports (STATE,
TRANSFORMS, GEOMETRY and the full scene): it is below `8` or it is `UPDATE_SCENE`; a
further report of one of those categories keeps it so. -/
theorem triggerSceneUpdateEvent_keeps_union_of_categories (m : PlanningSceneMonitor)
    (c : SceneUpdateType)
    (hm : m.new_scene_update_ < 8 ∨ m.new_scene_update_ = UPDATE_SCENE)
    (hc : c < 8 ∨ c = UPDATE_SCENE) :
    (triggerSceneUpdateEvent m c).1.new_scene_update_ < 8 ∨
      (triggerSceneUpdateEvent m c).1.new_scene_update_ = UPDATE_SCENE := by
  have key : ∀ d c : Nat, (d < 8 ∨ d = 15) → (c < 8 ∨ c = 15) → (d ||| c < 8 ∨ d ||| c = 15) := by
    intro d c hd hc
    rcases hd with hd | rfl <;> rcases hc with hc | rfl
    · interval_cases d <;> interval_cases c <;> decide
    · interval_cases d <;> decide
    · interval_cases c <;> decide
    · decide
  exact key _ _ hm hc

/-- C15: one pass of the republication loop that finds a non-empty dirty mask `d`, with a
current scene and a parent scene (the thread runs in coupled mode), returns; it hands a
message to the publisher if and only if `d` meets the configured category mask or `d` is
`UPDATE_SCENE`; the message is a full scene if and only if `d` is `UPDATE_SCENE`, which
for a mask that is a union of reported categories is the case if and only if the
full-scene bit `8` is set in `d`, and it is a diff otherwise; published or not, the dirty
mask is empty after the pass. The first message of the thread is a full scene. -/
theorem scenePublishingThread_iteration_publishes (m : PlanningSceneMonitor) (a p : Nat)
    (hne : m.new_scene_update_ ≠ UPDATE_NONE)
    (hs : m.scene_ = some a) (hp : m.parent_scene_ = some p) :
    (∃ r, scenePublishingThread_iteration m = some r ∧
      ((∃ f, SceneEvent.publish f ∈ r.2) ↔
        ((m.publish_update_types_ &&& m.new_scene_update_) ≠ 0 ∨
          m.new_scene_update_ = UPDATE_SCENE)) ∧
      (∀ f, SceneEvent.publish f ∈ r.2 → (f = true ↔ m.new_scene_update_ = UPDATE_SCENE)) ∧
      (∀ f, SceneEvent.publish f ∈ r.2 →
        (m.new_scene_update_ < 8 ∨ m.new_scene_update_ = UPDATE_SCENE) →
        (f = true ↔ m.new_scene_update_ &&& 8 ≠ 0)) ∧
      r.1.new_scene_update_ = UPDATE_NONE) ∧
    scenePublishingThread_first m = [SceneEvent.publish true] := by
  refine ⟨?_, rfl⟩
  have hbit : (m.new_scene_update_ < 8 ∨ m.new_scene_update_ = UPDATE_SCENE) →
      (m.new_scene_update_ = UPDATE_SCENE ↔ m.new_scene_update_ &&& 8 ≠ 0) := by
    intro h
    rcases h with h | h
    · generalize m.new_scene_update_ = d at h
      interval_cases d <;> decide
    · rw [h]; decide
  unfold scenePublishingThread_iteration
  rw [if_pos hne]
  by_cases hc : (m.publish_update_types_ &&& m.new_scene_update_) ≠ 0 ∨
      m.new_scene_update_ = UPDATE_SCENE
  · rw [if_pos hc]
    simp only [hs, hp]
    refine ⟨_, rfl, ?_, ?_, ?_, rfl⟩
    · constructor
      · intro _; exact hc
      · intro _
        exact ⟨decide (m.new_scene_update_ = UPDATE_SCENE), by simp⟩
    · intro f hf
      have : f = decide (m.new_scene_update_ = UPDATE_SCENE) := by
        by_cases ho : m.octomap_monitor_ = true <;> simpa [ho] using hf
      rw [this]
      simp
    · intro f hf hu
      have : f = decide (m.new_scene_update_ = UPDATE_SCENE) := by
        by_cases ho : m.octomap_monitor_ = true <;> simpa [ho] using hf
      rw [this, ← hbit hu]
      simp
  · rw [if_neg hc]
    refine ⟨_, rfl, ?_, ?_, ?_, rfl⟩
    · constructor
      · intro ⟨f, hf⟩; simp at hf
      · intro h; exact absurd h hc
    · intro f hf; simp at hf
    · intro f hf; simp at hf

/-- Witness of C15: in coupled mode with the mask STATE, a pending STATE is published as a
diff, a pending full scene is published as a full scene, and a pending GEOMETRY is not
published; the dirty mask is empty afterwards in the three cases. -/
theorem scenePublishingThread_iteration_publishes_witness :
    (∃ r, scenePublishingThread_iteration (exampleCoupledMonitor UPDATE_STATE UPDATE_STATE)
        = some r ∧ SceneEvent.publish false ∈ r.2 ∧ r.1.new_scene_update_ = UPDATE_NONE) ∧
    (∃ r, scenePublishingThread_iteration (exampleCoupledMonitor UPDATE_STATE UPDATE_SCENE)
        = some r ∧ SceneEvent.publish true ∈ r.2 ∧ r.1.new_scene_update_ = UPDATE_NONE) ∧
    (∃ r, scenePublishingThread_iteration (exampleCoupledMonitor UPDATE_STATE UPDATE_GEOMETRY)
        = some r ∧ (∀ f, SceneEvent.publish f ∉ r.2) ∧
        r.1.new_scene_update_ = UPDATE_NONE) := by
  refine ⟨?_, ?_, ?_⟩
  · obtain ⟨⟨r, hr, h1, h2, -, h4⟩, -⟩ := scenePublishingThread_iteration_publishes
      (exampleCoupledMonitor UPDATE_STATE UPDATE_STATE) 1 0 (by decide) rfl rfl
    obtain ⟨f, hf⟩ := h1.mpr (Or.inl (by decide))
    have hff : f = false := by
      cases f with
      | false => rfl
      | true => exact absurd ((h2 true hf).mp rfl) (by decide)
    exact ⟨r, hr, hff ▸ hf, h4⟩
  · obtain ⟨⟨r, hr, h1, h2, -, h4⟩, -⟩ := scenePublishingThread_iteration_publishes
      (exampleCoupledMonitor UPDATE_STATE UPDATE_SCENE) 1 0 (by decide) rfl rfl
    obtain ⟨f, hf⟩ := h1.mpr (Or.inr rfl)
    have hff : f = true := (h2 f hf).mpr rfl
    exact ⟨r, hr, hff ▸ hf, h4⟩
  · obtain ⟨⟨r, hr, h1, -, -, h4⟩, -⟩ := scenePublishingThread_iteration_publishes
      (exampleCoupledMonitor UPDATE_STATE UPDATE_GEOMETRY) 1 0 (by decide) rfl rfl
    refine ⟨r, hr, ?_, h4⟩
    intro f hf
    have := h1.mp ⟨f, hf⟩
    revert this
    decide

/-- The loop of `waitForCurrentRobotState` never ends when the target time is never
reached and the timeout is at least one whole second: its condition does not depend on
what the body changes. -/
theorem waitForCurrentRobotState_loop_none (t : Time) (timeout : Int) (seen : Nat → Time)
    (elapsed : Nat → ℚ) (hseen : ∀ k, seen k < t) (htime : timeout > 0) :
    ∀ (fuel k : Nat) (dur : ℚ),
      waitForCurrentRobotState_loop t timeout 0 seen elapsed fuel k dur = none := by
  intro fuel
  induction fuel with
  | zero => intro k dur; rfl
  | succ n ih =>
    intro k dur
    simp only [waitForCurrentRobotState_loop]
    rw [if_pos ⟨hseen k, htime⟩]
    exact ih (k + 1) _

/-- C16, the code at the failing input: no state monitor is attached, the last robot
motion time is `0` and no scene message ever advances it, the target time is `100` and
`wait_time` is one second, the wall clock advances by half a second per wait. Whatever the
number of loop iterations allowed, `waitForCurrentRobotState` has not returned: the loop
condition `timeout > wallDur` compares two values that the loop never changes. (With
`wait_time` of half a second the cast to whole seconds gives `0` and the call returns
false without any wait.) -/
theorem waitForCurrentRobotState_never_returns :
    (exampleSceneMonitor UPDATE_NONE).current_state_monitor_ = none ∧
    (∀ fuel, waitForCurrentRobotState (exampleSceneMonitor UPDATE_NONE) 100 1 0 0
      (fun _ => 0) (fun k => (k + 1 : ℚ) / 2) fuel = none) ∧
    (∀ fuel, waitForCurrentRobotState (exampleSceneMonitor UPDATE_NONE) 100 (1 / 2) 0 0
      (fun _ => 0) (fun k => (k + 1 : ℚ) / 2) (fuel + 1)
        = some (false, exampleSceneMonitor UPDATE_NONE, [])) := by
  have hcast : durationCastSeconds 1 = 1 := by
    unfold durationCastSeconds
    norm_num
  have hcast2 : durationCastSeconds (1 / 2) = 0 := by
    unfold durationCastSeconds
    norm_num
  refine ⟨rfl, ?_, ?_⟩
  · intro fuel
    unfold waitForCurrentRobotState
    have h100 : ¬ ((100 : Time) = 0) := by decide
    rw [if_neg h100]
    simp only [hcast]
    have hm : (exampleSceneMonitor UPDATE_NONE).current_state_monitor_ = none := rfl
    rw [hm]
    simp only []
    rw [waitForCurrentRobotState_loop_none 100 1 _ _ (by
      intro k
      by_cases hk : k = 0
      · simp [hk, exampleSceneMonitor]
      · simp [hk]) (by decide) fuel 0 1]
  · intro fuel
    unfold waitForCurrentRobotState
    have h100 : ¬ ((100 : Time) = 0) := by decide
    rw [if_neg h100]
    simp only [hcast2]
    have hm : (exampleSceneMonitor UPDATE_NONE).current_state_monitor_ = none := rfl
    rw [hm]
    simp [waitForCurrentRobotState_loop, exampleSceneMonitor]

/-- C20: with a scene, `collisionObjectCallback` and `attachObjectCallback` first run
`updateFrameTransforms` (which, with a transform buffer, sets the transforms and reports
TRANSFORMS on its own), then call the scene edit, then call every observer with exactly
GEOMETRY; `newPlanningSceneWorldCallback` does the same with the world edit and exactly
`UPDATE_SCENE`. `updateSceneWithCurrentState` with a state monitor writes the monitor's
state into the robot state of the scene, sets both scene times to the monitor's state
time and calls every observer with exactly STATE; without a state monitor it changes
nothing and produces no event. Without a scene the three edit callbacks change nothing and
produce no event. -/
theorem update_sources_report_their_category (m : PlanningSceneMonitor)
    (obj : CollisionObjectMsg) (att : AttachedCollisionObjectMsg)
    (world : PlanningSceneWorldMsg) (transforms : List String) (now_tf now : Time) :
    (∀ a, m.scene_ = some a →
      (collisionObjectCallback m obj transforms now_tf now).2 =
        (updateFrameTransforms m transforms now_tf).2 ++
          [SceneEvent.processCollisionObjectMsg obj] ++
          (m.update_callbacks_.map (fun cb => SceneEvent.update_callback cb UPDATE_GEOMETRY) ++
            [SceneEvent.notify_all]) ∧
      (attachObjectCallback m att transforms now_tf now).2 =
        (updateFrameTransforms m transforms now_tf).2 ++
          [SceneEvent.processAttachedCollisionObjectMsg att] ++
          (m.update_callbacks_.map (fun cb => SceneEvent.update_callback cb UPDATE_GEOMETRY) ++
            [SceneEvent.notify_all]) ∧
      (newPlanningSceneWorldCallback m world transforms now_tf now).2 =
        (updateFrameTransforms m transforms now_tf).2 ++
          ([SceneEvent.clearObjects,
            SceneEvent.processPlanningSceneWorldMsg world.collision_objects] ++
            (if m.octomap_monitor_ && world.octomap_data.isEmpty then [SceneEvent.octomap_clear]
              else [])) ++
          (m.update_callbacks_.map (fun cb => SceneEvent.update_callback cb UPDATE_SCENE) ++
            [SceneEvent.notify_all]) ∧
      (updateFrameTransforms m transforms now_tf).2 =
        (if m.tf_buffer_ then
          SceneEvent.setTransforms transforms ::
            (m.update_callbacks_.map
                (fun cb => SceneEvent.update_callback cb UPDATE_TRANSFORMS) ++
              [SceneEvent.notify_all])
         else []) ∧
      (collisionObjectCallback m obj transforms now_tf now).1.last_update_time_ = now ∧
      (attachObjectCallback m att transforms now_tf now).1.last_update_time_ = now ∧
      (newPlanningSceneWorldCallback m world transforms now_tf now).1.last_update_time_ = now) ∧
    (∀ a csm s rs, m.scene_ = some a → m.current_state_monitor_ = some csm →
      m.scenes[a]? = some s → getCurrentState m.scenes m.scenes.length a = some rs →
      ∃ r, updateSceneWithCurrentState m = some r ∧
        r.2 = m.update_callbacks_.map (fun cb => SceneEvent.update_callback cb UPDATE_STATE) ++
          [SceneEvent.notify_all] ∧
        r.1.last_robot_motion_time_ = csm.current_state_time_ ∧
        r.1.last_update_time_ = csm.current_state_time_ ∧
        (r.1.scenes[a]?).map PlanningScene.robot_state_
          = some (some (setToCurrentState csm rs)) ∧
        (setToCurrentState csm rs).position = csm.robot_state_.position ∧
        r.1.scene_ = some a) ∧
    (m.current_state_monitor_ = none → updateSceneWithCurrentState m = some (m, [])) ∧
    (m.scene_ = none →
      collisionObjectCallback m obj transforms now_tf now = (m, []) ∧
      attachObjectCallback m att transforms now_tf now = (m, []) ∧
      newPlanningSceneWorldCallback m world transforms now_tf now = (m, [])) := by
  have hcb : (updateFrameTransforms m transforms now_tf).1.update_callbacks_
      = m.update_callbacks_ := by
    unfold updateFrameTransforms
    by_cases htf : m.tf_buffer_ = true
    · cases hs : m.scene_ <;> simp [htf, triggerSceneUpdateEvent]
    · simp [htf]
  have hoct : (updateFrameTransforms m transforms now_tf).1.octomap_monitor_
      = m.octomap_monitor_ := by
    unfold updateFrameTransforms
    by_cases htf : m.tf_buffer_ = true
    · cases hs : m.scene_ <;> simp [htf, triggerSceneUpdateEvent]
    · simp [htf]
  refine ⟨?_, ?_, ?_, ?_⟩
  · intro a hs
    refine ⟨?_, ?_, ?_, ?_, ?_, ?_, ?_⟩
    · simp only [collisionObjectCallback, hs, triggerSceneUpdateEvent, hcb]
    · simp only [attachObjectCallback, hs, triggerSceneUpdateEvent, hcb]
    · simp only [newPlanningSceneWorldCallback, hs, triggerSceneUpdateEvent, hcb, hoct]
    · unfold updateFrameTransforms
      by_cases htf : m.tf_buffer_ = true
      · simp [htf, hs, triggerSceneUpdateEvent]
      · simp [htf]
    · simp only [collisionObjectCallback, hs, triggerSceneUpdateEvent]
    · simp only [attachObjectCallback, hs, triggerSceneUpdateEvent]
    · simp only [newPlanningSceneWorldCallback, hs, triggerSceneUpdateEvent]
  · intro a csm s rs hs hc hsa hrs
    unfold updateSceneWithCurrentState
    simp only [hc, hs, hsa, hrs]
    refine ⟨_, rfl, ?_, rfl, rfl, ?_, ?_, rfl⟩
    · simp [triggerSceneUpdateEvent]
    · have hlt : a < m.scenes.length := by
        rcases Nat.lt_or_ge a m.scenes.length with h | h
        · exact h
        · rw [List.getElem?_eq_none h] at hsa; cases hsa
      simp [triggerSceneUpdateEvent, getCurrentStateTime, List.getElem?_set, hlt]
    · unfold setToCurrentState RobotState.setVariablePositions RobotState.setVariableVelocities
        RobotState.setVariableAccelerations RobotState.setVariableEffort
      by_cases h1 : csm.copy_dynamics_ = true <;>
        by_cases h2 : csm.robot_state_.has_velocity_ = true <;>
        by_cases h3 : csm.robot_state_.has_acceleration_ = true <;>
        by_cases h4 : csm.robot_state_.has_effort_ = true <;>
        simp [h1, h2, h3, h4]
  · intro hc
    unfold updateSceneWithCurrentState
    simp [hc]
  · intro hs
    simp [collisionObjectCallback, attachObjectCallback, newPlanningSceneWorldCallback, hs]

/-- Witness of C20: on the example monitor with a transform buffer and a state monitor, a
collision-object edit produces the transform refresh (reported as TRANSFORMS), the edit
and the report of GEOMETRY, in this order; a state refresh reports STATE and sets the
robot motion time of the scene to the state time `100` of the state monitor; without a
scene the edit does nothing. -/
theorem update_sources_report_their_category_witness :
    (collisionObjectCallback exampleTrackedSceneMonitor { id := "box", operation := 0 }
        ["odom"] 5 6).2 =
      [SceneEvent.setTransforms ["odom"],
        SceneEvent.update_callback 0 UPDATE_TRANSFORMS,
        SceneEvent.update_callback 1 UPDATE_TRANSFORMS, SceneEvent.notify_all,
        SceneEvent.processCollisionObjectMsg { id := "box", operation := 0 },
        SceneEvent.update_callback 0 UPDATE_GEOMETRY,
        SceneEvent.update_callback 1 UPDATE_GEOMETRY, SceneEvent.notify_all] ∧
    (∃ r, updateSceneWithCurrentState exampleTrackedSceneMonitor = some r ∧
      r.2 = [SceneEvent.update_callback 0 UPDATE_STATE,
        SceneEvent.update_callback 1 UPDATE_STATE, SceneEvent.notify_all] ∧
      r.1.last_robot_motion_time_ = 100) ∧
    collisionObjectCallback { exampleTrackedSceneMonitor with scene_ := none }
        { id := "box", operation := 0 } ["odom"] 5 6
      = ({ exampleTrackedSceneMonitor with scene_ := none }, []) := by
  have h := update_sources_report_their_category exampleTrackedSceneMonitor
    { id := "box", operation := 0 } { link_name := "hand", object := { id := "box", operation := 0 } }
    { collision_objects := [], octomap_data := [] } ["odom"] 5 6
  have h0 := update_sources_report_their_category
    { exampleTrackedSceneMonitor with scene_ := none }
    { id := "box", operation := 0 } { link_name := "hand", object := { id := "box", operation := 0 } }
    { collision_objects := [], octomap_data := [] } ["odom"] 5 6
  refine ⟨?_, ?_, (h0.2.2.2 rfl).1⟩
  · obtain ⟨h1, -, -, h4, -⟩ := h.1 0 rfl
    rw [h1, h4]
    rfl
  · obtain ⟨r, hr, e1, e2, -⟩ := h.2.1 0 agedMonitor _ _ rfl rfl rfl rfl
    exact ⟨r, hr, e1, e2⟩

/-! ## The throttle of the state refresh -/

/-- One state event: the interval is kept, and either no refresh is made and the stored
refresh time is kept, or a refresh is made and the stored refresh time is at least the
interval after the former one. -/
theorem onStateUpdate_throttle_spec (m : PlanningSceneMonitor) (n : WallTime) :
    (onStateUpdate_throttle m n).1.dt_state_update_ = m.dt_state_update_ ∧
    ((onStateUpdate_throttle m n).2 = false →
      (onStateUpdate_throttle m n).1.last_robot_state_update_wall_time_
        = m.last_robot_state_update_wall_time_) ∧
    ((onStateUpdate_throttle m n).2 = true →
      m.last_robot_state_update_wall_time_ + m.dt_state_update_
        ≤ (onStateUpdate_throttle m n).1.last_robot_state_update_wall_time_) := by
  unfold onStateUpdate_throttle
  by_cases h : n - m.last_robot_state_update_wall_time_ < m.dt_state_update_
  · simp [h]
  · simp only [h, if_false, true_and, Bool.true_eq_false, false_implies, forall_const]
    linarith [not_lt.mp h]

theorem stateUpdateTimerCallback_throttle_spec (m : PlanningSceneMonitor) (n n2 : WallTime)
    (hn : n ≤ n2) :
    (stateUpdateTimerCallback_throttle m n n2).1.dt_state_update_ = m.dt_state_update_ ∧
    ((stateUpdateTimerCallback_throttle m n n2).2 = false →
      (stateUpdateTimerCallback_throttle m n n2).1.last_robot_state_update_wall_time_
        = m.last_robot_state_update_wall_time_) ∧
    ((stateUpdateTimerCallback_throttle m n n2).2 = true →
      m.last_robot_state_update_wall_time_ + m.dt_state_update_
        ≤ (stateUpdateTimerCallback_throttle m n n2).1.last_robot_state_update_wall_time_) := by
  unfold stateUpdateTimerCallback_throttle
  by_cases hp : m.state_update_pending_ = true
  · by_cases h : n - m.last_robot_state_update_wall_time_ ≥ m.dt_state_update_
    · simp only [hp, if_true, Bool.true_and, decide_eq_true_eq, h, true_and,
        Bool.true_eq_false, false_implies, forall_const]
      linarith
    · simp [hp, h]
  · simp [hp]

/-- The name edit of `monitorDiffs(false)` undoes the name edit of `diff()`. -/
theorem removeFinalPlus_append_plus (s : String) : removeFinalPlus (s ++ "+") = s := by
  have hd : (s ++ "+").data = s.data ++ ['+'] := by
    rw [String.data_append]
  have hne : (s ++ "+").isEmpty = false := by
    cases h : (s ++ "+").isEmpty with
    | false => rfl
    | true =>
      have := (String.isEmpty_iff _).mp h
      have h2 := congrArg String.data this
      rw [hd] at h2
      simp at h2
  have hback : (s ++ "+").back = '+' := by
    rw [String.back_eq, hd]
    simp
  have hlen : (s ++ "+").length = s.data.length + 1 := by
    show (s ++ "+").data.length = _
    rw [hd]; simp
  unfold removeFinalPlus
  rw [hne, hback, hlen, String.take_eq, hd]
  simp

theorem lt_length_of_getElem?_eq_some {α : Type} (l : List α) (a : Nat) (s : α)
    (h : l[a]? = some s) : a < l.length := by
  rcases Nat.lt_or_ge a l.length with hlt | hge
  · exact hlt
  · rw [List.getElem?_eq_none hge] at h; cases h

/-- The robot state and the parts of a scene without a parent are its own. -/
theorem getCurrentState_root (scenes : List PlanningScene) (a fuel : Nat) (s : PlanningScene)
    (hsa : scenes[a]? = some s) (hp : s.parent_ = none) :
    getCurrentState scenes (fuel + 1) a = s.robot_state_ ∧
    ∀ c, getComponent scenes c (fuel + 1) a = s.components_ c := by
  constructor
  · simp only [getCurrentState, hsa, hp]
    cases s.robot_state_ <;> rfl
  · intro c
    simp only [getComponent, hsa, hp]
    cases s.components_ c <;> rfl

/-- A diff that holds nothing itself shows the robot state and the parts of its parent. -/
theorem getCurrentState_empty_diff (scenes : List PlanningScene) (n a fuel : Nat)
    (d : PlanningScene) (hd : scenes[n]? = some d) (hp : d.parent_ = some a)
    (hr : d.robot_state_ = none) (hc : ∀ c, d.components_ c = none) :
    getCurrentState scenes (fuel + 1) n = getCurrentState scenes fuel a ∧
    ∀ c, getComponent scenes c (fuel + 1) n = getComponent scenes c fuel a := by
  constructor
  · simp only [getCurrentState, hd, hp, hr]
  · intro c
    simp only [getComponent, hd, hp, hc c]

/-- What `decoupleParent` leaves at the address it is called on, and that it leaves every
other scene object as it is. -/
theorem decoupleParent_spec (scenes : List PlanningScene) (a : Nat) (s : PlanningScene)
    (hsa : scenes[a]? = some s) :
    (decoupleParent scenes a).length = scenes.length ∧
    (decoupleParent scenes a)[a]? =
      some { s with
        parent_ := none,
        robot_state_ := getCurrentState scenes scenes.length a,
        components_ := fun c => getComponent scenes c scenes.length a } ∧
    (∀ b, b ≠ a → (decoupleParent scenes a)[b]? = scenes[b]?) := by
  have hlt := lt_length_of_getElem?_eq_some scenes a s hsa
  cases hp : s.parent_ with
  | none =>
    have hdec : decoupleParent scenes a = scenes := by
      unfold decoupleParent
      simp only [hsa, hp]
    obtain ⟨k, hk⟩ : ∃ k, scenes.length = k + 1 := ⟨scenes.length - 1, by omega⟩
    obtain ⟨g1, g2⟩ := getCurrentState_root scenes a k s hsa hp
    rw [hdec]
    refine ⟨rfl, ?_, fun _ _ => rfl⟩
    rw [hsa, hk, g1]
    have : (fun c => getComponent scenes c (k + 1) a) = s.components_ := funext g2
    rw [this, ← hp]
  | some p =>
    have hdec : decoupleParent scenes a =
        scenes.set a
          { s with
            parent_ := none,
            robot_state_ := getCurrentState scenes scenes.length a,
            components_ := fun c => getComponent scenes c scenes.length a } := by
      unfold decoupleParent
      simp only [hsa, hp]
    rw [hdec]
    refine ⟨by simp, ?_, ?_⟩
    · simp [List.getElem?_set, hlt]
    · intro b hb
      simp [List.getElem?_set, Ne.symm hb]

/-- What the locked block of `monitorDiffs(false)` does to a monitor whose scene pointer is
set. -/
theorem monitorDiffs_decouple_spec (m : PlanningSceneMonitor) (n : Nat) (c : PlanningScene)
    (hs : m.scene_ = some n) (hc : m.scenes[n]? = some c) :
    (monitorDiffs_decouple m).scene_ = some n ∧
    (monitorDiffs_decouple m).parent_scene_ = none ∧
    (monitorDiffs_decouple m).scenes.length = m.scenes.length ∧
    (monitorDiffs_decouple m).publish_planning_scene_ = m.publish_planning_scene_ ∧
    (monitorDiffs_decouple m).scenes[n]? =
      some { name_ := removeFinalPlus c.name_,
             parent_ := none,
             robot_state_ := getCurrentState m.scenes m.scenes.length n,
             components_ := fun k => getComponent m.scenes k m.scenes.length n } := by
  obtain ⟨d1, d2, -⟩ := decoupleParent_spec m.scenes n c hc
  have hlt := lt_length_of_getElem?_eq_some m.scenes n c hc
  have hform : monitorDiffs_decouple m =
      { m with
        scenes := (decoupleParent m.scenes n).set n
          { name_ := removeFinalPlus c.name_,
            parent_ := none,
            robot_state_ := getCurrentState m.scenes m.scenes.length n,
            components_ := fun k => getComponent m.scenes k m.scenes.length n },
        parent_scene_ := none } := by
    unfold monitorDiffs_decouple
    simp only [hs, d2]
  rw [hform]
  refine ⟨hs, rfl, ?_, rfl, ?_⟩
  · simp [d1]
  · simp [List.getElem?_set, d1, hlt]

/-- What `monitorDiffs(true)` does to a monitor whose scene pointer is set. -/
theorem monitorDiffs_couple_spec (m : PlanningSceneMonitor) (a : Nat) (s0 : PlanningScene)
    (hs : m.scene_ = some a) (hsa : m.scenes[a]? = some s0) :
    (monitorDiffs_couple m).scene_ = some m.scenes.length ∧
    (monitorDiffs_couple m).parent_scene_ = some a ∧
    (monitorDiffs_couple m).scenes.length = m.scenes.length + 1 ∧
    (monitorDiffs_couple m).publish_planning_scene_ = m.publish_planning_scene_ ∧
    (monitorDiffs_couple m).scenes[m.scenes.length]? =
      some { name_ := s0.name_ ++ "+", parent_ := some a, robot_state_ := none,
             components_ := fun _ => none } ∧
    (monitorDiffs_couple m).scenes[a]? =
      some { s0 with
        parent_ := none,
        robot_state_ := getCurrentState m.scenes m.scenes.length a,
        components_ := fun c => getComponent m.scenes c m.scenes.length a } := by
  obtain ⟨d1, d2, -⟩ := decoupleParent_spec m.scenes a s0 hsa
  have hlt := lt_length_of_getElem?_eq_some m.scenes a s0 hsa
  have hform : monitorDiffs_couple m =
      { m with
        scenes := decoupleParent m.scenes a ++
          [{ name_ := s0.name_ ++ "+", parent_ := some a, robot_state_ := none,
             components_ := fun _ => none }],
        parent_scene_ := some a,
        scene_ := some (decoupleParent m.scenes a).length } := by
    unfold monitorDiffs_couple diff
    simp only [hs, d2, Option.map_some', Option.getD_some]
  rw [hform]
  refine ⟨by simp [d1], rfl, by simp [d1], rfl, ?_, ?_⟩
  · simp only []
    rw [← d1, List.getElem?_append_right (le_refl _)]
    simp
  · simp only []
    rw [List.getElem?_append_left (by rw [d1]; exact hlt), d2]

/-- The round trip `monitorDiffs(true)`, `monitorDiffs(false)` on a monitor whose scene
pointer is set: the coupled scene `c` is a diff of the former scene named with a final
`+`, the scene `s2` after decoupling is a root that shows the robot state and the parts
that the coupled scene showed, and its name is the former name (less one more final `+`
when the publishing thread existed). -/
theorem monitorDiffs_round_trip_aux (m : PlanningSceneMonitor) (a : Nat) (s0 : PlanningScene)
    (hs : m.scene_ = some a) (hsa : m.scenes[a]? = some s0) :
    ∃ c s2,
      (monitorDiffs m true).scene_ = some m.scenes.length ∧
      (monitorDiffs m true).parent_scene_ = some a ∧
      (monitorDiffs m true).scenes[m.scenes.length]? = some c ∧
      c.parent_ = some a ∧ c.name_ = s0.name_ ++ "+" ∧
      (monitorDiffs (monitorDiffs m true) false).scene_ = some m.scenes.length ∧
      (monitorDiffs (monitorDiffs m true) false).parent_scene_ = none ∧
      (monitorDiffs (monitorDiffs m true) false).scenes[m.scenes.length]? = some s2 ∧
      s2.parent_ = none ∧
      getCurrentState (monitorDiffs (monitorDiffs m true) false).scenes
          (monitorDiffs (monitorDiffs m true) false).scenes.length m.scenes.length
        = getCurrentState (monitorDiffs m true).scenes (monitorDiffs m true).scenes.length
            m.scenes.length ∧
      (∀ k, getComponent (monitorDiffs (monitorDiffs m true) false).scenes k
          (monitorDiffs (monitorDiffs m true) false).scenes.length m.scenes.length
        = getComponent (monitorDiffs m true).scenes k (monitorDiffs m true).scenes.length
            m.scenes.length) ∧
      s2.name_ = (if m.publish_planning_scene_ then removeFinalPlus s0.name_ else s0.name_) := by
  obtain ⟨c1, c2, c3, c4, c5, -⟩ := monitorDiffs_couple_spec m a s0 hs hsa
  have hM1 : monitorDiffs m true = monitorDiffs_couple m := by
    unfold monitorDiffs
    simp [hs]
  rw [hM1]
  generalize monitorDiffs_couple m = M1 at c1 c2 c3 c4 c5 ⊢
  -- one decoupling of the coupled monitor
  obtain ⟨e1, e2, e3, e4, e5⟩ := monitorDiffs_decouple_spec M1 m.scenes.length _ c1 c5
  rw [removeFinalPlus_append_plus] at e5
  simp only [c3] at e5
  have hroot1 := getCurrentState_root (monitorDiffs_decouple M1).scenes m.scenes.length
    m.scenes.length _ e5 rfl
  by_cases hpub : m.publish_planning_scene_ = true
  · -- the publishing thread exists: stopPublishingPlanningScene decouples, then the block again
    have hstop : stopPublishingPlanningScene M1 =
        monitorDiffs_decouple { M1 with publish_planning_scene_ := false } := by
      unfold stopPublishingPlanningScene
      simp [c4, hpub, c1]
    obtain ⟨f1, f2, f3, f4, f5⟩ := monitorDiffs_decouple_spec
      { M1 with publish_planning_scene_ := false } m.scenes.length _ c1 c5
    rw [removeFinalPlus_append_plus] at f5
    simp only [c3] at f5
    have hM2 : monitorDiffs M1 false =
        monitorDiffs_decouple (monitorDiffs_decouple { M1 with publish_planning_scene_ := false }) := by
      unfold monitorDiffs
      simp [c1, c4, hpub, hstop]
    obtain ⟨g1, g2, g3, -, g5⟩ := monitorDiffs_decouple_spec
      (monitorDiffs_decouple { M1 with publish_planning_scene_ := false }) m.scenes.length _ f1 f5
    have hrootf := getCurrentState_root
      (monitorDiffs_decouple { M1 with publish_planning_scene_ := false }).scenes m.scenes.length
      m.scenes.length _ f5 rfl
    have hlen : (monitorDiffs_decouple { M1 with publish_planning_scene_ := false }).scenes.length
        = m.scenes.length + 1 := by rw [f3]; exact c3
    rw [hlen, hrootf.1] at g5
    have hcomp : (fun k => getComponent
        (monitorDiffs_decouple { M1 with publish_planning_scene_ := false }).scenes k
        (m.scenes.length + 1) m.scenes.length)
        = fun k => getComponent M1.scenes k (m.scenes.length + 1) m.scenes.length := by
      funext k; exact hrootf.2 k
    rw [hcomp] at g5
    have hrootg := getCurrentState_root
      (monitorDiffs_decouple (monitorDiffs_decouple
        { M1 with publish_planning_scene_ := false })).scenes m.scenes.length
      m.scenes.length _ g5 rfl
    rw [hM2]
    refine ⟨_, _, c1, c2, c5, rfl, rfl, g1, g2, g5, rfl, ?_, ?_, ?_⟩
    · rw [g3, hlen, hrootg.1]
      simp only [c3]
    · intro k
      rw [g3, hlen, hrootg.2 k]
      simp only [c3]
    · simp [hpub]
  · have hM2 : monitorDiffs M1 false = monitorDiffs_decouple M1 := by
      unfold monitorDiffs
      simp [c1, c4, hpub]
    rw [hM2]
    refine ⟨_, _, c1, c2, c5, rfl, rfl, e1, e2, e5, rfl, ?_, ?_, ?_⟩
    · rw [e3, c3, hroot1.1]
    · intro k
      rw [e3, c3, hroot1.2 k]
    · simp [hpub]

/-- C11, counterexample: the example monitor holds the root scene named `scene`; after
`monitorDiffs(true)` the coupled scene is named `scene+`, and after `monitorDiffs(false)`
the current scene is named `scene`: the name is not the name of the coupled scene at the
moment of decoupling. -/
theorem monitorDiffs_round_trip_changes_name :
    (monitorDiffs (exampleSceneMonitor UPDATE_NONE) true).scene_ = some 1 ∧
    ((monitorDiffs (exampleSceneMonitor UPDATE_NONE) true).scenes[1]?).map PlanningScene.name_
      = some "scene+" ∧
    (monitorDiffs (monitorDiffs (exampleSceneMonitor UPDATE_NONE) true) false).scene_ = some 1 ∧
    ((monitorDiffs (monitorDiffs (exampleSceneMonitor UPDATE_NONE) true) false).scenes[1]?).map
      PlanningScene.name_ = some "scene" ∧
    ("scene" : String) ≠ "scene+" := by
  obtain ⟨c, s2, h1, -, h3, -, h5, h6, -, h8, -, -, -, h12⟩ :=
    monitorDiffs_round_trip_aux (exampleSceneMonitor UPDATE_NONE) 0 _ rfl rfl
  have hlen : (exampleSceneMonitor UPDATE_NONE).scenes.length = 1 := rfl
  rw [hlen] at h1 h3 h6 h8
  have hp : (exampleSceneMonitor UPDATE_NONE).publish_planning_scene_ = false := rfl
  rw [hp] at h12
  refine ⟨h1, ?_, h6, ?_, by decide⟩
  · rw [h3]
    simp only [Option.map_some', h5]
    rfl
  · rw [h8]
    simp only [Option.map_some']
    rw [h12]
    rfl

/-- C11, amended: for a monitor with a scene, after `monitorDiffs(true)` followed by
`monitorDiffs(false)` the current scene is a root scene (it has no parent and the
monitor's parent reference is empty) that shows the robot state and every part of the
content that the coupled scene `c` showed at the moment of decoupling. Its name is not the
name of the coupled scene, which is the name `s0.name_` the scene had before
`monitorDiffs(true)` followed by the `+` that `diff()` appended: when no publishing thread
exists the name is `s0.name_`; when the publishing thread exists, `monitorDiffs(false)`
runs its block twice (once through `stopPublishingPlanningScene`) and the name is
`s0.name_` with one final `+` removed, if it ends in one. -/
theorem monitorDiffs_round_trip (m : PlanningSceneMonitor) (a : Nat) (s0 : PlanningScene)
    (hs : m.scene_ = some a) (hsa : m.scenes[a]? = some s0) :
    ∃ c s2,
      (monitorDiffs m true).scene_ = some m.scenes.length ∧
      (monitorDiffs m true).parent_scene_ = some a ∧
      (monitorDiffs m true).scenes[m.scenes.length]? = some c ∧
      c.parent_ = some a ∧ c.name_ = s0.name_ ++ "+" ∧
      (monitorDiffs (monitorDiffs m true) false).scene_ = some m.scenes.length ∧
      (monitorDiffs (monitorDiffs m true) false).parent_scene_ = none ∧
      (monitorDiffs (monitorDiffs m true) false).scenes[m.scenes.length]? = some s2 ∧
      s2.parent_ = none ∧
      getCurrentState (monitorDiffs (monitorDiffs m true) false).scenes
          (monitorDiffs (monitorDiffs m true) false).scenes.length m.scenes.length
        = getCurrentState (monitorDiffs m true).scenes (monitorDiffs m true).scenes.length
            m.scenes.length ∧
      (∀ k, getComponent (monitorDiffs (monitorDiffs m true) false).scenes k
          (monitorDiffs (monitorDiffs m true) false).scenes.length m.scenes.length
        = getComponent (monitorDiffs m true).scenes k (monitorDiffs m true).scenes.length
            m.scenes.length) ∧
      s2.name_ = (if m.publish_planning_scene_ then removeFinalPlus s0.name_ else s0.name_) :=
  monitorDiffs_round_trip_aux m a s0 hs hsa

/-- Witness of the amended C11: the example monitor with the root scene named `scene` and
no publishing thread ends the round trip at a root scene named `scene`, with the robot
state of the coupled scene; the example monitor with a publishing thread and the current
scene named `scene+` ends the round trip at a scene named `scene`. -/
theorem monitorDiffs_round_trip_witness :
    (monitorDiffs (monitorDiffs (exampleSceneMonitor UPDATE_NONE) true) false).parent_scene_
      = none ∧
    (monitorDiffs (monitorDiffs (exampleSceneMonitor UPDATE_NONE) true) false).scene_ = some 1 ∧
    getCurrentState (monitorDiffs (monitorDiffs (exampleSceneMonitor UPDATE_NONE) true) false).scenes
        (monitorDiffs (monitorDiffs (exampleSceneMonitor UPDATE_NONE) true) false).scenes.length 1
      = getCurrentState (monitorDiffs (exampleSceneMonitor UPDATE_NONE) true).scenes
          (monitorDiffs (exampleSceneMonitor UPDATE_NONE) true).scenes.length 1 ∧
    ((monitorDiffs (monitorDiffs (exampleSceneMonitor UPDATE_NONE) true) false).scenes[1]?).map
      PlanningScene.name_ = some "scene" ∧
    ((exampleCoupledMonitor UPDATE_NONE UPDATE_NONE).scenes[1]?).map PlanningScene.name_
      = some "scene+" ∧
    ((monitorDiffs (monitorDiffs (exampleCoupledMonitor UPDATE_NONE UPDATE_NONE) true)
      false).scenes[2]?).map PlanningScene.name_ = some "scene" := by
  obtain ⟨c, s2, -, -, -, -, -, h6, h7, h8, -, h10, -, h12⟩ :=
    monitorDiffs_round_trip (exampleSceneMonitor UPDATE_NONE) 0 _ rfl rfl
  obtain ⟨c', s2', -, -, -, -, -, -, -, g8, -, -, -, g12⟩ :=
    monitorDiffs_round_trip (exampleCoupledMonitor UPDATE_NONE UPDATE_NONE) 1
      { name_ := "scene+", parent_ := some 0, robot_state_ := none,
        components_ := fun _ => none } rfl rfl
  have hlen : (exampleSceneMonitor UPDATE_NONE).scenes.length = 1 := rfl
  have hlen2 : (exampleCoupledMonitor UPDATE_NONE UPDATE_NONE).scenes.length = 2 := rfl
  have hp : (exampleSceneMonitor UPDATE_NONE).publish_planning_scene_ = false := rfl
  have hp2 : (exampleCoupledMonitor UPDATE_NONE UPDATE_NONE).publish_planning_scene_ = true :=
    rfl
  rw [hlen] at h8
  rw [hlen2] at g8
  rw [hp] at h12
  rw [hp2] at g12
  have hrm : removeFinalPlus "scene+" = "scene" := by decide
  refine ⟨h7, h6, h10, ?_, rfl, ?_⟩
  · rw [h8]
    simp only [Option.map_some']
    rw [h12]
    rfl
  · rw [g8]
    simp only [Option.map_some']
    rw [g12]
    simp only [if_true]
    rw [hrm]

/-- What `usePlanningSceneMsg` leaves at the address it is called on. -/
theorem usePlanningSceneMsg_spec (absorb : PlanningSceneMsg → PlanningScene → PlanningScene)
    (scenes : List PlanningScene) (a : Nat) (s0 : PlanningScene) (scene : PlanningSceneMsg)
    (hsa : scenes[a]? = some s0) :
    (usePlanningSceneMsg absorb scenes a scene).length = scenes.length ∧
    (scene.is_diff = true →
      (usePlanningSceneMsg absorb scenes a scene)[a]? =
        some { absorb scene s0 with
          parent_ := s0.parent_,
          name_ := if scene.name.isEmpty then s0.name_ else scene.name }) ∧
    (scene.is_diff = false →
      (usePlanningSceneMsg absorb scenes a scene)[a]? =
        some { absorb scene
            { s0 with
              parent_ := none,
              robot_state_ := getCurrentState scenes scenes.length a,
              components_ := fun c => getComponent scenes c scenes.length a } with
          parent_ := none, name_ := scene.name }) := by
  have hlt := lt_length_of_getElem?_eq_some scenes a s0 hsa
  obtain ⟨d1, d2, -⟩ := decoupleParent_spec scenes a s0 hsa
  cases hd : scene.is_diff with
  | true =>
    have hform : usePlanningSceneMsg absorb scenes a scene =
        scenes.set a { absorb scene s0 with
          parent_ := s0.parent_,
          name_ := if scene.name.isEmpty then s0.name_ else scene.name } := by
      unfold usePlanningSceneMsg
      simp only [hd, if_true, hsa]
    rw [hform]
    refine ⟨by simp, ?_, ?_⟩
    · intro _; simp [List.getElem?_set, hlt]
    · intro h; cases h
  | false =>
    have hform : usePlanningSceneMsg absorb scenes a scene =
        (decoupleParent scenes a).set a { absorb scene
            { s0 with
              parent_ := none,
              robot_state_ := getCurrentState scenes scenes.length a,
              components_ := fun c => getComponent scenes c scenes.length a } with
          parent_ := none, name_ := scene.name } := by
      unfold usePlanningSceneMsg
      simp only [hd, Bool.false_eq_true, if_false, d2]
    rw [hform]
    refine ⟨by simp [d1], ?_, ?_⟩
    · intro h; cases h
    · intro _; simp [List.getElem?_set, d1, hlt]

/-- The scene store and the two scene pointers after `newPlanningSceneMessage` on a
monitor with a scene: re-coupled when the message is not a diff and a parent exists, the
pointers as before otherwise. -/
theorem newPlanningSceneMessage_pointers (isEmptyWorld : PlanningSceneWorldMsg → Bool)
    (isEmptyRobotState : RobotStateMsg → Bool)
    (absorb : PlanningSceneMsg → PlanningScene → PlanningScene)
    (accepted : PlanningSceneMsg → Bool)
    (m : PlanningSceneMonitor) (scene : PlanningSceneMsg) (now : Time) (a : Nat)
    (hs : m.scene_ = some a) :
    ((scene.is_diff = false ∧ m.parent_scene_.isSome = true) →
      (newPlanningSceneMessage isEmptyWorld isEmptyRobotState absorb accepted m scene now).1.scenes
        = (diff (usePlanningSceneMsg absorb m.scenes a scene) a).1 ∧
      (newPlanningSceneMessage isEmptyWorld isEmptyRobotState absorb accepted m scene
        now).1.parent_scene_ = some a ∧
      (newPlanningSceneMessage isEmptyWorld isEmptyRobotState absorb accepted m scene
        now).1.scene_ = some (usePlanningSceneMsg absorb m.scenes a scene).length) ∧
    (¬ (scene.is_diff = false ∧ m.parent_scene_.isSome = true) →
      (newPlanningSceneMessage isEmptyWorld isEmptyRobotState absorb accepted m scene now).1.scenes
        = usePlanningSceneMsg absorb m.scenes a scene ∧
      (newPlanningSceneMessage isEmptyWorld isEmptyRobotState absorb accepted m scene
        now).1.parent_scene_ = m.parent_scene_ ∧
      (newPlanningSceneMessage isEmptyWorld isEmptyRobotState absorb accepted m scene
        now).1.scene_ = some a) ∧
    (newPlanningSceneMessage isEmptyWorld isEmptyRobotState absorb accepted m scene
      now).1.last_robot_motion_time_ = scene.robot_state.joint_state.stamp := by
  unfold newPlanningSceneMessage
  simp only [hs, triggerSceneUpdateEvent]
  refine ⟨?_, ?_, ?_⟩
  · intro h
    have hc : (!scene.is_diff && m.parent_scene_.isSome) = true := by simp [h.1, h.2]
    simp [hc, diff]
  · intro h
    have hc : (!scene.is_diff && m.parent_scene_.isSome) = false := by
      cases hd : scene.is_diff <;> cases hp : m.parent_scene_.isSome <;> simp_all
    simp [hc, hs]
  · by_cases hc : (!scene.is_diff && m.parent_scene_.isSome) = true
    · simp [hc]
    · have hc2 : (!scene.is_diff && m.parent_scene_.isSome) = false := by simpa using hc
      simp [hc2]

/-- C12: on a monitor with a scene, applying a message that is not a diff while a parent
scene exists re-couples the live scene: afterwards the parent reference is the scene object
`a` that absorbed the message (a root carrying the name of the message), and the live scene
is a new object, a diff that holds nothing itself and whose parent is exactly `a` (a chain
of two distinct objects ending in a root); when no parent reference exists it stays empty
and the live scene stays the same object, a root after a message that is not a diff and
with its parent untouched after a diff; a diff message changes neither the parent
reference, nor the live scene pointer, nor the parent of the live scene. -/
theorem newPlanningSceneMessage_recouples (isEmptyWorld : PlanningSceneWorldMsg → Bool)
    (isEmptyRobotState : RobotStateMsg → Bool)
    (absorb : PlanningSceneMsg → PlanningScene → PlanningScene)
    (accepted : PlanningSceneMsg → Bool)
    (m : PlanningSceneMonitor) (scene : PlanningSceneMsg) (now : Time) (a : Nat)
    (s0 : PlanningScene) (hs : m.scene_ = some a) (hsa : m.scenes[a]? = some s0) :
    (scene.is_diff = false → m.parent_scene_ ≠ none →
      (newPlanningSceneMessage isEmptyWorld isEmptyRobotState absorb accepted m scene
        now).1.parent_scene_ = some a ∧
      (newPlanningSceneMessage isEmptyWorld isEmptyRobotState absorb accepted m scene
        now).1.scene_ = some m.scenes.length ∧
      a ≠ m.scenes.length ∧
      (newPlanningSceneMessage isEmptyWorld isEmptyRobotState absorb accepted m scene
        now).1.scenes.length = m.scenes.length + 1 ∧
      (∃ s1, (newPlanningSceneMessage isEmptyWorld isEmptyRobotState absorb accepted m scene
          now).1.scenes[a]? = some s1 ∧ s1.parent_ = none ∧ s1.name_ = scene.name ∧
        s1 = { absorb scene
            { s0 with
              parent_ := none,
              robot_state_ := getCurrentState m.scenes m.scenes.length a,
              components_ := fun c => getComponent m.scenes c m.scenes.length a } with
          parent_ := none, name_ := scene.name }) ∧
      (newPlanningSceneMessage isEmptyWorld isEmptyRobotState absorb accepted m scene
          now).1.scenes[m.scenes.length]? =
        some { name_ := scene.name ++ "+", parent_ := some a, robot_state_ := none,
               components_ := fun _ => none }) ∧
    (m.parent_scene_ = none →
      (newPlanningSceneMessage isEmptyWorld isEmptyRobotState absorb accepted m scene
        now).1.parent_scene_ = none ∧
      (newPlanningSceneMessage isEmptyWorld isEmptyRobotState absorb accepted m scene
        now).1.scene_ = some a ∧
      ∃ s1, (newPlanningSceneMessage isEmptyWorld isEmptyRobotState absorb accepted m scene
          now).1.scenes[a]? = some s1 ∧
        (scene.is_diff = false → s1.parent_ = none) ∧
        (scene.is_diff = true → s1.parent_ = s0.parent_)) ∧
    (scene.is_diff = true →
      (newPlanningSceneMessage isEmptyWorld isEmptyRobotState absorb accepted m scene
        now).1.parent_scene_ = m.parent_scene_ ∧
      (newPlanningSceneMessage isEmptyWorld isEmptyRobotState absorb accepted m scene
        now).1.scene_ = m.scene_ ∧
      (newPlanningSceneMessage isEmptyWorld isEmptyRobotState absorb accepted m scene
        now).1.scenes.length = m.scenes.length ∧
      ∃ s1, (newPlanningSceneMessage isEmptyWorld isEmptyRobotState absorb accepted m scene
          now).1.scenes[a]? = some s1 ∧ s1.parent_ = s0.parent_) := by
  have hlt := lt_length_of_getElem?_eq_some m.scenes a s0 hsa
  obtain ⟨u1, u2, u3⟩ := usePlanningSceneMsg_spec absorb m.scenes a s0 scene hsa
  obtain ⟨p1, p2, -⟩ := newPlanningSceneMessage_pointers isEmptyWorld isEmptyRobotState absorb
    accepted m scene now a hs
  refine ⟨?_, ?_, ?_⟩
  · intro hd hp
    have hps : m.parent_scene_.isSome = true := by
      cases h : m.parent_scene_ with
      | none => exact absurd h hp
      | some p => rfl
    obtain ⟨q1, q2, q3⟩ := p1 ⟨hd, hps⟩
    rw [q1, q2, q3, u1]
    refine ⟨rfl, rfl, by omega, ?_, ?_, ?_⟩
    · simp [diff, u1]
    · refine ⟨_, ?_, rfl, rfl, rfl⟩
      unfold diff
      simp only []
      rw [List.getElem?_append_left (by rw [u1]; exact hlt), u3 hd]
    · unfold diff
      simp only []
      rw [← u1, List.getElem?_append_right (le_refl _)]
      simp [u3 hd]
  · intro hp
    have hn : ¬ (scene.is_diff = false ∧ m.parent_scene_.isSome = true) := by
      rw [hp]; simp
    obtain ⟨q1, q2, q3⟩ := p2 hn
    rw [q1, q2, q3]
    refine ⟨hp, rfl, ?_⟩
    by_cases hd : scene.is_diff = true
    · refine ⟨_, u2 hd, ?_, fun _ => rfl⟩
      intro h
      rw [hd] at h
      cases h
    · have hd2 : scene.is_diff = false := by simpa using hd
      refine ⟨_, u3 hd2, fun _ => rfl, ?_⟩
      intro h
      rw [hd2] at h
      cases h
  · intro hd
    have hn : ¬ (scene.is_diff = false ∧ m.parent_scene_.isSome = true) := by
      rw [hd]; simp
    obtain ⟨q1, q2, q3⟩ := p2 hn
    rw [q1, q2, q3]
    exact ⟨rfl, hs.symm, u1, _, u2 hd, rfl⟩

/-- Witness of C12: the example monitor in coupled mode (live scene at address `1`, parent
at address `0`) receives a full scene message: the parent reference becomes the object `1`
that absorbed the message, and the live scene is the new object `2`, a diff of `1`. A diff
message leaves both pointers as they are. -/
theorem newPlanningSceneMessage_recouples_witness :
    (newPlanningSceneMessage exampleIsEmptyWorld exampleIsEmptyRobotState (fun _ s => s)
      (fun _ => true) (exampleCoupledMonitor UPDATE_STATE UPDATE_NONE) exampleFullSceneMsg
      9).1.parent_scene_ = some 1 ∧
    (newPlanningSceneMessage exampleIsEmptyWorld exampleIsEmptyRobotState (fun _ s => s)
      (fun _ => true) (exampleCoupledMonitor UPDATE_STATE UPDATE_NONE) exampleFullSceneMsg
      9).1.scene_ = some 2 ∧
    (newPlanningSceneMessage exampleIsEmptyWorld exampleIsEmptyRobotState (fun _ s => s)
      (fun _ => true) (exampleCoupledMonitor UPDATE_STATE UPDATE_NONE) exampleFullSceneMsg
      9).1.scenes[2]? =
        some { name_ := "fresh" ++ "+", parent_ := some 1, robot_state_ := none,
               components_ := fun _ => none } ∧
    (newPlanningSceneMessage exampleIsEmptyWorld exampleIsEmptyRobotState (fun _ s => s)
      (fun _ => true) (exampleCoupledMonitor UPDATE_STATE UPDATE_NONE) (stateOnlyDiff [])
      9).1.parent_scene_ = some 0 := by
  have h := newPlanningSceneMessage_recouples exampleIsEmptyWorld exampleIsEmptyRobotState
    (fun _ s => s) (fun _ => true) (exampleCoupledMonitor UPDATE_STATE UPDATE_NONE)
    exampleFullSceneMsg 9 1 _ rfl rfl
  have hd := newPlanningSceneMessage_recouples exampleIsEmptyWorld exampleIsEmptyRobotState
    (fun _ s => s) (fun _ => true) (exampleCoupledMonitor UPDATE_STATE UPDATE_NONE)
    (stateOnlyDiff []) 9 1 _ rfl rfl
  obtain ⟨h1, h2, -, -, -, h6⟩ := h.1 rfl (by decide)
  exact ⟨h1, h2, h6, (hd.2.2 rfl).1⟩

/-! ## Order of the events of `jointStateCallback` -/

theorem jointStateStep_flag_mono (js : JointState) (i : Nat) (st : CurrentStateMonitor × Bool)
    (h : st.2 = true) : (jointStateStep js i st).2 = true := by
  unfold jointStateStep
  split
  · exact h
  · split
    · exact h
    · simp only []
      split
      · split <;> rfl
      · exact h

theorem jointStateLoop_flag_mono (js : JointState) :
    ∀ (todo i : Nat) (st : CurrentStateMonitor × Bool),
      st.2 = true → (jointStateLoop js i todo st).2 = true := by
  intro todo
  induction todo with
  | zero => intro i st h; simpa [jointStateLoop] using h
  | succ n ih =>
    intro i st h
    simp only [jointStateLoop]
    exact ih (i + 1) _ (jointStateStep_flag_mono js i st h)

theorem jointStateStep_differs (js : JointState) (i : Nat) (st : CurrentStateMonitor × Bool)
    (jm : JointModel)
    (h : st.1.robot_model_.getJointModel (js.name.getD i "") = some jm)
    (hv : jm.variableCount = 1)
    (hp : js.position.getD i 0 ≠ st.1.robot_state_.position jm) :
    (jointStateStep js i st).2 = true := by
  unfold jointStateStep
  rw [h]
  simp only [hv, ne_eq, not_true_eq_false, if_false, RobotState.getJointPositions]
  rw [if_pos (fun e => hp e.symm)]
  split <;> rfl

/-- The loop sets `update` as soon as one entry of a known single-variable joint differs
from the position stored when the loop is entered. -/
theorem jointStateLoop_differs (js : JointState) :
    ∀ (todo i : Nat) (st : CurrentStateMonitor × Bool),
      (∃ k, i ≤ k ∧ k < i + todo ∧ ∃ jm,
        st.1.robot_model_.getJointModel (js.name.getD k "") = some jm ∧
        jm.variableCount = 1 ∧ js.position.getD k 0 ≠ st.1.robot_state_.position jm) →
      (jointStateLoop js i todo st).2 = true := by
  intro todo
  induction todo with
  | zero =>
    intro i st h
    obtain ⟨k, h1, h2, -⟩ := h
    omega
  | succ n ih =>
    intro i st h
    simp only [jointStateLoop]
    by_cases hsame : ∀ jm, st.1.robot_model_.getJointModel (js.name.getD i "") = some jm →
        jm.variableCount = 1 → js.position.getD i 0 = st.1.robot_state_.position jm
    · obtain ⟨s1, -⟩ := jointStateStep_same js i st hsame
      have hm := (jointStateStep_frame js i st).1
      obtain ⟨k, h1, h2, jm, g1, g2, g3⟩ := h
      apply ih
      have hki : k ≠ i := by
        intro e
        rw [e] at g1 g3
        exact g3 (hsame jm g1 g2)
      refine ⟨k, by omega, by omega, jm, ?_, g2, ?_⟩
      · rw [hm]; exact g1
      · rw [s1]; exact g3
    · push_neg at hsame
      obtain ⟨jm, g1, g2, g3⟩ := hsame
      exact jointStateLoop_flag_mono js n (i + 1) _ (jointStateStep_differs js i st jm g1 g2 g3)

/-- The traced loop runs as `jointStateLoop` does, and its trace holds, for every
iteration in order, the monitor that the loop has reached after that iteration. -/
theorem jointStateLoop_trace_eq (js : JointState) :
    ∀ (todo i : Nat) (s : (CurrentStateMonitor × Bool) × List (TraceStep × CurrentStateMonitor)),
      jointStateLoop_trace js i todo s =
        (jointStateLoop js i todo s.1,
          s.2 ++ (List.range todo).map
            (fun k => (TraceStep.merge (i + k), (jointStateLoop js i (k + 1) s.1).1))) := by
  intro todo
  induction todo with
  | zero =>
    intro i s
    simp [jointStateLoop_trace, jointStateLoop]
  | succ n ih =>
    intro i s
    simp only [jointStateLoop_trace, jointStateLoop]
    rw [ih (i + 1)]
    simp only [List.range_succ_eq_map, List.map_cons, List.map_map, List.append_assoc,
      List.singleton_append, Nat.add_zero, jointStateLoop]
    congr 2
    congr 1
    apply List.map_congr_left
    intro k _
    simp only [Function.comp, jointStateLoop]
    congr 2
    omega

/-- C23: for a well-formed update, the steps of `jointStateCallback`, in the order of the
statements of the source, are (1) the iterations `0, 1, ..., n - 1` of the merge loop, each
leaving the monitor that the loop has reached, and strictly after all of them (2) the
events of the call, each made with the monitor as the call leaves it, that is with every
merge of the update applied; (3) if some entry of a known single-variable joint carries a
position that differs from the stored one, these events are one call of every registered
callback, in registration order, each with the received message, followed by `notify_all`;
(4) in the monitor that the events find, every known single-variable joint named by the
update carries the stamp of the update; (5) changed or not, the last event is `notify_all`
and it is the only `notify_all`. The traced run returns the monitor that
`jointStateCallback` returns. -/
theorem jointStateCallback_observers_between_merge_and_notify
    (mon : CurrentStateMonitor) (joint_state : JointState)
    (hwf : joint_state.name.length = joint_state.position.length) :
    (jointStateCallback_trace mon joint_state).1 = (jointStateCallback mon joint_state).1 ∧
    (jointStateCallback_trace mon joint_state).2 =
      (List.range joint_state.name.length).map
        (fun i => (TraceStep.merge i,
          (jointStateLoop joint_state 0 (i + 1)
            ({ mon with current_state_time_ := joint_state.stamp }, false)).1)) ++
      (jointStateCallback mon joint_state).2.map
        (fun e => (TraceStep.event e, (jointStateCallback mon joint_state).1)) ∧
    ((∃ i, i < joint_state.name.length ∧ ∃ jm,
        mon.robot_model_.getJointModel (joint_state.name.getD i "") = some jm ∧
        jm.variableCount = 1 ∧
        joint_state.position.getD i 0 ≠ mon.robot_state_.position jm) →
      (jointStateCallback mon joint_state).2 =
        mon.update_callbacks_.map (fun cb => Event.update_callback cb joint_state)
          ++ [Event.notify_all]) ∧
    (∀ i, i < joint_state.name.length → ∀ jm,
      mon.robot_model_.getJointModel (joint_state.name.getD i "") = some jm →
      jm.variableCount = 1 →
      (jointStateCallback mon joint_state).1.joint_time_ jm = some joint_state.stamp) ∧
    (jointStateCallback mon joint_state).2.getLast? = some Event.notify_all ∧
    (jointStateCallback mon joint_state).2.count Event.notify_all = 1 := by
  have hsnd := jointStateCallback_snd mon joint_state hwf
  have hfst := jointStateCallback_fst mon joint_state hwf
  have htr := jointStateLoop_trace_eq joint_state joint_state.name.length 0
    (({ mon with current_state_time_ := joint_state.stamp }, false), [])
  refine ⟨?_, ?_, ?_, ?_, ?_, ?_⟩
  · rw [hfst]
    unfold jointStateCallback_trace
    simp only [hwf, ne_eq, not_true_eq_false, if_false]
    rw [← hwf, htr]
  · rw [hsnd, hfst]
    unfold jointStateCallback_trace
    simp only [hwf, ne_eq, not_true_eq_false, if_false]
    rw [← hwf, htr]
    simp only [List.nil_append, Nat.zero_add]
    split <;> simp
  · intro hd
    obtain ⟨i, hi, jm, g1, g2, g3⟩ := hd
    have hflag := jointStateLoop_differs joint_state joint_state.name.length 0
      ({ mon with current_state_time_ := joint_state.stamp }, false)
      ⟨i, Nat.zero_le i, by omega, jm, g1, g2, g3⟩
    rw [hsnd, hflag]
    simp
  · intro i hi jm hjm hv
    rw [hfst]
    exact jointStateLoop_time joint_state jm joint_state.name.length i _ hi hjm hv
  · rw [hsnd]
    simp
  · rw [hsnd]
    split
    · rw [List.count_append]
      have : List.count Event.notify_all
          (mon.update_callbacks_.map (fun cb => Event.update_callback cb joint_state)) = 0 := by
        rw [List.count_eq_zero]
        simp
      rw [this]
      rfl
    · rfl

/-- Witness of C23: the update `A = 1/2` at time `7` on a fresh monitor of the example arm
(stored `A = 0`, callbacks `0` and `1`): the steps are the merge of entry `0`, callback
`0`, callback `1`, then `notify_all`, and the monitor that each of the three events finds
holds `A = 1/2` with the stamp `7`. -/
theorem jointStateCallback_observers_between_merge_and_notify_witness :
    (jointStateCallback (freshMonitor exampleArm (1 / 1000000))
      (positionsMsg 7 ["A"] [1 / 2])).2 =
      [Event.update_callback 0 (positionsMsg 7 ["A"] [1 / 2]),
        Event.update_callback 1 (positionsMsg 7 ["A"] [1 / 2]), Event.notify_all] ∧
    (jointStateCallback_trace (freshMonitor exampleArm (1 / 1000000))
      (positionsMsg 7 ["A"] [1 / 2])).2.map Prod.fst =
      [TraceStep.merge 0,
        TraceStep.event (Event.update_callback 0 (positionsMsg 7 ["A"] [1 / 2])),
        TraceStep.event (Event.update_callback 1 (positionsMsg 7 ["A"] [1 / 2])),
        TraceStep.event Event.notify_all] ∧
    (∀ x ∈ (jointStateCallback_trace (freshMonitor exampleArm (1 / 1000000))
        (positionsMsg 7 ["A"] [1 / 2])).2, ∀ e, x.1 = TraceStep.event e →
      x.2.robot_state_.position exampleJointA = 1 / 2 ∧
      x.2.joint_time_ exampleJointA = some 7) := by
  have gA : exampleArm.getJointModel "A" = some exampleJointA := rfl
  have h := jointStateCallback_observers_between_merge_and_notify
    (freshMonitor exampleArm (1 / 1000000)) (positionsMsg 7 ["A"] [1 / 2]) rfl
  have hpos : (jointStateCallback (freshMonitor exampleArm (1 / 1000000))
      (positionsMsg 7 ["A"] [1 / 2])).1.robot_state_.position exampleJointA = 1 / 2 := by
    simp [jointStateCallback, jointStateLoop, jointStateStep, positionsMsg, freshMonitor, gA,
      exampleJointA, RobotState.getJointPositions, RobotState.setJointPositions,
      JointModel.isContinuousRevolute, belowWithinError, aboveWithinError]
    norm_num
  have h1 := h.2.2.1 ⟨0, by decide, exampleJointA, gA, rfl, by
    simp [positionsMsg, freshMonitor]⟩
  have hcb : (freshMonitor exampleArm (1 / 1000000)).update_callbacks_ = [0, 1] := rfl
  have hlen : (positionsMsg 7 ["A"] [1 / 2]).name.length = 1 := rfl
  rw [hcb] at h1
  refine ⟨?_, ?_, ?_⟩
  · rw [h1]
    rfl
  · rw [h.2.1, h1, hlen]
    rfl
  · intro x hx e he
    rw [h.2.1, hlen] at hx
    simp only [List.mem_append, List.mem_map] at hx
    rcases hx with ⟨i, -, hi⟩ | ⟨e2, -, he2⟩
    · rw [← hi] at he
      cases he
    · rw [← he2]
      exact ⟨hpos, h.2.2.2.1 0 (by decide) exampleJointA gA rfl⟩

/-! ## The deferred flush of the state refresh -/

/-- C27: on a monitor with a scene, after `newPlanningSceneMessage` the member
`last_robot_motion_time_` is the header stamp of `robot_state.joint_state` of the message,
for every message (diff or not, with or without robot state); the same holds for a second
message applied afterwards, so the member is not monotone: if the first message reached
the target time `t` and the stamp of the second is below `t`, the member is at least `t`
after the first message and below `t` after the second. -/
theorem newPlanningSceneMessage_motion_time_is_stamp
    (isEmptyWorld : PlanningSceneWorldMsg → Bool)
    (isEmptyRobotState : RobotStateMsg → Bool)
    (absorb : PlanningSceneMsg → PlanningScene → PlanningScene)
    (accepted : PlanningSceneMsg → Bool)
    (m : PlanningSceneMonitor) (scene scene2 : PlanningSceneMsg) (now now2 : Time)
    (hs : m.scene_ ≠ none) :
    (newPlanningSceneMessage isEmptyWorld isEmptyRobotState absorb accepted m scene
      now).1.last_robot_motion_time_ = scene.robot_state.joint_state.stamp ∧
    (newPlanningSceneMessage isEmptyWorld isEmptyRobotState absorb accepted
      (newPlanningSceneMessage isEmptyWorld isEmptyRobotState absorb accepted m scene now).1
      scene2 now2).1.last_robot_motion_time_ = scene2.robot_state.joint_state.stamp ∧
    (∀ t : Time, t ≤ scene.robot_state.joint_state.stamp →
      scene2.robot_state.joint_state.stamp < t →
      t ≤ (newPlanningSceneMessage isEmptyWorld isEmptyRobotState absorb accepted m scene
        now).1.last_robot_motion_time_ ∧
      (newPlanningSceneMessage isEmptyWorld isEmptyRobotState absorb accepted
        (newPlanningSceneMessage isEmptyWorld isEmptyRobotState absorb accepted m scene now).1
        scene2 now2).1.last_robot_motion_time_ < t) := by
  cases hsa : m.scene_ with
  | none => exact absurd hsa hs
  | some a =>
    obtain ⟨p1, p2, p3⟩ := newPlanningSceneMessage_pointers isEmptyWorld isEmptyRobotState
      absorb accepted m scene now a hsa
    have hs1 : ∃ b, (newPlanningSceneMessage isEmptyWorld isEmptyRobotState absorb accepted m
        scene now).1.scene_ = some b := by
      by_cases hc : scene.is_diff = false ∧ m.parent_scene_.isSome = true
      · exact ⟨_, (p1 hc).2.2⟩
      · exact ⟨_, (p2 hc).2.2⟩
    obtain ⟨b, hb⟩ := hs1
    obtain ⟨-, -, q3⟩ := newPlanningSceneMessage_pointers isEmptyWorld isEmptyRobotState
      absorb accepted _ scene2 now2 b hb
    refine ⟨p3, q3, ?_⟩
    intro t h1 h2
    rw [p3, q3]
    exact ⟨h1, h2⟩

/-- Witness of C27: the example monitor receives a state diff stamped `5`, then a diff that
only adds a world object (classified `UPDATE_GEOMETRY`), whose robot state carries the
default stamp `0`: the time of the last robot motion is `5`, then `0`, below the target
time `5` that the first message had reached. -/
theorem newPlanningSceneMessage_motion_time_is_stamp_witness :
    (newPlanningSceneMessage exampleIsEmptyWorld exampleIsEmptyRobotState (fun _ s => s)
      (fun _ => true) (exampleSceneMonitor UPDATE_NONE) (stateOnlyDiff [])
      10).1.last_robot_motion_time_ = 5 ∧
    (newPlanningSceneMessage exampleIsEmptyWorld exampleIsEmptyRobotState (fun _ s => s)
      (fun _ => true)
      (newPlanningSceneMessage exampleIsEmptyWorld exampleIsEmptyRobotState (fun _ s => s)
        (fun _ => true) (exampleSceneMonitor UPDATE_NONE) (stateOnlyDiff []) 10).1
      exampleGeometryDiff 11).1.last_robot_motion_time_ = 0 ∧
    newPlanningSceneMessage_upd exampleIsEmptyWorld exampleIsEmptyRobotState "scene"
      exampleGeometryDiff = UPDATE_GEOMETRY ∧
    ((5 : Time) ≤ (newPlanningSceneMessage exampleIsEmptyWorld exampleIsEmptyRobotState
        (fun _ s => s) (fun _ => true) (exampleSceneMonitor UPDATE_NONE) (stateOnlyDiff [])
        10).1.last_robot_motion_time_ ∧
      (newPlanningSceneMessage exampleIsEmptyWorld exampleIsEmptyRobotState (fun _ s => s)
        (fun _ => true)
        (newPlanningSceneMessage exampleIsEmptyWorld exampleIsEmptyRobotState (fun _ s => s)
          (fun _ => true) (exampleSceneMonitor UPDATE_NONE) (stateOnlyDiff []) 10).1
        exampleGeometryDiff 11).1.last_robot_motion_time_ < 5) := by
  have h := newPlanningSceneMessage_motion_time_is_stamp exampleIsEmptyWorld
    exampleIsEmptyRobotState (fun _ s => s) (fun _ => true) (exampleSceneMonitor UPDATE_NONE)
    (stateOnlyDiff []) exampleGeometryDiff 10 11 (by simp [exampleSceneMonitor])
  exact ⟨h.1, h.2.1, by decide, h.2.2 5 (by decide) (by decide)⟩

/-! ## The parent chain and `updatesScene` -/

theorem nthAncestor_none (scenes : List PlanningScene) :
    ∀ n, nthAncestor scenes n none = none := by
  intro n
  induction n with
  | zero => rfl
  | succ k ih => simpa [nthAncestor] using ih

/-- On a chain that ends within `N` steps, `sceneIsParentOf` returns with any fuel above
`N`, and it returns `true` exactly when the possible parent is on the chain. -/
theorem sceneIsParentOf_spec (scenes : List PlanningScene) (s : Option Nat) :
    ∀ (N fuel : Nat) (start : Option Nat),
      nthAncestor scenes N start = none → N < fuel →
      ∃ b, sceneIsParentOf scenes fuel start s = some b ∧
        (b = true ↔ ∃ a n, s = some a ∧ nthAncestor scenes n start = some a) := by
  intro N
  induction N with
  | zero =>
    intro fuel start h hf
    obtain ⟨f, rfl⟩ : ∃ f, fuel = f + 1 := ⟨fuel - 1, by omega⟩
    have hs : start = none := h
    subst hs
    refine ⟨false, rfl, ?_⟩
    constructor
    · intro h; cases h
    · rintro ⟨a, n, -, hn⟩
      rw [nthAncestor_none] at hn
      cases hn
  | succ k ih =>
    intro fuel start h hf
    obtain ⟨f, rfl⟩ : ∃ f, fuel = f + 1 := ⟨fuel - 1, by omega⟩
    cases start with
    | none =>
      refine ⟨false, rfl, ?_⟩
      constructor
      · intro h; cases h
      · rintro ⟨a, n, -, hn⟩
        rw [nthAncestor_none] at hn
        cases hn
    | some a =>
      by_cases he : some a = s
      · refine ⟨true, by simp [sceneIsParentOf, he], ?_⟩
        constructor
        · intro _
          exact ⟨a, 0, he.symm, rfl⟩
        · intro _; rfl
      · have h2 : nthAncestor scenes k (getParent scenes a) = none := h
        obtain ⟨b, hb, hiff⟩ := ih f (getParent scenes a) h2 (by omega)
        refine ⟨b, by simp [sceneIsParentOf, he, hb], ?_⟩
        rw [hiff]
        constructor
        · rintro ⟨a', n, e1, e2⟩
          exact ⟨a', n + 1, e1, e2⟩
        · rintro ⟨a', n, e1, e2⟩
          cases n with
          | zero =>
            exfalso
            apply he
            have : some a = some a' := e2
            rw [this, e1]
          | succ n' => exact ⟨a', n', e1, e2⟩

/-- C30: (1) when the parent chain of the current scene ends within `N` steps (a finite
acyclic chain), `updatesScene(s)` returns with any fuel above `N`, and it returns `true`
if and only if `s` is not null and is the current scene or one of its ancestors; for a null
`s` it returns `false`. (2) `updatesScene` of the current scene is `true`. (3) After
`monitorDiffs(true)` on a monitor with a scene, the parent scene is the former current
scene and `updatesScene(parent_scene_)` is `true`. -/
theorem updatesScene_iff_on_parent_chain (m : PlanningSceneMonitor) (s : Option Nat) :
    (∀ N fuel, nthAncestor m.scenes N m.scene_ = none → N < fuel →
      ∃ b, updatesScene m s fuel = some b ∧
        (b = true ↔ ∃ a n, s = some a ∧ nthAncestor m.scenes n m.scene_ = some a) ∧
        (s = none → b = false)) ∧
    (∀ fuel a, m.scene_ = some a → updatesScene m m.scene_ (fuel + 1) = some true) ∧
    (∀ fuel a s0, m.scene_ = some a → m.scenes[a]? = some s0 →
      (monitorDiffs m true).parent_scene_ = some a ∧
      updatesScene (monitorDiffs m true) (monitorDiffs m true).parent_scene_ (fuel + 2)
        = some true) := by
  refine ⟨?_, ?_, ?_⟩
  · intro N fuel h hf
    obtain ⟨b, hb, hiff⟩ := sceneIsParentOf_spec m.scenes s N fuel m.scene_ h hf
    refine ⟨b, hb, hiff, ?_⟩
    intro hs
    cases hbv : b with
    | false => rfl
    | true =>
      obtain ⟨a, n, e1, -⟩ := hiff.mp hbv
      rw [hs] at e1
      cases e1
  · intro fuel a ha
    unfold updatesScene
    rw [ha]
    simp [sceneIsParentOf]
  · intro fuel a s0 ha hsa
    have hM : monitorDiffs m true = monitorDiffs_couple m := by
      unfold monitorDiffs
      simp [ha]
    obtain ⟨c1, c2, -, -, c5, -⟩ := monitorDiffs_couple_spec m a s0 ha hsa
    have hlt := lt_length_of_getElem?_eq_some m.scenes a s0 hsa
    rw [hM]
    refine ⟨c2, ?_⟩
    unfold updatesScene
    rw [c1, c2]
    have hne : ¬ (some m.scenes.length = some a) := by
      intro e
      have : m.scenes.length = a := Option.some.inj e
      omega
    have hp : getParent (monitorDiffs_couple m).scenes m.scenes.length = some a := by
      unfold getParent
      rw [c5]
      rfl
    simp [sceneIsParentOf, hne, hp]

/-- Witness of C30: in the coupled example monitor the current scene is the object `1`, a
diff of the root `0`. `updatesScene` is `true` for `1` and for `0`, `false` for the null
pointer and for an address outside the chain. -/
theorem updatesScene_iff_on_parent_chain_witness :
    updatesScene (exampleCoupledMonitor 0 0) (some 1) 3 = some true ∧
    updatesScene (exampleCoupledMonitor 0 0) (some 0) 3 = some true ∧
    updatesScene (exampleCoupledMonitor 0 0) none 3 = some false ∧
    updatesScene (exampleCoupledMonitor 0 0) (some 7) 3 = some false ∧
    (∃ b, updatesScene (exampleCoupledMonitor 0 0) (some 7) 3 = some b ∧
      (b = true ↔ ∃ a n, some 7 = some a ∧
        nthAncestor (exampleCoupledMonitor 0 0).scenes n (exampleCoupledMonitor 0 0).scene_
          = some a) ∧
      ((some 7 : Option Nat) = none → b = false)) := by
  refine ⟨rfl, rfl, rfl, rfl, ?_⟩
  exact (updatesScene_iff_on_parent_chain (exampleCoupledMonitor 0 0) (some 7)).1 2 3 rfl
    (by decide)

/-! ## `waitForCompleteState` for a joint group -/

/-- C25, the code at the failing input: on a monitor of the grouped example arm that never received a joint
update, `waitForCompleteState("arm", 1/10)` returns `true`, although the state is
incomplete after the wait, the joints `A` and `B` of the group `arm` are among the joints
without a timestamp, and the loop over the names of the group finds a missing joint; for a
group that does not exist the call returns `false`. -/
theorem waitForCompleteState_group_true_with_missing_group_joint :
    waitForCompleteState_group (fun _ => freshMonitor exampleArmGrouped (1 / 1000000)) "arm"
      (1 / 10) 12 = some true ∧
    waitForCompleteState (fun _ => freshMonitor exampleArmGrouped (1 / 1000000)) (1 / 10) 12
      = some (false, 11) ∧
    haveCompleteStateMissing (freshMonitor exampleArmGrouped (1 / 1000000)) []
      = (false, ["A", "B", "W"]) ∧
    exampleArmGrouped.getJointModelGroup "arm"
      = some { name := "arm", joint_model_names := ["A", "B"] } ∧
    groupJointsKnown (freshMonitor exampleArmGrouped (1 / 1000000))
      { name := "arm", joint_model_names := ["A", "B"] } = false ∧
    waitForCompleteState_group (fun _ => freshMonitor exampleArmGrouped (1 / 1000000)) "leg"
      (1 / 10) 12 = some false := by
  have hfresh : haveCompleteState (freshMonitor exampleArmGrouped (1 / 1000000)) = false := by
    decide
  have hmiss : haveCompleteStateMissing (freshMonitor exampleArmGrouped (1 / 1000000)) []
      = (false, ["A", "B", "W"]) := by decide
  have hg : (freshMonitor exampleArmGrouped (1 / 1000000)).robot_model_.getJointModelGroup "arm"
      = some { name := "arm", joint_model_names := ["A", "B"] } := by decide
  have hl : (freshMonitor exampleArmGrouped (1 / 1000000)).robot_model_.getJointModelGroup "leg"
      = none := by decide
  have hw : waitForCompleteState (fun _ => freshMonitor exampleArmGrouped (1 / 1000000))
      (1 / 10) 12 = some (false, 11) :=
    waitForCompleteState_tenth _ (fun _ => hfresh)
  refine ⟨?_, hw, hmiss, hg, by decide, ?_⟩
  · unfold waitForCompleteState_group
    rw [hw]
    simp only [Bool.false_eq_true, if_false, hmiss, Bool.not_false, if_true, hg]
  · unfold waitForCompleteState_group
    rw [hw]
    simp only [Bool.false_eq_true, if_false, hmiss, Bool.not_false, if_true, hl]

/-! ## The transform-lookup wait time of `initialize` -/

theorem castInt_fraction (w : ℚ) : castInt (w - castInt w) = 0 := by
  unfold castInt
  by_cases h : 0 ≤ w
  · simp only [h, if_true]
    have h1 : 0 ≤ w - (⌊w⌋ : ℚ) := by linarith [Int.floor_le w]
    have h2 : w - (⌊w⌋ : ℚ) < 1 := by linarith [Int.lt_floor_add_one w]
    simp only [h1, if_true]
    rw [Int.floor_eq_zero_iff]
    exact ⟨h1, h2⟩
  · simp only [h, if_false]
    have h1 : w - (⌈w⌉ : ℚ) ≤ 0 := by linarith [Int.le_ceil w]
    have h2 : -1 < w - (⌈w⌉ : ℚ) := by linarith [Int.ceil_lt_add_one w]
    by_cases h3 : 0 ≤ w - (⌈w⌉ : ℚ)
    · simp only [h3, if_true]
      rw [Int.floor_eq_zero_iff]
      exact ⟨h3, by linarith⟩
    · simp only [h3, if_false]
      rw [Int.ceil_eq_zero_iff]
      exact ⟨h2, h1⟩

/-- C29, the code at the failing input: with no parameter set, `initialize` computes the transform-lookup wait
time `0` and not `0.05` s (`50000000` ns); with the parameter `3/2` it computes `1` s and
not `1.5` s; and for every value of the parameter it computes the whole seconds of the
value alone, the nanoseconds argument being `0`. -/
theorem initialize_wait_time_drops_fraction :
    initialize_shape_transform_cache_lookup_wait_time none = 0 ∧
    configuredWaitTime (5 / 100) = 50000000 ∧
    initialize_shape_transform_cache_lookup_wait_time (some (3 / 2)) = 1000000000 ∧
    configuredWaitTime (3 / 2) = 1500000000 ∧
    (∀ w : ℚ, initialize_shape_transform_cache_lookup_wait_time (some w)
      = castInt w * 1000000000) := by
  have key : ∀ w : ℚ, Duration (castInt w)
      ((castInt (w - castInt w) : ℚ) * 1000000000) = castInt w * 1000000000 := by
    intro w
    unfold Duration
    rw [castInt_fraction]
    simp [castInt]
  refine ⟨?_, ?_, ?_, ?_, ?_⟩
  · show Duration _ _ = 0
    rw [key]
    norm_num [castInt]
  · norm_num [configuredWaitTime]
  · show Duration _ _ = 1000000000
    rw [key]
    norm_num [castInt]
  · norm_num [configuredWaitTime]
  · intro w
    exact key w

/-! ## Ingesting an update twice -/

theorem mapFind_mapErase {κ α : Type} [DecidableEq κ] (m : List (κ × List α)) (key : κ) :
    mapFind (mapErase m key) key = none := by
  unfold mapFind mapErase
  induction m with
  | nil => rfl
  | cons e m ih =>
    by_cases h : e.1 = key
    · simp [List.filter_cons, h]
    · simp [List.filter_cons, h, List.find?_cons]

theorem forgetAll_nil (o : OccupancyMapMonitor) : forgetAll o [] = o := rfl

/-- C21: `includeAttachedBodyInOctree` and `includeWorldObjectInOctree` on a body for which
the map holds no entry leave the members as they are (the three maps, and the occupancy
subsystem, to which no `forgetShape` is sent); applying either of them twice to a body is
the same as applying it once, and so for `includeRobotLinksInOctree`,
`includeAttachedBodiesInOctree` and `includeWorldObjectsInOctree`. -/
theorem include_in_octree_idempotent (c : ShapeHandles) (attached_body : AttachedBody)
    (obj : Object) :
    (mapFind c.attached_body_shape_handles_ attached_body = none →
      includeAttachedBodyInOctree c attached_body = c) ∧
    (mapFind c.collision_body_shape_handles_ obj.id_ = none →
      includeWorldObjectInOctree c obj = c) ∧
    includeAttachedBodyInOctree (includeAttachedBodyInOctree c attached_body) attached_body
      = includeAttachedBodyInOctree c attached_body ∧
    includeWorldObjectInOctree (includeWorldObjectInOctree c obj) obj
      = includeWorldObjectInOctree c obj ∧
    includeRobotLinksInOctree (includeRobotLinksInOctree c) = includeRobotLinksInOctree c ∧
    includeAttachedBodiesInOctree (includeAttachedBodiesInOctree c)
      = includeAttachedBodiesInOctree c ∧
    includeWorldObjectsInOctree (includeWorldObjectsInOctree c)
      = includeWorldObjectsInOctree c := by
  refine ⟨?_, ?_, ?_, ?_, ?_, ?_, ?_⟩
  · intro h
    unfold includeAttachedBodyInOctree
    cases ho : c.octomap_monitor_ with
    | none => rfl
    | some o => simp only [h]
  · intro h
    unfold includeWorldObjectInOctree
    cases ho : c.octomap_monitor_ with
    | none => rfl
    | some o => simp only [h]
  · cases ho : c.octomap_monitor_ with
    | none =>
      have : includeAttachedBodyInOctree c attached_body = c := by
        unfold includeAttachedBodyInOctree; simp only [ho]
      rw [this, this]
    | some o =>
      cases hf : mapFind c.attached_body_shape_handles_ attached_body with
      | none =>
        have : includeAttachedBodyInOctree c attached_body = c := by
          unfold includeAttachedBodyInOctree; simp only [ho, hf]
        rw [this, this]
      | some entries =>
        have h1 : includeAttachedBodyInOctree c attached_body =
            { c with
              octomap_monitor_ := some (forgetAll o (entries.map Prod.fst)),
              attached_body_shape_handles_ :=
                mapErase c.attached_body_shape_handles_ attached_body } := by
          unfold includeAttachedBodyInOctree; simp only [ho, hf]
        rw [h1]
        unfold includeAttachedBodyInOctree
        simp only [mapFind_mapErase]
  · cases ho : c.octomap_monitor_ with
    | none =>
      have : includeWorldObjectInOctree c obj = c := by
        unfold includeWorldObjectInOctree; simp only [ho]
      rw [this, this]
    | some o =>
      cases hf : mapFind c.collision_body_shape_handles_ obj.id_ with
      | none =>
        have : includeWorldObjectInOctree c obj = c := by
          unfold includeWorldObjectInOctree; simp only [ho, hf]
        rw [this, this]
      | some entries =>
        have h1 : includeWorldObjectInOctree c obj =
            { c with
              octomap_monitor_ := some (forgetAll o (entries.map Prod.fst)),
              collision_body_shape_handles_ :=
                mapErase c.collision_body_shape_handles_ obj.id_ } := by
          unfold includeWorldObjectInOctree; simp only [ho, hf]
        rw [h1]
        unfold includeWorldObjectInOctree
        simp only [mapFind_mapErase]
  · unfold includeRobotLinksInOctree
    cases ho : c.octomap_monitor_ with
    | none => simp only [ho]
    | some o => simp only [storedHandles, forgetAll_nil]
  · unfold includeAttachedBodiesInOctree
    cases ho : c.octomap_monitor_ with
    | none => simp only [ho]
    | some o => simp only [storedHandles, forgetAll_nil]
  · unfold includeWorldObjectsInOctree
    cases ho : c.octomap_monitor_ with
    | none => simp only [ho]
    | some o => simp only [storedHandles, forgetAll_nil]

/-- Witness of C21: the example box is excluded on the fresh example members (handle `1`).
The example tool has no entry, and including it changes nothing; including the box forgets
the handle `1` once, and including it a second time forgets nothing more. -/
theorem include_in_octree_idempotent_witness :
    mapFind (excludeWorldObjectFromOctree exampleShapeHandles
      exampleBox).attached_body_shape_handles_ exampleTool = none ∧
    includeAttachedBodyInOctree (excludeWorldObjectFromOctree exampleShapeHandles exampleBox)
      exampleTool = excludeWorldObjectFromOctree exampleShapeHandles exampleBox ∧
    (includeWorldObjectInOctree (includeWorldObjectInOctree
      (excludeWorldObjectFromOctree exampleShapeHandles exampleBox) exampleBox)
      exampleBox).octomap_monitor_.map OccupancyMapMonitor.forgotten = some [1] ∧
    (includeWorldObjectInOctree
      (excludeWorldObjectFromOctree exampleShapeHandles exampleBox)
      exampleBox).octomap_monitor_.map OccupancyMapMonitor.forgotten = some [1] := by
  have h := include_in_octree_idempotent
    (excludeWorldObjectFromOctree exampleShapeHandles exampleBox) exampleTool exampleBox
  refine ⟨rfl, h.1 rfl, ?_, rfl⟩
  rw [h.2.2.2.1]
  rfl

/-- C22, the code at the failing input: on the fresh example members the example box (a box and a plane, not
the octomap object) is created: the map holds the entry `(1, 0)` for it. After a callback
with the action `MOVE_SHAPE` the map holds no entry for the box, and the handles `1` and
`2` have been forgotten: the box is no longer excluded. In general, after a callback whose
action has not the bit `CREATE` (a move, or a `DESTROY`), on an object other than the
octomap object, the map holds no entry for the object. -/
theorem currentWorldObjectUpdateCallback_move_drops_entries :
    mapFind (currentWorldObjectUpdateCallback exampleShapeHandles exampleBox
      CREATE).collision_body_shape_handles_ "box" = some [(1, 0)] ∧
    mapFind (currentWorldObjectUpdateCallback
      (currentWorldObjectUpdateCallback exampleShapeHandles exampleBox CREATE) exampleBox
      MOVE_SHAPE).collision_body_shape_handles_ "box" = none ∧
    (currentWorldObjectUpdateCallback
      (currentWorldObjectUpdateCallback exampleShapeHandles exampleBox CREATE) exampleBox
      MOVE_SHAPE).octomap_monitor_.map OccupancyMapMonitor.forgotten = some [1, 2] ∧
    (currentWorldObjectUpdateCallback
      (currentWorldObjectUpdateCallback exampleShapeHandles exampleBox CREATE) exampleBox
      MOVE_SHAPE).octomap_monitor_.map OccupancyMapMonitor.excluded = some [1, 2] ∧
    (∀ (c : ShapeHandles) (obj : Object) (action : Nat),
      c.octomap_monitor_ ≠ none → obj.id_ ≠ OCTOMAP_NS →
      action &&& CREATE = 0 →
      mapFind (currentWorldObjectUpdateCallback c obj action).collision_body_shape_handles_
        obj.id_ = none) := by
  refine ⟨rfl, rfl, rfl, rfl, ?_⟩
  intro c obj action ho hid hc
  have hinc : ∀ c' : ShapeHandles, c'.octomap_monitor_ ≠ none →
      mapFind (includeWorldObjectInOctree c' obj).collision_body_shape_handles_ obj.id_
        = none := by
    intro c' ho'
    unfold includeWorldObjectInOctree
    cases ho2 : c'.octomap_monitor_ with
    | none => exact absurd ho2 ho'
    | some o =>
      cases hf : mapFind c'.collision_body_shape_handles_ obj.id_ with
      | none => simp only [hf]
      | some entries => simp only [mapFind_mapErase]
  have hexc : (excludeWorldObjectFromOctree c obj).octomap_monitor_ ≠ none := by
    unfold excludeWorldObjectFromOctree
    cases ho2 : c.octomap_monitor_ with
    | none => exact absurd ho2 ho
    | some o => simp
  unfold currentWorldObjectUpdateCallback
  cases ho2 : c.octomap_monitor_ with
  | none => exact absurd ho2 ho
  | some o =>
    simp only [hid, if_false, hc, ne_eq, not_true_eq_false]
    split
    · exact hinc c ho
    · exact hinc _ hexc

/-! ## The invariant of the maps of shape handles -/

theorem storedHandles_append {κ β : Type} (m m2 : List (κ × List (ShapeHandle × β))) :
    storedHandles (m ++ m2) = storedHandles m ++ storedHandles m2 := by
  induction m with
  | nil => rfl
  | cons e m ih => simp [storedHandles, ih]

theorem mapFind_cons {κ α : Type} [DecidableEq κ] (e : κ × List α) (m : List (κ × List α))
    (key : κ) :
    mapFind (e :: m) key = if e.1 = key then some e.2 else mapFind m key := by
  unfold mapFind
  by_cases h : e.1 = key
  · simp [List.find?_cons, h]
  · simp [List.find?_cons, h]

theorem mapFind_eq_none {κ α : Type} [DecidableEq κ] (m : List (κ × List α)) (key : κ)
    (h : key ∉ m.map Prod.fst) : mapFind m key = none := by
  induction m with
  | nil => rfl
  | cons e m ih =>
    simp only [List.map_cons, List.mem_cons, not_or] at h
    rw [mapFind_cons, if_neg (fun e1 => h.1 e1.symm)]
    exact ih h.2

theorem mapFind_mem {κ α : Type} [DecidableEq κ] (m : List (κ × List α)) (key : κ)
    (v : List α) (h : mapFind m key = some v) : key ∈ m.map Prod.fst := by
  by_contra hn
  rw [mapFind_eq_none m key hn] at h
  cases h

theorem map_update_of_not_mem {κ α : Type} [DecidableEq κ] (m : List (κ × List α)) (key : κ)
    (v : α) (h : key ∉ m.map Prod.fst) :
    m.map (fun e => if e.1 = key then (e.1, e.2 ++ [v]) else e) = m := by
  induction m with
  | nil => rfl
  | cons e m ih =>
    simp only [List.map_cons, List.mem_cons, not_or] at h
    have hne : ¬ e.1 = key := fun e1 => h.1 e1.symm
    simp only [List.map_cons, if_neg hne, ih h.2]

theorem filter_ne_of_not_mem {κ α : Type} [DecidableEq κ] (m : List (κ × List α)) (key : κ)
    (h : key ∉ m.map Prod.fst) : mapErase m key = m := by
  unfold mapErase
  induction m with
  | nil => rfl
  | cons e m ih =>
    simp only [List.map_cons, List.mem_cons, not_or] at h
    have hne : e.1 ≠ key := fun e1 => h.1 e1.symm
    rw [List.filter_cons_of_pos (by simpa using hne), ih h.2]

theorem mapPushBack_cons_ne {κ α : Type} [DecidableEq κ] (e : κ × List α)
    (m : List (κ × List α)) (key : κ) (v : α) (h : e.1 ≠ key) :
    mapPushBack (e :: m) key v = e :: mapPushBack m key v := by
  unfold mapPushBack
  rw [mapFind_cons, if_neg h]
  cases mapFind m key with
  | none => rfl
  | some w => simp [h]

theorem mapPushBack_cons_eq {κ α : Type} [DecidableEq κ] (e : κ × List α)
    (m : List (κ × List α)) (key : κ) (v : α) (h : e.1 = key)
    (hn : key ∉ m.map Prod.fst) :
    mapPushBack (e :: m) key v = (e.1, e.2 ++ [v]) :: m := by
  unfold mapPushBack
  rw [mapFind_cons, if_pos h]
  simp only [List.map_cons, if_pos h]
  rw [map_update_of_not_mem m key v hn]

/-- What `m[key].push_back((h, i))` does to a map without duplicate keys: the keys stay
distinct and the handle `h` is added to the handles held. -/
theorem mapPushBack_spec {κ β : Type} [DecidableEq κ] (key : κ) (h : ShapeHandle) (i : β) :
    ∀ (m : List (κ × List (ShapeHandle × β))), (m.map Prod.fst).Nodup →
      ((mapPushBack m key (h, i)).map Prod.fst).Nodup ∧
      (∀ k, k ∈ (mapPushBack m key (h, i)).map Prod.fst ↔ k = key ∨ k ∈ m.map Prod.fst) ∧
      ((storedHandles (mapPushBack m key (h, i)) : Multiset ShapeHandle)
        = h ::ₘ (storedHandles m : Multiset ShapeHandle)) := by
  intro m
  induction m with
  | nil =>
    intro _
    refine ⟨by simp [mapPushBack, mapFind], by simp [mapPushBack, mapFind], ?_⟩
    simp [mapPushBack, mapFind, storedHandles]
  | cons e m ih =>
    intro hnd
    simp only [List.map_cons, List.nodup_cons] at hnd
    by_cases he : e.1 = key
    · have hn : key ∉ m.map Prod.fst := by rw [← he]; exact hnd.1
      rw [mapPushBack_cons_eq e m key (h, i) he hn]
      refine ⟨?_, ?_, ?_⟩
      · simp only [List.map_cons, List.nodup_cons]
        exact hnd
      · intro k
        simp only [List.map_cons, List.mem_cons]
        constructor
        · intro hk; exact Or.inr hk
        · rintro (hk | hk)
          · left; rw [hk, he]
          · exact hk
      · simp only [storedHandles, List.map_append, List.map_cons, List.map_nil]
        rw [← Multiset.coe_add, ← Multiset.coe_add, ← Multiset.coe_add]
        rw [← Multiset.cons_add]
        congr 1
        rw [← Multiset.singleton_add, add_comm]
        rfl
    · obtain ⟨i1, i2, i3⟩ := ih hnd.2
      rw [mapPushBack_cons_ne e m key (h, i) he]
      refine ⟨?_, ?_, ?_⟩
      · simp only [List.map_cons, List.nodup_cons]
        refine ⟨?_, i1⟩
        intro hk
        rcases (i2 e.1).mp hk with h1 | h1
        · exact he h1
        · exact hnd.1 h1
      · intro k
        simp only [List.map_cons, List.mem_cons]
        rw [i2 k]
        tauto
      · simp only [storedHandles]
        rw [← Multiset.coe_add, i3, ← Multiset.coe_add, Multiset.add_cons]

/-- What `m.erase(it)` does to a map without duplicate keys, for the iterator found for
`key`: the keys stay distinct and the handles of the entry leave the handles held. -/
theorem mapErase_spec {κ β : Type} [DecidableEq κ] (key : κ) :
    ∀ (m : List (κ × List (ShapeHandle × β))) (v : List (ShapeHandle × β)),
      (m.map Prod.fst).Nodup → mapFind m key = some v →
      ((mapErase m key).map Prod.fst).Nodup ∧
      ((storedHandles m : Multiset ShapeHandle)
        = ((v.map Prod.fst : List ShapeHandle) : Multiset ShapeHandle)
          + (storedHandles (mapErase m key) : Multiset ShapeHandle)) := by
  intro m
  induction m with
  | nil => intro v _ h; cases h
  | cons e m ih =>
    intro v hnd hf
    simp only [List.map_cons, List.nodup_cons] at hnd
    rw [mapFind_cons] at hf
    by_cases he : e.1 = key
    · rw [if_pos he] at hf
      have hv : e.2 = v := Option.some.inj hf
      have hn : key ∉ m.map Prod.fst := by rw [← he]; exact hnd.1
      have herase : mapErase (e :: m) key = m := by
        have := filter_ne_of_not_mem m key hn
        unfold mapErase at this ⊢
        rw [List.filter_cons_of_neg (by simpa using he)]
        exact this
      rw [herase]
      refine ⟨hnd.2, ?_⟩
      simp only [storedHandles]
      rw [← Multiset.coe_add, hv]
    · rw [if_neg he] at hf
      obtain ⟨i1, i2⟩ := ih v hnd.2 hf
      have herase : mapErase (e :: m) key = e :: mapErase m key := by
        unfold mapErase
        rw [List.filter_cons_of_pos (by simpa using he)]
      rw [herase]
      refine ⟨?_, ?_⟩
      · simp only [List.map_cons, List.nodup_cons]
        refine ⟨?_, i1⟩
        intro hk
        apply hnd.1
        unfold mapErase at hk
        rw [List.mem_map] at hk ⊢
        obtain ⟨x, hx, hx2⟩ := hk
        exact ⟨x, (List.mem_filter.mp hx).1, hx2⟩
      · simp only [storedHandles]
        rw [← Multiset.coe_add, ← Multiset.coe_add, i2]
        rw [← add_assoc, ← add_assoc, add_comm (↑(List.map Prod.fst e.2) : Multiset ShapeHandle)]

theorem forgetAll_spec (handles : List ShapeHandle) :
    ∀ o : OccupancyMapMonitor,
      (forgetAll o handles).forgotten = o.forgotten ++ handles ∧
      (forgetAll o handles).excluded = o.excluded ∧
      (forgetAll o handles).handle_count_ = o.handle_count_ ∧
      (forgetAll o handles).accepts = o.accepts := by
  induction handles with
  | nil => intro o; simp [forgetAll]
  | cons h hs ih =>
    intro o
    obtain ⟨i1, i2, i3, i4⟩ := ih (o.forgetShape h)
    unfold forgetAll at i1 i2 i3 i4 ⊢
    simp only [List.foldl_cons]
    rw [i1, i2, i3, i4]
    simp [OccupancyMapMonitor.forgetShape]

theorem excludeShapeStep_inv {κ : Type} [DecidableEq κ] (rest : Multiset ShapeHandle)
    (key : κ) (shape : Shape) (i : Nat)
    (st : OccupancyMapMonitor × List (κ × List (ShapeHandle × Nat)))
    (h : pairInvariant rest st) : pairInvariant rest (excludeShapeStep key shape i st) := by
  obtain ⟨h1, h2, h3, h4, h5⟩ := h
  unfold excludeShapeStep OccupancyMapMonitor.excludeShape
  by_cases ha : st.1.accepts shape = true
  · simp only [ha, if_true, ne_eq, Nat.add_one_ne_zero, not_false_eq_true]
    obtain ⟨p1, -, p3⟩ := mapPushBack_spec key (st.1.handle_count_ + 1) i st.2 h1
    refine ⟨p1, ?_, ?_, ?_, ?_⟩
    · show (storedHandles (mapPushBack st.2 key (st.1.handle_count_ + 1, i)) :
          Multiset ShapeHandle) + rest + (st.1.forgotten : Multiset ShapeHandle)
          = ((st.1.excluded ++ [st.1.handle_count_ + 1] : List ShapeHandle) :
              Multiset ShapeHandle)
      rw [p3, ← Multiset.coe_add, ← h2, Multiset.cons_add, Multiset.cons_add,
        ← Multiset.singleton_add, add_comm]
      rfl
    · intro h0
      have : (0 : ShapeHandle) ∈ (storedHandles (mapPushBack st.2 key
          (st.1.handle_count_ + 1, i)) : Multiset ShapeHandle) := Multiset.mem_coe.mpr h0
      rw [p3, Multiset.mem_cons] at this
      rcases this with e | e
      · exact absurd e.symm (Nat.succ_ne_zero _)
      · exact h3 (Multiset.mem_coe.mp e)
    · show (st.1.excluded ++ [st.1.handle_count_ + 1]).Nodup
      rw [List.nodup_append]
      refine ⟨h4, List.nodup_singleton _, ?_⟩
      intro a ha1 ha2
      rw [List.mem_singleton] at ha2
      have := (h5 a ha1).2
      rw [ha2] at this
      exact absurd this (Nat.not_succ_le_self _)
    · intro a ha1
      show 0 < a ∧ a ≤ st.1.handle_count_ + 1
      have ha2 : a ∈ st.1.excluded ++ [st.1.handle_count_ + 1] := ha1
      rw [List.mem_append, List.mem_singleton] at ha2
      rcases ha2 with e | e
      · exact ⟨(h5 a e).1, Nat.le_succ_of_le (h5 a e).2⟩
      · rw [e]
        exact ⟨Nat.succ_pos _, le_refl _⟩
  · simp only [ha, Bool.false_eq_true, if_false, ne_eq, not_true_eq_false]
    exact ⟨h1, h2, h3, h4, h5⟩

theorem excludeShapesLoop_inv {κ : Type} [DecidableEq κ] (rest : Multiset ShapeHandle)
    (skip_flat : Bool) (key : κ) :
    ∀ (shapes : List Shape) (i : Nat)
      (st : OccupancyMapMonitor × List (κ × List (ShapeHandle × Nat))),
      pairInvariant rest st → pairInvariant rest (excludeShapesLoop skip_flat key i shapes st) := by
  intro shapes
  induction shapes with
  | nil => intro i st h; exact h
  | cons shape tail ih =>
    intro i st h
    simp only [excludeShapesLoop]
    apply ih
    split
    · exact h
    · exact excludeShapeStep_inv rest key shape i st h

theorem includeOne_inv {κ : Type} [DecidableEq κ] (rest : Multiset ShapeHandle) (key : κ)
    (o : OccupancyMapMonitor) (m : List (κ × List (ShapeHandle × Nat)))
    (v : List (ShapeHandle × Nat)) (hf : mapFind m key = some v)
    (h : pairInvariant rest (o, m)) :
    pairInvariant rest (forgetAll o (v.map Prod.fst), mapErase m key) := by
  obtain ⟨h1, h2, h3, h4, h5⟩ := h
  obtain ⟨e1, e2⟩ := mapErase_spec key m v h1 hf
  obtain ⟨g1, g2, g3, -⟩ := forgetAll_spec (v.map Prod.fst) o
  refine ⟨e1, ?_, ?_, ?_, ?_⟩
  · show (storedHandles (mapErase m key) : Multiset ShapeHandle) + rest
        + ((forgetAll o (v.map Prod.fst)).forgotten : Multiset ShapeHandle)
        = ((forgetAll o (v.map Prod.fst)).excluded : Multiset ShapeHandle)
    rw [g1, g2, ← Multiset.coe_add]
    have h2' : (storedHandles m : Multiset ShapeHandle) + rest
        + (o.forgotten : Multiset ShapeHandle) = (o.excluded : Multiset ShapeHandle) := h2
    rw [← h2', e2]
    abel
  · intro h0
    apply h3
    have : (0 : ShapeHandle) ∈ (storedHandles m : Multiset ShapeHandle) := by
      rw [e2, Multiset.mem_add]
      exact Or.inr (Multiset.mem_coe.mpr h0)
    exact Multiset.mem_coe.mp this
  · show (forgetAll o (v.map Prod.fst)).excluded.Nodup
    rw [g2]; exact h4
  · show ∀ a ∈ (forgetAll o (v.map Prod.fst)).excluded,
        0 < a ∧ a ≤ (forgetAll o (v.map Prod.fst)).handle_count_
    rw [g2, g3]; exact h5

theorem includeAll_inv {κ : Type} (rest : Multiset ShapeHandle)
    (o : OccupancyMapMonitor) (m : List (κ × List (ShapeHandle × Nat)))
    (h : pairInvariant rest (o, m)) :
    pairInvariant rest
      (forgetAll o (storedHandles m), ([] : List (κ × List (ShapeHandle × Nat)))) := by
  obtain ⟨-, h2, -, h4, h5⟩ := h
  obtain ⟨g1, g2, g3, -⟩ := forgetAll_spec (storedHandles m) o
  refine ⟨List.nodup_nil, ?_, by simp [storedHandles], ?_, ?_⟩
  · show (storedHandles ([] : List (κ × List (ShapeHandle × Nat))) : Multiset ShapeHandle)
        + rest + ((forgetAll o (storedHandles m)).forgotten : Multiset ShapeHandle)
        = ((forgetAll o (storedHandles m)).excluded : Multiset ShapeHandle)
    rw [g1, g2, ← Multiset.coe_add]
    have h2' : (storedHandles m : Multiset ShapeHandle) + rest
        + (o.forgotten : Multiset ShapeHandle) = (o.excluded : Multiset ShapeHandle) := h2
    rw [← h2']
    simp only [storedHandles, Multiset.coe_nil, zero_add]
    abel
  · show (forgetAll o (storedHandles m)).excluded.Nodup
    rw [g2]; exact h4
  · show ∀ a ∈ (forgetAll o (storedHandles m)).excluded,
        0 < a ∧ a ≤ (forgetAll o (storedHandles m)).handle_count_
    rw [g2, g3]; exact h5

theorem handlesInvariant_update_links (c : ShapeHandles) (o o2 : OccupancyMapMonitor)
    (m2 : List (LinkModel × List (ShapeHandle × Nat)))
    (h : handlesInvariant c o)
    (hstep : ∀ rest, pairInvariant rest (o, c.link_shape_handles_) →
      pairInvariant rest (o2, m2)) :
    handlesInvariant { c with octomap_monitor_ := some o2, link_shape_handles_ := m2 } o2 := by
  obtain ⟨k1, k2, k3, hb, h0, hn, hr⟩ := h
  simp only [allStoredHandles, List.mem_append, not_or] at h0
  have hp : pairInvariant
      ((storedHandles c.attached_body_shape_handles_ : Multiset ShapeHandle)
        + (storedHandles c.collision_body_shape_handles_ : Multiset ShapeHandle))
      (o, c.link_shape_handles_) := by
    refine ⟨k1, ?_, h0.1.1, hn, hr⟩
    rw [← hb]
    simp only [allStoredHandles, ← Multiset.coe_add]
    abel
  obtain ⟨q1, q2, q3, q4, q5⟩ := hstep _ hp
  refine ⟨q1, k2, k3, ?_, ?_, q4, q5⟩
  · rw [← q2]
    simp only [allStoredHandles, ← Multiset.coe_add]
    abel
  · simp only [allStoredHandles, List.mem_append, not_or]
    exact ⟨⟨q3, h0.1.2⟩, h0.2⟩

theorem handlesInvariant_update_attached (c : ShapeHandles) (o o2 : OccupancyMapMonitor)
    (m2 : List (AttachedBody × List (ShapeHandle × Nat)))
    (h : handlesInvariant c o)
    (hstep : ∀ rest, pairInvariant rest (o, c.attached_body_shape_handles_) →
      pairInvariant rest (o2, m2)) :
    handlesInvariant
      { c with octomap_monitor_ := some o2, attached_body_shape_handles_ := m2 } o2 := by
  obtain ⟨k1, k2, k3, hb, h0, hn, hr⟩ := h
  simp only [allStoredHandles, List.mem_append, not_or] at h0
  have hp : pairInvariant
      ((storedHandles c.link_shape_handles_ : Multiset ShapeHandle)
        + (storedHandles c.collision_body_shape_handles_ : Multiset ShapeHandle))
      (o, c.attached_body_shape_handles_) := by
    refine ⟨k2, ?_, h0.1.2, hn, hr⟩
    rw [← hb]
    simp only [allStoredHandles, ← Multiset.coe_add]
    abel
  obtain ⟨q1, q2, q3, q4, q5⟩ := hstep _ hp
  refine ⟨k1, q1, k3, ?_, ?_, q4, q5⟩
  · rw [← q2]
    simp only [allStoredHandles, ← Multiset.coe_add]
    abel
  · simp only [allStoredHandles, List.mem_append, not_or]
    exact ⟨⟨h0.1.1, q3⟩, h0.2⟩

theorem handlesInvariant_update_collision (c : ShapeHandles) (o o2 : OccupancyMapMonitor)
    (m2 : List (String × List (ShapeHandle × Nat)))
    (h : handlesInvariant c o)
    (hstep : ∀ rest, pairInvariant rest (o, c.collision_body_shape_handles_) →
      pairInvariant rest (o2, m2)) :
    handlesInvariant
      { c with octomap_monitor_ := some o2, collision_body_shape_handles_ := m2 } o2 := by
  obtain ⟨k1, k2, k3, hb, h0, hn, hr⟩ := h
  simp only [allStoredHandles, List.mem_append, not_or] at h0
  have hp : pairInvariant
      ((storedHandles c.link_shape_handles_ : Multiset ShapeHandle)
        + (storedHandles c.attached_body_shape_handles_ : Multiset ShapeHandle))
      (o, c.collision_body_shape_handles_) := by
    refine ⟨k3, ?_, h0.2, hn, hr⟩
    rw [← hb]
    simp only [allStoredHandles, ← Multiset.coe_add]
    abel
  obtain ⟨q1, q2, q3, q4, q5⟩ := hstep _ hp
  refine ⟨k1, k2, q1, ?_, ?_, q4, q5⟩
  · rw [← q2]
    simp only [allStoredHandles, ← Multiset.coe_add]
    abel
  · simp only [allStoredHandles, List.mem_append, not_or]
    exact ⟨h0.1, q3⟩

theorem includeRobotLinksInOctree_inv (c : ShapeHandles) (o : OccupancyMapMonitor)
    (ho : c.octomap_monitor_ = some o) (h : handlesInvariant c o) :
    ∃ o2, (includeRobotLinksInOctree c).octomap_monitor_ = some o2 ∧
      handlesInvariant (includeRobotLinksInOctree c) o2 := by
  unfold includeRobotLinksInOctree
  simp only [ho]
  exact ⟨_, rfl, handlesInvariant_update_links c o _ _ h
    (fun rest hp => includeAll_inv rest o _ hp)⟩

theorem includeAttachedBodiesInOctree_inv (c : ShapeHandles) (o : OccupancyMapMonitor)
    (ho : c.octomap_monitor_ = some o) (h : handlesInvariant c o) :
    ∃ o2, (includeAttachedBodiesInOctree c).octomap_monitor_ = some o2 ∧
      handlesInvariant (includeAttachedBodiesInOctree c) o2 := by
  unfold includeAttachedBodiesInOctree
  simp only [ho]
  exact ⟨_, rfl, handlesInvariant_update_attached c o _ _ h
    (fun rest hp => includeAll_inv rest o _ hp)⟩

theorem includeWorldObjectsInOctree_inv (c : ShapeHandles) (o : OccupancyMapMonitor)
    (ho : c.octomap_monitor_ = some o) (h : handlesInvariant c o) :
    ∃ o2, (includeWorldObjectsInOctree c).octomap_monitor_ = some o2 ∧
      handlesInvariant (includeWorldObjectsInOctree c) o2 := by
  unfold includeWorldObjectsInOctree
  simp only [ho]
  exact ⟨_, rfl, handlesInvariant_update_collision c o _ _ h
    (fun rest hp => includeAll_inv rest o _ hp)⟩

theorem excludeAttachedBodyFromOctree_inv (attached_body : AttachedBody) (c : ShapeHandles)
    (o : OccupancyMapMonitor) (ho : c.octomap_monitor_ = some o) (h : handlesInvariant c o) :
    ∃ o2, (excludeAttachedBodyFromOctree c attached_body).octomap_monitor_ = some o2 ∧
      handlesInvariant (excludeAttachedBodyFromOctree c attached_body) o2 := by
  unfold excludeAttachedBodyFromOctree
  simp only [ho]
  exact ⟨_, rfl, handlesInvariant_update_attached c o _ _ h
    (fun rest hp => excludeShapesLoop_inv rest true attached_body _ 0 _ hp)⟩

theorem excludeWorldObjectFromOctree_inv (obj : Object) (c : ShapeHandles)
    (o : OccupancyMapMonitor) (ho : c.octomap_monitor_ = some o) (h : handlesInvariant c o) :
    ∃ o2, (excludeWorldObjectFromOctree c obj).octomap_monitor_ = some o2 ∧
      handlesInvariant (excludeWorldObjectFromOctree c obj) o2 := by
  unfold excludeWorldObjectFromOctree
  simp only [ho]
  exact ⟨_, rfl, handlesInvariant_update_collision c o _ _ h
    (fun rest hp => excludeShapesLoop_inv rest true obj.id_ _ 0 _ hp)⟩

theorem includeAttachedBodyInOctree_inv (attached_body : AttachedBody) (c : ShapeHandles)
    (o : OccupancyMapMonitor) (ho : c.octomap_monitor_ = some o) (h : handlesInvariant c o) :
    ∃ o2, (includeAttachedBodyInOctree c attached_body).octomap_monitor_ = some o2 ∧
      handlesInvariant (includeAttachedBodyInOctree c attached_body) o2 := by
  unfold includeAttachedBodyInOctree
  cases hf : mapFind c.attached_body_shape_handles_ attached_body with
  | none =>
    simp only [ho]
    exact ⟨o, rfl, h⟩
  | some v =>
    simp only [ho]
    exact ⟨_, rfl, handlesInvariant_update_attached c o _ _ h
      (fun rest hp => includeOne_inv rest attached_body o _ v hf hp)⟩

theorem includeWorldObjectInOctree_inv (obj : Object) (c : ShapeHandles)
    (o : OccupancyMapMonitor) (ho : c.octomap_monitor_ = some o) (h : handlesInvariant c o) :
    ∃ o2, (includeWorldObjectInOctree c obj).octomap_monitor_ = some o2 ∧
      handlesInvariant (includeWorldObjectInOctree c obj) o2 := by
  unfold includeWorldObjectInOctree
  cases hf : mapFind c.collision_body_shape_handles_ obj.id_ with
  | none =>
    simp only [ho]
    exact ⟨o, rfl, h⟩
  | some v =>
    simp only [ho]
    exact ⟨_, rfl, handlesInvariant_update_collision c o _ _ h
      (fun rest hp => includeOne_inv rest obj.id_ o _ v hf hp)⟩

theorem foldl_handlesInvariant {β : Type} (f : ShapeHandles → β → ShapeHandles)
    (hf : ∀ (b : β) (c : ShapeHandles) (o : OccupancyMapMonitor),
      c.octomap_monitor_ = some o → handlesInvariant c o →
      ∃ o2, (f c b).octomap_monitor_ = some o2 ∧ handlesInvariant (f c b) o2) :
    ∀ (bs : List β) (c : ShapeHandles) (o : OccupancyMapMonitor),
      c.octomap_monitor_ = some o → handlesInvariant c o →
      ∃ o2, (bs.foldl f c).octomap_monitor_ = some o2 ∧
        handlesInvariant (bs.foldl f c) o2 := by
  intro bs
  induction bs with
  | nil => intro c o ho h; exact ⟨o, ho, h⟩
  | cons b bs ih =>
    intro c o ho h
    obtain ⟨o1, ho1, h1⟩ := hf b c o ho h
    simp only [List.foldl_cons]
    exact ih (f c b) o1 ho1 h1

theorem excludeRobotLinksFromOctree_inv (links : List LinkModel) (c : ShapeHandles)
    (o : OccupancyMapMonitor) (ho : c.octomap_monitor_ = some o) (h : handlesInvariant c o) :
    ∃ o2, (excludeRobotLinksFromOctree c links).octomap_monitor_ = some o2 ∧
      handlesInvariant (excludeRobotLinksFromOctree c links) o2 := by
  obtain ⟨o1, ho1, h1⟩ := includeRobotLinksInOctree_inv c o ho h
  have hfold : ∀ (rest : Multiset ShapeHandle) (ls : List LinkModel)
      (st : OccupancyMapMonitor × List (LinkModel × List (ShapeHandle × Nat))),
      pairInvariant rest st →
      pairInvariant rest
        (ls.foldl (fun st link => excludeShapesLoop false link 0 link.shapes st) st) := by
    intro rest ls
    induction ls with
    | nil => intro st hp; exact hp
    | cons l ls ih =>
      intro st hp
      simp only [List.foldl_cons]
      exact ih _ (excludeShapesLoop_inv rest false l _ 0 st hp)
  unfold excludeRobotLinksFromOctree
  simp only [ho, ho1]
  exact ⟨_, rfl, handlesInvariant_update_links (includeRobotLinksInOctree c) o1 _ _ h1
    (fun rest hp => hfold rest links _ hp)⟩

theorem currentStateAttachedBodyUpdateCallback_inv (attached_body : AttachedBody)
    (just_attached : Bool) (c : ShapeHandles)
    (o : OccupancyMapMonitor) (ho : c.octomap_monitor_ = some o) (h : handlesInvariant c o) :
    ∃ o2, (currentStateAttachedBodyUpdateCallback c attached_body
        just_attached).octomap_monitor_ = some o2 ∧
      handlesInvariant (currentStateAttachedBodyUpdateCallback c attached_body just_attached)
        o2 := by
  cases just_attached with
  | true =>
    have e : currentStateAttachedBodyUpdateCallback c attached_body true
        = excludeAttachedBodyFromOctree c attached_body := by
      unfold currentStateAttachedBodyUpdateCallback
      simp only [ho, if_true]
    rw [e]
    exact excludeAttachedBodyFromOctree_inv attached_body c o ho h
  | false =>
    have e : currentStateAttachedBodyUpdateCallback c attached_body false
        = includeAttachedBodyInOctree c attached_body := by
      unfold currentStateAttachedBodyUpdateCallback
      simp only [ho, Bool.false_eq_true, if_false]
    rw [e]
    exact includeAttachedBodyInOctree_inv attached_body c o ho h

theorem currentWorldObjectUpdateCallback_inv (obj : Object) (action : Nat) (c : ShapeHandles)
    (o : OccupancyMapMonitor) (ho : c.octomap_monitor_ = some o) (h : handlesInvariant c o) :
    ∃ o2, (currentWorldObjectUpdateCallback c obj action).octomap_monitor_ = some o2 ∧
      handlesInvariant (currentWorldObjectUpdateCallback c obj action) o2 := by
  have hcases : currentWorldObjectUpdateCallback c obj action = c ∨
      currentWorldObjectUpdateCallback c obj action = excludeWorldObjectFromOctree c obj ∨
      currentWorldObjectUpdateCallback c obj action = includeWorldObjectInOctree c obj ∨
      currentWorldObjectUpdateCallback c obj action
        = includeWorldObjectInOctree (excludeWorldObjectFromOctree c obj) obj := by
    unfold currentWorldObjectUpdateCallback
    simp only [ho]
    split
    · exact Or.inl rfl
    · split
      · exact Or.inr (Or.inl rfl)
      · split
        · exact Or.inr (Or.inr (Or.inl rfl))
        · exact Or.inr (Or.inr (Or.inr rfl))
  rcases hcases with e | e | e | e
  · rw [e]; exact ⟨o, ho, h⟩
  · rw [e]; exact excludeWorldObjectFromOctree_inv obj c o ho h
  · rw [e]; exact includeWorldObjectInOctree_inv obj c o ho h
  · rw [e]
    obtain ⟨o1, ho1, h1⟩ := excludeWorldObjectFromOctree_inv obj c o ho h
    exact includeWorldObjectInOctree_inv obj _ o1 ho1 h1

theorem ShapeOperation_apply_inv (op : ShapeOperation) (c : ShapeHandles)
    (o : OccupancyMapMonitor) (ho : c.octomap_monitor_ = some o) (h : handlesInvariant c o) :
    ∃ o2, (ShapeOperation.apply c op).octomap_monitor_ = some o2 ∧
      handlesInvariant (ShapeOperation.apply c op) o2 := by
  cases op with
  | excludeRobotLinksFromOctree links => exact excludeRobotLinksFromOctree_inv links c o ho h
  | includeRobotLinksInOctree => exact includeRobotLinksInOctree_inv c o ho h
  | excludeAttachedBodiesFromOctree ab =>
    obtain ⟨o1, ho1, h1⟩ := includeAttachedBodiesInOctree_inv c o ho h
    exact foldl_handlesInvariant excludeAttachedBodyFromOctree
      excludeAttachedBodyFromOctree_inv ab _ o1 ho1 h1
  | includeAttachedBodiesInOctree => exact includeAttachedBodiesInOctree_inv c o ho h
  | excludeWorldObjectsFromOctree world =>
    obtain ⟨o1, ho1, h1⟩ := includeWorldObjectsInOctree_inv c o ho h
    exact foldl_handlesInvariant excludeWorldObjectFromOctree
      excludeWorldObjectFromOctree_inv world _ o1 ho1 h1
  | includeWorldObjectsInOctree => exact includeWorldObjectsInOctree_inv c o ho h
  | excludeAttachedBodyFromOctree attached_body =>
    exact excludeAttachedBodyFromOctree_inv attached_body c o ho h
  | includeAttachedBodyInOctree attached_body =>
    exact includeAttachedBodyInOctree_inv attached_body c o ho h
  | excludeWorldObjectFromOctree obj => exact excludeWorldObjectFromOctree_inv obj c o ho h
  | includeWorldObjectInOctree obj => exact includeWorldObjectInOctree_inv obj c o ho h
  | currentStateAttachedBodyUpdateCallback attached_body just_attached =>
    exact currentStateAttachedBodyUpdateCallback_inv attached_body just_attached c o ho h
  | currentWorldObjectUpdateCallback obj action =>
    exact currentWorldObjectUpdateCallback_inv obj action c o ho h

/-- C28: (1) members without held handles, together with an occupancy subsystem that has
given and forgotten no handle, satisfy the invariant. (2) From members that satisfy the
invariant, after every sequence of calls of the functions that write the maps
(`excludeRobotLinksFromOctree`, `excludeAttachedBodiesFromOctree`,
`excludeWorldObjectsFromOctree`, the three `include…InOctree` for all bodies, the exclude
and include of one attached body or world object, and the two update callbacks) the
invariant holds again: the handles held by the three maps are, as a multiset, the non-null
handles obtained from `excludeShape` minus the handles passed to `forgetShape`; every
forgotten handle had been obtained and none is forgotten twice; no handle is held twice;
and no held handle is null. -/
theorem shape_handles_invariant (c : ShapeHandles) (o : OccupancyMapMonitor)
    (ops : List ShapeOperation) :
    (c.link_shape_handles_ = [] → c.attached_body_shape_handles_ = [] →
      c.collision_body_shape_handles_ = [] → o.excluded = [] → o.forgotten = [] →
      handlesInvariant c o) ∧
    (c.octomap_monitor_ = some o → handlesInvariant c o →
      ∃ o2, (runShapeOperations c ops).octomap_monitor_ = some o2 ∧
        handlesInvariant (runShapeOperations c ops) o2 ∧
        ((allStoredHandles (runShapeOperations c ops) : Multiset ShapeHandle)
          = (o2.excluded : Multiset ShapeHandle) - (o2.forgotten : Multiset ShapeHandle)) ∧
        (o2.forgotten : Multiset ShapeHandle) ≤ (o2.excluded : Multiset ShapeHandle) ∧
        o2.forgotten.Nodup ∧
        (allStoredHandles (runShapeOperations c ops)).Nodup ∧
        (0 : ShapeHandle) ∉ allStoredHandles (runShapeOperations c ops)) := by
  constructor
  · intro h1 h2 h3 h4 h5
    unfold handlesInvariant allStoredHandles
    rw [h1, h2, h3, h4, h5]
    simp [storedHandles]
  · intro ho h
    obtain ⟨o2, ho2, h2⟩ := foldl_handlesInvariant ShapeOperation.apply
      (fun b c o => ShapeOperation_apply_inv b c o) ops c o ho h
    refine ⟨o2, ho2, h2, ?_, ?_, ?_, ?_, h2.2.2.2.2.1⟩
    · rw [← h2.2.2.2.1]
      exact (add_tsub_cancel_right _ _).symm
    · rw [← h2.2.2.2.1]
      exact Multiset.le_add_left _ _
    · have hle : (o2.forgotten : Multiset ShapeHandle) ≤ (o2.excluded : Multiset ShapeHandle) := by
        rw [← h2.2.2.2.1]
        exact Multiset.le_add_left _ _
      exact Multiset.coe_nodup.mp
        (Multiset.nodup_of_le hle (Multiset.coe_nodup.mpr h2.2.2.2.2.2.1))
    · have hle : (allStoredHandles (runShapeOperations c ops) : Multiset ShapeHandle)
          ≤ (o2.excluded : Multiset ShapeHandle) := by
        rw [← h2.2.2.2.1]
        exact Multiset.le_add_right _ _
      exact Multiset.coe_nodup.mp
        (Multiset.nodup_of_le hle (Multiset.coe_nodup.mpr h2.2.2.2.2.2.1))

/-- Witness of C28: the example run on the fresh example members. The subsystem gives the
handles `1` to `5`; the move of the box forgets `2` and `4`, the new exclusion of the
attached bodies forgets `3`; the maps hold `1` (the link) and `5` (the tool). -/
theorem shape_handles_invariant_witness :
    allStoredHandles (runShapeOperations exampleShapeHandles exampleShapeOperations) = [1, 5] ∧
    (runShapeOperations exampleShapeHandles exampleShapeOperations).octomap_monitor_.map
      OccupancyMapMonitor.excluded = some [1, 2, 3, 4, 5] ∧
    (runShapeOperations exampleShapeHandles exampleShapeOperations).octomap_monitor_.map
      OccupancyMapMonitor.forgotten = some [2, 4, 3] ∧
    (∃ o2, (runShapeOperations exampleShapeHandles exampleShapeOperations).octomap_monitor_
        = some o2 ∧
      handlesInvariant (runShapeOperations exampleShapeHandles exampleShapeOperations) o2 ∧
      ((allStoredHandles (runShapeOperations exampleShapeHandles exampleShapeOperations) :
          Multiset ShapeHandle)
        = (o2.excluded : Multiset ShapeHandle) - (o2.forgotten : Multiset ShapeHandle)) ∧
      (o2.forgotten : Multiset ShapeHandle) ≤ (o2.excluded : Multiset ShapeHandle) ∧
      o2.forgotten.Nodup ∧
      (allStoredHandles (runShapeOperations exampleShapeHandles exampleShapeOperations)).Nodup ∧
      (0 : ShapeHandle) ∉
        allStoredHandles (runShapeOperations exampleShapeHandles exampleShapeOperations)) := by
  refine ⟨rfl, rfl, rfl, ?_⟩
  exact (shape_handles_invariant exampleShapeHandles exampleOccupancy
    exampleShapeOperations).2 rfl
    ((shape_handles_invariant exampleShapeHandles exampleOccupancy
      exampleShapeOperations).1 rfl rfl rfl rfl rfl)

end planning_scene_monitor
